import Mathlib

/-!
# OpenCL training harness: launch geometry, result verification, context set-up

Shallow embedding of `clutil.cpp`, `05_dot_product.cpp` and `07_convolution.cpp`.

* Host code that talks to the OpenCL runtime is embedded in the monad `CL`: a run
  reads the answers of the runtime from a `Runtime` record, appends every API call
  and every printed message to a `Log`, and ends by returning a value, by `exit`,
  or in behaviour the language leaves undefined.
* `int` values are `Int` with explicit range checks, `size_t`/`cl_ulong` values are
  `Nat` reduced modulo `2^64`.
* `float`/`double` values are rationals extended with NaN (`real_t`), with the
  unordered comparisons of NaN. The sums and products of the dot-product driver
  (`std::inner_product`, `std::accumulate`) are rounded to nearest, ties to even, at
  24 or 53 significant bits with an unbounded exponent range (`real_t.round`); the
  tolerance checks, the stencil and the elapsed time are computed exactly.
* A `std::string` or C string is a `String`, one `Char` for each `char`, and a null
  `const char*` argument is `none`.
-/

namespace OpenCLTraining

/-! ## Machine integers -/

/-- Smallest value of `int` (32 bit) -/
def INT_MIN : Int := -2147483648

/-- Largest value of `int` (32 bit) -/
def INT_MAX : Int := 2147483647

/-- Whether an integer is representable as `int` -/
def isInt (v : Int) : Bool := decide (INT_MIN ≤ v) && decide (v ≤ INT_MAX)

/-- Number of values of `size_t` and of `cl_ulong` (64 bit) -/
def SIZE_T_RANGE : Nat := 18446744073709551616

/-- Conversion of an `int` to `size_t`: reduction modulo `2^64` -/
def size_t_of_int (v : Int) : Nat := (v % (SIZE_T_RANGE : Int)).toNat

/-- Subtraction of two `cl_ulong` values: the difference modulo `2^64` -/
def cl_ulong_sub (a b : Nat) : Nat := (((a : Int) - (b : Int)) % (SIZE_T_RANGE : Int)).toNat

/-! ## Floating-point values -/

/-- A `float` or `double` value: a rational number, or NaN. The operations of the
namespace `real_t` give the exact result; `real_t.round` rounds a result to the format,
and the sums and products of the dot-product driver are rounded with it. -/
inductive real_t where
  | num (q : ℚ)
  | nan
  deriving DecidableEq, Repr

/-- The type `double`: a `real_t`, whose precision is a parameter of `real_t.round` -/
abbrev double := real_t

namespace real_t

/-- Subtraction `a - b`; NaN propagates -/
def sub : real_t → real_t → real_t
  | num a, num b => num (a - b)
  | _, _ => nan

/-- Addition `a + b`; NaN propagates -/
def add : real_t → real_t → real_t
  | num a, num b => num (a + b)
  | _, _ => nan

/-- Multiplication `a * b`; NaN propagates -/
def mul : real_t → real_t → real_t
  | num a, num b => num (a * b)
  | _, _ => nan

/-- Division `a / b`; NaN propagates, and a zero divisor (an infinity or NaN in
IEEE arithmetic) is not a number -/
def div : real_t → real_t → real_t
  | num a, num b => if b = 0 then nan else num (a / b)
  | _, _ => nan

/-- Absolute value `std::fabs`; the absolute value of NaN is NaN -/
def fabs : real_t → real_t
  | num a => num |a|
  | nan => nan

/-- Comparison `a > b`; false when either side is NaN -/
def gt : real_t → real_t → Bool
  | num a, num b => decide (b < a)
  | _, _ => false

/-- Comparison `a <= b`; false when either side is NaN -/
def le : real_t → real_t → Bool
  | num a, num b => decide (a ≤ b)
  | _, _ => false

/-- Whether the value is NaN -/
def isNaN : real_t → Bool
  | num _ => false
  | nan => true

end real_t

/-- The integer nearest to `x`; the even one of the two nearest when `x` lies halfway
between them -/
def round_half_even (x : ℚ) : Int :=
  if x - ⌊x⌋ < 1 / 2 then ⌊x⌋
  else if 1 / 2 < x - ⌊x⌋ then ⌊x⌋ + 1
  else if ⌊x⌋ % 2 = 0 then ⌊x⌋ else ⌊x⌋ + 1

/-- The value with `p` significant bits nearest to `q`, ties to even: with
`2^e <= |q| < 2^(e+1)` the values of the format around `q` are the multiples of
`2^(e - p + 1)`. The exponent range is not bounded: overflow to infinity and subnormal
numbers are not modelled. -/
def round_to (p : Nat) (q : ℚ) : ℚ :=
  if q = 0 then 0
  else (round_half_even (q / 2 ^ (Int.log 2 |q| - (p : Int) + 1)) : ℚ)
    * 2 ^ (Int.log 2 |q| - (p : Int) + 1)

/-- The number of significant bits of `real_t`: 53 for `double` in a build with
`USE_DOUBLE`, 24 for `float` otherwise -/
def significand_bits (USE_DOUBLE : Bool) : Nat := if USE_DOUBLE then 53 else 24

/-- The result of an arithmetic operation on `real_t` as stored in a `real_t`: the exact
result rounded to nearest, ties to even; NaN stays NaN -/
def real_t.round (USE_DOUBLE : Bool) : real_t → real_t
  | real_t.num q => real_t.num (round_to (significand_bits USE_DOUBLE) q)
  | real_t.nan => real_t.nan

/-! ## Runs of host code -/

/-- Status code of an OpenCL API call -/
abbrev cl_int := Int

/-- Status of a successful API call -/
def CL_SUCCESS : cl_int := 0

/-- Exit status of a successful process -/
def EXIT_SUCCESS : Int := 0

/-- Exit status of a failed process (the value of the usual C libraries) -/
def EXIT_FAILURE : Int := 1

/-- How a run of host code ends -/
inductive Outcome (α : Type) where
  /-- the code returned a value -/
  | ret (a : α)
  /-- the process was terminated by `exit(code)` -/
  | exit (code : Int)
  /-- the behaviour is undefined (division by zero, signed overflow) -/
  | undefined
  deriving DecidableEq

/-! ## The OpenCL runtime as seen by the host code -/

/-- Handle of a platform -/
abbrev cl_platform_id := Nat

/-- Handle of a device -/
abbrev cl_device_id := Nat

/-- Handle of a profiling event -/
abbrev cl_event := Nat

/-- Handle of a memory object (buffer or image): the number of API calls issued before
the call that created it -/
abbrev cl_mem := Nat

/-- Access and initialisation flags of a memory object -/
inductive cl_mem_flag where
  | CL_MEM_READ_WRITE
  | CL_MEM_WRITE_ONLY
  | CL_MEM_READ_ONLY
  | CL_MEM_COPY_HOST_PTR
  deriving DecidableEq, Repr

/-- Value of a kernel argument: a memory object or an `int` -/
inductive KernelArg where
  | mem (m : cl_mem)
  | int (v : Int)
  deriving DecidableEq, Repr

/-- Device class filter passed to `clGetDeviceIDs` -/
inductive cl_device_type where
  | CL_DEVICE_TYPE_DEFAULT
  | CL_DEVICE_TYPE_CPU
  | CL_DEVICE_TYPE_GPU
  | CL_DEVICE_TYPE_ACCELERATOR
  | CL_DEVICE_TYPE_ALL
  deriving DecidableEq, Repr

/-- Timestamp selector passed to `clGetEventProfilingInfo` -/
inductive cl_profiling_info where
  | CL_PROFILING_COMMAND_QUEUED
  | CL_PROFILING_COMMAND_SUBMIT
  | CL_PROFILING_COMMAND_START
  | CL_PROFILING_COMMAND_END
  deriving DecidableEq, Repr

/-- A context: the platform and the single device `clCreateContext` was given -/
structure cl_context where
  platform : cl_platform_id
  device : cl_device_id
  deriving DecidableEq, Repr

/-- A program: the context and the source text `clCreateProgramWithSource` was given -/
structure cl_program where
  context : cl_context
  source : String
  deriving DecidableEq, Repr

/-- A kernel: the program and the entry-point name `clCreateKernel` was given -/
structure cl_kernel where
  program : cl_program
  kernel_name : String
  deriving DecidableEq, Repr

/-- A command queue: context, device and whether profiling was requested -/
structure cl_command_queue where
  context : cl_context
  device : cl_device_id
  profiling : Bool
  deriving DecidableEq, Repr

/-- One invocation of an OpenCL API function, with the arguments that identify it -/
inductive Call where
  | clGetPlatformIDs (num_entries : Nat)
  | clGetPlatformInfo (platform : cl_platform_id)
  | clGetDeviceIDs (platform : cl_platform_id) (device_type : cl_device_type) (num_entries : Nat)
  | clCreateContext (platform : cl_platform_id) (device : cl_device_id)
  | clGetContextInfo (context : cl_context)
  | clCreateProgramWithSource (context : cl_context) (src : String) (length : Nat)
  | clBuildProgram (program : cl_program) (device : cl_device_id) (options : Option String)
  | clGetProgramBuildInfo (program : cl_program) (device : cl_device_id)
  | clCreateKernel (program : cl_program) (kernel_name : String)
  | clCreateCommandQueue (context : cl_context) (device : cl_device_id) (profiling : Bool)
  | clReleaseCommandQueue (command_queue : Option cl_command_queue)
  | clReleaseKernel (kernel : Option cl_kernel)
  | clReleaseProgram (program : Option cl_program)
  | clReleaseContext (context : Option cl_context)
  | clFinish (command_queue : cl_command_queue)
  | clEnqueueNDRangeKernel (command_queue : cl_command_queue) (kernel : cl_kernel)
      (work_dim : Nat) (global_work_size local_work_size : List Nat)
  | clWaitForEvents (event : cl_event)
  | clGetEventProfilingInfo (event : cl_event) (param_name : cl_profiling_info)
  | clCreateBuffer (context : Option cl_context) (flags : List cl_mem_flag) (size : Nat)
      (host_ptr : Option (List real_t))
  | clCreateImage2D (context : Option cl_context) (flags : List cl_mem_flag)
      (image_width image_height : Nat) (host_ptr : Option (List real_t))
  | clSetKernelArg (kernel : Option cl_kernel) (arg_index : Nat) (arg_value : KernelArg)
  | clEnqueueReadBuffer (command_queue : Option cl_command_queue) (buffer : cl_mem)
      (size : Nat)
  | clEnqueueReadImage (command_queue : Option cl_command_queue) (image : cl_mem)
      (region : List Nat)
  | clReleaseMemObject (memobj : cl_mem)
  deriving DecidableEq, Repr

/-- A message written to `std::cout` or `std::cerr` -/
inductive Message where
  /-- `check_cl_error`: "ERROR status -- msg" on `std::cerr` -/
  | error (status : cl_int) (msg : String)
  /-- "No OpenCL platforms found" on `std::cout` -/
  | no_platforms_found
  /-- "ERROR - Couldn't find platform platformName" on `std::cerr` -/
  | couldnt_find_platform (platformName : String)
  /-- "ERROR - device type deviceTypeName unknown" on `std::cerr` -/
  | device_type_unknown (deviceTypeName : String)
  /-- "ERROR - Cannot find device of type deviceTypeName" on `std::cerr` -/
  | cannot_find_device_of_type (deviceTypeName : String)
  /-- "ERROR - device number out of range: [0,last]" on `std::cerr` -/
  | device_number_out_of_range (last : Nat)
  /-- "ERROR - Cannot open file filepath" on `std::cerr` -/
  | cannot_open_file (filepath : String)
  /-- "Build output: buffer" on `std::cout` -/
  | build_output (buffer : String)
  /-- "size(SIZE) - halo must be evenly divisible by the workgroup size(BLOCK_SIZE)"
  on `std::cerr` -/
  | size_not_divisible (SIZE halo BLOCK_SIZE : Int)
  /-- the usage text of the dot-product driver on `std::cerr` -/
  | dot_product_usage (argv0 : String)
  /-- the usage text of the convolution driver on `std::cerr` -/
  | convolution_usage (argv0 : String)
  /-- "Double precision not supported by 1-element float images" on `std::cerr` -/
  | double_not_supported
  /-- "deviceDot hostDot" on `std::cout` -/
  | dot_values (deviceDot hostDot : real_t)
  /-- "Elapsed time: timems ms" on `std::cout` -/
  | elapsed_time (timems : real_t)
  /-- "PASSED" on `std::cout` -/
  | passed
  /-- "FAILED" on `std::cout` -/
  | failed
  deriving DecidableEq, Repr

/-- The answers of the OpenCL runtime and of the file system -/
structure Runtime where
  /-- status the runtime reports for a call, given the calls issued before it -/
  status : List Call → Call → cl_int
  /-- the platforms, in enumeration order -/
  platformIDs : List cl_platform_id
  /-- the `CL_PLATFORM_NAME` of a platform -/
  platformName : cl_platform_id → String
  /-- the devices of a class on a platform, in enumeration order -/
  deviceIDs : cl_platform_id → cl_device_type → List cl_device_id
  /-- the text of the file at a path, when it can be opened -/
  fileText : String → Option String
  /-- the build log of a program -/
  buildLog : cl_program → String
  /-- the size in bytes the runtime reports for the build log of a program -/
  buildLogSize : cl_program → Nat
  /-- the event the runtime creates for an enqueue, given the calls issued before it -/
  newEvent : List Call → cl_event
  /-- the timestamps (nanoseconds, `cl_ulong`) of an event -/
  profilingInfo : cl_event → cl_profiling_info → Nat
  /-- the data a blocking read copies to the host, given the calls issued before it -/
  readBack : List Call → List real_t

/-- What a run has done so far: API calls issued and messages printed, oldest first -/
structure Log where
  calls : List Call
  printed : List Message
  deriving DecidableEq, Repr

/-- The log of a run that has not done anything yet -/
def Log.empty : Log := ⟨[], []⟩

/-- Host code: given the runtime and the log so far, the new log and the outcome -/
def CL (α : Type) : Type := Runtime → Log → Log × Outcome α

namespace CL

/-- Return a value without any effect -/
def pure {α : Type} (a : α) : CL α := fun _ s => (s, Outcome.ret a)

/-- Sequencing: the second part runs only when the first part returned -/
def bind {α β : Type} (m : CL α) (f : α → CL β) : CL β := fun rt s =>
  match m rt s with
  | (s1, Outcome.ret a) => f a rt s1
  | (s1, Outcome.exit code) => (s1, Outcome.exit code)
  | (s1, Outcome.undefined) => (s1, Outcome.undefined)

instance : Monad CL where
  pure := CL.pure
  bind := CL.bind

/-- Issue an API call: it is logged and the runtime reports its status -/
def call (c : Call) : CL cl_int := fun rt s =>
  (⟨s.calls ++ [c], s.printed⟩, Outcome.ret (rt.status s.calls c))

/-- Read an answer of the runtime -/
def ask {α : Type} (f : Runtime → α) : CL α := fun rt s => (s, Outcome.ret (f rt))

/-- The calls issued so far -/
def history : CL (List Call) := fun _ s => (s, Outcome.ret s.calls)

/-- Write a message to `std::cout` or `std::cerr` -/
def print (m : Message) : CL Unit := fun _ s =>
  (⟨s.calls, s.printed ++ [m]⟩, Outcome.ret ())

/-- The library function `exit` -/
def exit {α : Type} (code : Int) : CL α := fun _ s => (s, Outcome.exit code)

/-- Undefined behaviour -/
def undefined {α : Type} : CL α := fun _ s => (s, Outcome.undefined)

/-- Run host code from the empty log -/
def run {α : Type} (m : CL α) (rt : Runtime) : Log × Outcome α := m rt Log.empty

end CL

/-- clutil.cpp `check_cl_error`: report and terminate unless the status is `CL_SUCCESS` -/
def check_cl_error (status : cl_int) (msg : String) : CL Unit :=
  if status ≠ CL_SUCCESS then do
    CL.print (Message.error status msg)
    CL.exit EXIT_FAILURE
  else
    pure ()

/-! ## clutil.cpp -/

/-- Conversion of an `int` to `cl_uint` (32 bit): reduction modulo `2^32` -/
def cl_uint_of_int (v : Int) : Nat := (v % 4294967296).toNat

/-- clutil.cpp `create_cl_context`, lines 50-59: the loop that looks for the platform
called `platformName`; it returns the iterator position, `none` standing for
`platformIDs.end()` -/
def create_cl_context.search (platformName : String) :
    List cl_platform_id → CL (Option cl_platform_id)
  | [] => pure none
  | pi :: rest => do
    let status ← CL.call (Call.clGetPlatformInfo pi)
    let buf ← CL.ask (fun rt => rt.platformName pi)
    check_cl_error status "clGetPlatformInfo"
    if platformName = buf then
      pure (some pi)
    else
      create_cl_context.search platformName rest

/-- clutil.cpp `create_cl_context`, lines 67-82: the device class selected by
`deviceTypeName`, `none` when the name is unknown -/
def create_cl_context.deviceType (deviceTypeName : String) : Option cl_device_type :=
  if deviceTypeName = "default" then
    some cl_device_type.CL_DEVICE_TYPE_DEFAULT
  else if deviceTypeName = "cpu" then
    some cl_device_type.CL_DEVICE_TYPE_CPU
  else if deviceTypeName = "gpu" then
    some cl_device_type.CL_DEVICE_TYPE_GPU
  else if deviceTypeName = "acc" then
    some cl_device_type.CL_DEVICE_TYPE_ACCELERATOR
  else if deviceTypeName = "all" then
    some cl_device_type.CL_DEVICE_TYPE_CPU
  else
    none

/-- clutil.cpp `create_cl_context`: the context of the device number `deviceNum` of
class `deviceTypeName` on the platform called `platformName` -/
def create_cl_context (platformName deviceTypeName : String) (deviceNum : Int) :
    CL cl_context := do
  -- 1) get platforms and search for platform matching platformName
  let status ← CL.call (Call.clGetPlatformIDs 0)
  let platformIDs ← CL.ask (fun rt => rt.platformIDs)
  let numPlatforms := platformIDs.length
  check_cl_error status "clGetPlatformIDs"
  if numPlatforms < 1 then
    CL.print Message.no_platforms_found
    CL.exit EXIT_SUCCESS
  let status ← CL.call (Call.clGetPlatformIDs numPlatforms)
  check_cl_error status "clGetPlatformIDs"
  let pi ← create_cl_context.search platformName platformIDs
  match pi with
  | none =>
    CL.print (Message.couldnt_find_platform platformName)
    CL.exit EXIT_FAILURE
  | some platformID =>
    -- 2) get devices of deviceTypeName type, select device id at position deviceNum
    match create_cl_context.deviceType deviceTypeName with
    | none =>
      CL.print (Message.device_type_unknown deviceTypeName)
      CL.exit EXIT_FAILURE
    | some deviceType =>
      let status ← CL.call (Call.clGetDeviceIDs platformID deviceType 0)
      let deviceIDs ← CL.ask (fun rt => rt.deviceIDs platformID deviceType)
      let numDevices := deviceIDs.length
      check_cl_error status "clGetDeviceIDs"
      if numDevices < 1 then
        CL.print (Message.cannot_find_device_of_type deviceTypeName)
        CL.exit EXIT_FAILURE
      let status ← CL.call (Call.clGetDeviceIDs platformID deviceType numDevices)
      check_cl_error status "clGetDeviceIDs"
      if deviceNum < 0 ∨ cl_uint_of_int deviceNum ≥ numDevices then
        CL.print (Message.device_number_out_of_range (numDevices - 1))
        CL.exit EXIT_FAILURE
      match deviceIDs[deviceNum.toNat]? with
      | none => CL.undefined
      | some deviceID =>
        -- 3) create and return context
        let status ← CL.call (Call.clCreateContext platformID deviceID)
        check_cl_error status "clCreateContext"
        pure ⟨platformID, deviceID⟩

/-- clutil.cpp `load_text`: the whole text of the file at `filepath` -/
def load_text (filepath : String) : CL String := do
  let src ← CL.ask (fun rt => rt.fileText filepath)
  match src with
  | none =>
    CL.print (Message.cannot_open_file filepath)
    CL.exit EXIT_FAILURE
  | some text => pure text

/-- Modelled from the spec: the record `CLEnv` declared in clutil.h, which is not among
the sources. An execution context owns a command queue, a compiled program and
zero-or-one kernel; the fields are the four the code assigns and releases, and a
field that was never assigned is `none`. -/
structure CLEnv where
  context : Option cl_context
  program : Option cl_program
  kernel : Option cl_kernel
  commandQueue : Option cl_command_queue
  deriving DecidableEq, Repr

/-- clutil.cpp `create_clenv`, lines 414-417: kernel creation, skipped for a null
`kernelName` -/
def create_clenv.kernel (program : cl_program) : Option String → CL (Option cl_kernel)
  | none => pure none
  | some kernelName => do
    let status ← CL.call (Call.clCreateKernel program kernelName)
    check_cl_error status "clCreateKernel"
    pure (some ⟨program, kernelName⟩)

/-- clutil.cpp `create_clenv`, lines 380-418: program and kernel, skipped for a null
`clSourcePath` -/
def create_clenv.program (context : cl_context) (deviceID : cl_device_id)
    (kernelName : Option String) ( clSourcePrefix : String) (buildOptions : String) :
    Option String → CL (Option cl_program × Option cl_kernel)
  | none => pure (none, none)
  | some clSourcePath => do
    -- 2) load kernel source
    let text ← load_text clSourcePath
    let programSource := clSourcePrefix ++ "\n" ++ text
    let sourceLength := programSource.length
    -- 3) build program and create kernel
    let status ← CL.call (Call.clCreateProgramWithSource context programSource sourceLength)
    check_cl_error status "clCreateProgramWithSource"
    let program : cl_program := ⟨context, programSource⟩
    let buildStatus ←
      if buildOptions.length ≠ 0 then
        CL.call (Call.clBuildProgram program deviceID (some buildOptions))
      else
        CL.call (Call.clBuildProgram program deviceID none)
    -- log output if any
    let status ← CL.call (Call.clGetProgramBuildInfo program deviceID)
    let buffer ← CL.ask (fun rt => rt.buildLog program)
    let len ← CL.ask (fun rt => rt.buildLogSize program)
    check_cl_error status "clBuildProgramInfo"
    if len > 1 then
      CL.print (Message.build_output buffer)
    check_cl_error buildStatus "clBuildProgram"
    let kernel ← create_clenv.kernel program kernelName
    pure (some program, kernel)

/-- clutil.cpp `create_clenv`: context, program, kernel and command queue of one run -/
def create_clenv (platformName deviceType : String) (deviceNum : Int)
    (enableProfiling : Bool) (clSourcePath kernelName : Option String)
    ( clSourcePrefix : String) (buildOptions : String) : CL CLEnv := do
  -- 1) create context
  let context ← create_cl_context platformName deviceType deviceNum
  let status ← CL.call (Call.clGetContextInfo context)
  let deviceID := context.device
  check_cl_error status "clGetContextInfo"
  let (program, kernel) ←
    create_clenv.program context deviceID kernelName clSourcePrefix buildOptions clSourcePath
  let status ← CL.call (Call.clCreateCommandQueue context deviceID enableProfiling)
  check_cl_error status "clCreateCommandQueue"
  pure ⟨some context, program, kernel, some ⟨context, deviceID, enableProfiling⟩⟩

/-- clutil.cpp `release_clenv`: release the four resources of the environment -/
def release_clenv (e : CLEnv) : CL Unit := do
  let status ← CL.call (Call.clReleaseCommandQueue e.commandQueue)
  check_cl_error status "clReleaseCommandQueue"
  let status ← CL.call (Call.clReleaseKernel e.kernel)
  check_cl_error status "clReleaseKernel"
  let status ← CL.call (Call.clReleaseProgram e.program)
  check_cl_error status "clReleaseProgram"
  let status ← CL.call (Call.clReleaseContext e.context)
  check_cl_error status "clReleaseContext"

/-- The value `(double)(endTime - startTime) / 1E6` of two `cl_ulong` timestamps -/
def elapsed_ms (startTime endTime : Nat) : double :=
  real_t.div (real_t.num ((cl_ulong_sub endTime startTime : Nat) : ℚ)) (real_t.num 1000000)

/-- clutil.cpp `timeEnqueueNDRangeKernel`: launch a kernel and return the time in
milliseconds between its being queued and its end -/
def timeEnqueueNDRangeKernel (command_queue : cl_command_queue) (kernel : cl_kernel)
    (work_dim : Nat) (global_work_size local_work_size : List Nat) : CL double := do
  let status ← CL.call (Call.clFinish command_queue)
  check_cl_error status "clFinish"
  let calls ← CL.history
  let profilingEvent ← CL.ask (fun rt => rt.newEvent calls)
  let status ← CL.call
    (Call.clEnqueueNDRangeKernel command_queue kernel work_dim global_work_size local_work_size)
  check_cl_error status "clEnqueueNDRangeKernel"
  let status ← CL.call (Call.clFinish command_queue)
  check_cl_error status "clFinish"
  let status ← CL.call (Call.clWaitForEvents profilingEvent)
  check_cl_error status "clWaitForEvents"
  let status ← CL.call (Call.clGetEventProfilingInfo profilingEvent
    cl_profiling_info.CL_PROFILING_COMMAND_QUEUED)
  let kernelStartTime ← CL.ask (fun rt =>
    rt.profilingInfo profilingEvent cl_profiling_info.CL_PROFILING_COMMAND_QUEUED)
  check_cl_error status "clGetEventProfilingInfo"
  let status ← CL.call (Call.clGetEventProfilingInfo profilingEvent
    cl_profiling_info.CL_PROFILING_COMMAND_END)
  let kernelEndTime ← CL.ask (fun rt =>
    rt.profilingInfo profilingEvent cl_profiling_info.CL_PROFILING_COMMAND_END)
  check_cl_error status "clGetEventProfilingInfo"
  -- event timing is reported in nanoseconds: divide by 1e6 to get milliseconds
  let kernelElapsedTime_ms := elapsed_ms kernelStartTime kernelEndTime
  pure kernelElapsedTime_ms

/-- clutil.cpp `get_cl_time`: the time in milliseconds between an event being queued
and its end -/
def get_cl_time (ev : cl_event) : CL double := do
  let status ← CL.call (Call.clGetEventProfilingInfo ev
    cl_profiling_info.CL_PROFILING_COMMAND_QUEUED)
  let startTime ← CL.ask (fun rt =>
    rt.profilingInfo ev cl_profiling_info.CL_PROFILING_COMMAND_QUEUED)
  check_cl_error status "clGetEventProfilingInfo"
  let status ← CL.call (Call.clGetEventProfilingInfo ev
    cl_profiling_info.CL_PROFILING_COMMAND_END)
  let endTime ← CL.ask (fun rt =>
    rt.profilingInfo ev cl_profiling_info.CL_PROFILING_COMMAND_END)
  check_cl_error status "clGetEventProfilingInfo"
  pure (elapsed_ms startTime endTime)

/-! ## Library functions and build configuration of the drivers -/

/-- The C library function `isspace` in the "C" locale -/
def isspace (c : Char) : Bool := c = ' ' || (9 ≤ c.toNat && c.toNat ≤ 13)

/-- The digits at the start of a string, read as a decimal number after `acc` -/
def atoi.digits : List Char → Int → Int
  | [], acc => acc
  | c :: cs, acc =>
    if c.isDigit then atoi.digits cs (acc * 10 + ((c.toNat : Int) - 48)) else acc

/-- The C library function `atoi`: white space is skipped, then an optional sign and
the decimal digits that follow are read; a string without digits there gives 0. The
result is the mathematical value: for a value outside `int` the behaviour of the
library function is undefined. -/
def atoi (s : String) : Int :=
  match s.data.dropWhile isspace with
  | '-' :: cs => - atoi.digits cs 0
  | '+' :: cs => atoi.digits cs 0
  | cs => atoi.digits cs 0

/-- The value of `sizeof(real_t)`: 8 in a build with `USE_DOUBLE`, 4 otherwise -/
def sizeof_real_t (USE_DOUBLE : Bool) : Nat := if USE_DOUBLE then 8 else 4

/-- The tolerance `EPS` of the drivers: 1e-9 in a build with `USE_DOUBLE`, 1e-5
otherwise -/
def EPS (USE_DOUBLE : Bool) : double :=
  if USE_DOUBLE then real_t.num (1 / 1000000000) else real_t.num (1 / 100000)

/-- Product of two `size_t` values: the product modulo `2^64` -/
def size_t_mul (a b : Nat) : Nat := (a * b) % SIZE_T_RANGE

/-- Conversion of a `size_t` to `int`: the value modulo `2^32` read as a two's
complement number -/
def int_of_size_t (n : Nat) : Int :=
  if n % 4294967296 < 2147483648 then ((n % 4294967296 : Nat) : Int)
  else ((n % 4294967296 : Nat) : Int) - 4294967296

/-- The command-line argument `argv[i]`; reading past the end of `argv` is undefined -/
def arg (argv : List String) (i : Nat) : CL String :=
  match argv[i]? with
  | some a => pure a
  | none => CL.undefined

/-- The values `lo, lo + 1, ..., hi - 1` a loop counter takes in
`for(int i = lo; i < hi; ++i)` -/
def intRange (lo hi : Int) : List Int :=
  (List.range (hi - lo).toNat).map (fun (k : Nat) => lo + (k : Int))

/-- Read of `v[i]` in a `std::vector`; `none` is a read outside the vector -/
def vec_get (v : List real_t) (i : Int) : Option real_t :=
  if i < 0 then none else v[i.toNat]?

/-- Write `v[i] = a` in a `std::vector`; `none` is a write outside the vector -/
def vec_set (v : List real_t) (i : Int) (a : real_t) : Option (List real_t) :=
  if 0 ≤ i ∧ i.toNat < v.length then some (v.set i.toNat a) else none

/-! ## 05_dot_product.cpp -/

namespace DotProduct

/-- 05_dot_product.cpp `check_result`: whether two values differ by no more than `eps` -/
def check_result (v1 v2 : real_t) (eps : double) : Bool :=
  if real_t.gt (real_t.fabs (real_t.sub v1 v2)) eps then false
  else true

/-- The vectors have 256 elements -/
def SIZE : Int := 256

/-- The work-group size is 16 -/
def BLOCK_SIZE : Int := 16

/-- The library function `std::inner_product` on `real_t` over the first range, with the
second range read in step: `init = init + a * b` for each pair, the product and the
sum each rounded to `real_t`; `none` is a read past the end of the second range -/
def inner_product (USE_DOUBLE : Bool) : List real_t → List real_t → real_t → Option real_t
  | [], _, init => some init
  | a :: v1, b :: v2, init =>
    inner_product USE_DOUBLE v1 v2
      (real_t.round USE_DOUBLE (real_t.add init (real_t.round USE_DOUBLE (real_t.mul a b))))
  | _ :: _, [], _ => none

/-- 05_dot_product.cpp `host_dot_product`: the dot product of two vectors -/
def host_dot_product (USE_DOUBLE : Bool) (v1 v2 : List real_t) : Option real_t :=
  inner_product USE_DOUBLE v1 v2 (real_t.num 0)

/-- The library function `std::accumulate` on `real_t` with `+`: `init = init + a` for
each element, the sum rounded to `real_t` -/
def accumulate (USE_DOUBLE : Bool) : List real_t → real_t → real_t
  | [], init => init
  | a :: v, init => accumulate USE_DOUBLE v (real_t.round USE_DOUBLE (real_t.add init a))

/-- Modelled from the spec: the kernel of the dot-product driver, which is not among the
sources. The partial reduction the device returns holds, for each of the
`size / blockSize` consecutive sub-arrays of `blockSize` elements, the dot product of
that sub-array of `V1` and `V2` ("16 partial sums" for 256 elements and block size
16), computed in `real_t` as `host_dot_product` computes it. -/
def partial_dot_products (USE_DOUBLE : Bool) (blockSize : Nat) (V1 V2 : List real_t) :
    List real_t :=
  (List.range (V1.length / blockSize)).map (fun k =>
    match host_dot_product USE_DOUBLE ((V1.drop (k * blockSize)).take blockSize)
      ((V2.drop (k * blockSize)).take blockSize) with
    | some d => d
    | none => real_t.nan)

/-- 05_dot_product.cpp `main`, lines 52-172: the driver once the number of arguments
has been checked; `V1` and `V2` are the vectors `create_vector` produces -/
def main.body (USE_DOUBLE : Bool) (argv : List String) (V1 V2 : List real_t) : CL Int := do
  let BYTE_SIZE := size_t_mul (size_t_of_int SIZE) (sizeof_real_t USE_DOUBLE)
  let REDUCED_SIZE := Int.tdiv SIZE BLOCK_SIZE
  let REDUCED_BYTE_SIZE :=
    int_of_size_t (size_t_mul (size_t_of_int REDUCED_SIZE) (sizeof_real_t USE_DOUBLE))
  -- setup text header that will be prefixed to opencl code
  let clheader :=
    "#define BLOCK_SIZE 16\n" ++ (if USE_DOUBLE then "#define DOUBLE\n" else "")
  let platformName ← arg argv 1
  let deviceType ← arg argv 2
  let deviceNum ← arg argv 3
  let clSourcePath ← arg argv 4
  let kernelName ← arg argv 5
  let clenv ← create_clenv platformName deviceType (atoi deviceNum) false
    (some clSourcePath) (some kernelName) clheader ""
  -- allocate output buffer on OpenCL device
  let calls ← CL.history
  let partialReduction : cl_mem := calls.length
  let status ← CL.call (Call.clCreateBuffer clenv.context [cl_mem_flag.CL_MEM_WRITE_ONLY]
    (size_t_of_int REDUCED_BYTE_SIZE) none)
  check_cl_error status "clCreateBuffer"
  -- allocate input buffers on OpenCL devices and copy data
  let calls ← CL.history
  let devV1 : cl_mem := calls.length
  let status ← CL.call (Call.clCreateBuffer clenv.context
    [cl_mem_flag.CL_MEM_READ_ONLY, cl_mem_flag.CL_MEM_COPY_HOST_PTR] BYTE_SIZE (some V1))
  check_cl_error status "clCreateBuffer"
  let calls ← CL.history
  let devV2 : cl_mem := calls.length
  let status ← CL.call (Call.clCreateBuffer clenv.context
    [cl_mem_flag.CL_MEM_READ_ONLY, cl_mem_flag.CL_MEM_COPY_HOST_PTR] BYTE_SIZE (some V2))
  check_cl_error status "clCreateBuffer"
  -- set kernel parameters
  let status ← CL.call (Call.clSetKernelArg clenv.kernel 0 (KernelArg.mem devV1))
  check_cl_error status "clSetKernelArg(V1)"
  let status ← CL.call (Call.clSetKernelArg clenv.kernel 1 (KernelArg.mem devV2))
  check_cl_error status "clSetKernelArg(V2)"
  let status ← CL.call (Call.clSetKernelArg clenv.kernel 2 (KernelArg.mem partialReduction))
  check_cl_error status "clSetKernelArg(devOut)"
  -- setup kernel launch configuration
  let globalWorkSize := [size_t_of_int SIZE]
  let localWorkSize := [size_t_of_int BLOCK_SIZE]
  -- launch kernel
  match clenv.commandQueue, clenv.kernel with
  | some commandQueue, some kernel =>
    let status ← CL.call
      (Call.clEnqueueNDRangeKernel commandQueue kernel 1 globalWorkSize localWorkSize)
    check_cl_error status "clEnqueueNDRangeKernel"
    -- read back and print results
    let calls ← CL.history
    let status ← CL.call (Call.clEnqueueReadBuffer clenv.commandQueue partialReduction
      (size_t_of_int REDUCED_BYTE_SIZE))
    let partialDot ← CL.ask (fun rt => rt.readBack calls)
    check_cl_error status "clEnqueueReadBuffer"
    let deviceDot := accumulate USE_DOUBLE partialDot (real_t.num 0)
    match host_dot_product USE_DOUBLE V1 V2 with
    | none => CL.undefined
    | some hostDot =>
      CL.print (Message.dot_values deviceDot hostDot)
      if check_result hostDot deviceDot (EPS USE_DOUBLE) then
        CL.print Message.passed
      else
        CL.print Message.failed
      let status ← CL.call (Call.clReleaseMemObject devV1)
      check_cl_error status "clReleaseMemObject"
      let status ← CL.call (Call.clReleaseMemObject devV2)
      check_cl_error status "clReleaseMemObject"
      let status ← CL.call (Call.clReleaseMemObject partialReduction)
      check_cl_error status "clReleaseMemObject"
      release_clenv clenv
      pure 0
  | _, _ => CL.undefined

/-- 05_dot_product.cpp `main`: the dot-product driver; `argc` is the length of `argv`, and
a missing `argv[0]` is printed as the empty string -/
def main (USE_DOUBLE : Bool) (argv : List String) (V1 V2 : List real_t) : CL Int := do
  if argv.length < 6 then
    CL.print (Message.dot_product_usage (argv.headD ""))
    CL.exit EXIT_FAILURE
  main.body USE_DOUBLE argv V1 V2

end DotProduct

/-! ## 07_convolution.cpp -/

namespace Convolution

/-- 07_convolution.cpp `check_result`, the loop: `n` iterations are left and `i` is the
current index; `none` is a read past the end of a vector -/
def check_result.loop (v1 v2 : List real_t) (eps : double) : Nat → Nat → Option Bool
  | 0, _ => some true
  | n + 1, i =>
    match v1[i]?, v2[i]? with
    | some a, some b =>
      if real_t.gt (real_t.fabs (real_t.sub a b)) eps then some false
      else check_result.loop v1 v2 eps n (i + 1)
    | _, _ => none

/-- 07_convolution.cpp `check_result`: whether two vectors differ by no more than `eps`
at every index of the first -/
def check_result (v1 v2 : List real_t) (eps : double) : Option Bool :=
  check_result.loop v1 v2 eps v1.length 0

/-- The filter is 3x3 -/
def FILTER_SIZE : Int := 3

/-- Global and local work size of a kernel launch, one `size_t` per dimension -/
structure LaunchGeometry where
  globalWorkSize : List Nat
  localWorkSize : List Nat
  deriving DecidableEq, Repr

/-- 07_convolution.cpp `main`, lines 350-365: the launch configuration computed from
the `int` values `SIZE` and `BLOCK_SIZE` -/
def main.configureLaunch (SIZE BLOCK_SIZE : Int) : CL LaunchGeometry := do
  let halo := 2 * (Int.tdiv FILTER_SIZE 2)
  -- `SIZE - halo` overflows
  if isInt (SIZE - halo) = false then
    CL.undefined
  -- `%` by zero, and `INT_MIN % -1`
  if BLOCK_SIZE = 0 ∨ (SIZE - halo = INT_MIN ∧ BLOCK_SIZE = -1) then
    CL.undefined
  if Int.tmod (SIZE - halo) BLOCK_SIZE ≠ 0 then
    CL.print (Message.size_not_divisible SIZE halo BLOCK_SIZE)
    CL.exit EXIT_FAILURE
  -- total number of threads == number of array elements in core space
  let globalWorkSize := [size_t_of_int (SIZE - halo), size_t_of_int (SIZE - halo)]
  -- number of per-workgroup local threads
  let localWorkSize := [size_t_of_int BLOCK_SIZE, size_t_of_int BLOCK_SIZE]
  pure ⟨globalWorkSize, localWorkSize⟩

/-- 07_convolution.cpp `create_filter`: the vector built from the range that starts at
the 3x3 array `f` and is `sizeof(f)` elements long; the elements past the ninth are
what the memory after `f` holds, `beyond` -/
def create_filter (USE_DOUBLE : Bool) (beyond : Nat → real_t) : List real_t :=
  let f : List real_t :=
    [real_t.num 1, real_t.num 1, real_t.num 1,
     real_t.num 1, real_t.num 0, real_t.num 1,
     real_t.num 1, real_t.num 1, real_t.num 1]
  let sizeof_f := 3 * 3 * sizeof_real_t USE_DOUBLE
  (List.range sizeof_f).map (fun i =>
    match f[i]? with
    | some a => a
    | none => beyond i)

/-- 07_convolution.cpp `host_apply_stencil`, lines 52-56: the loop over `fx`, whose
remaining values are the list -/
def host_apply_stencil.fx_loop (in_ : List real_t) (size : Int) (filter : List real_t)
    (filterSize y x fy : Int) : List Int → real_t → Option real_t
  | [], e => some e
  | fx :: rest, e =>
    match vec_get in_ ((y + fy) * size + x + fx),
      vec_get filter ((Int.tdiv filterSize 2 + fy) * filterSize
        + Int.tdiv filterSize 2 + fx) with
    | some a, some b =>
      host_apply_stencil.fx_loop in_ size filter filterSize y x fy rest
        (real_t.add e (real_t.mul a b))
    | _, _ => none

/-- 07_convolution.cpp `host_apply_stencil`, lines 51-57: the loop over `fy` -/
def host_apply_stencil.fy_loop (in_ : List real_t) (size : Int) (filter : List real_t)
    (filterSize y x : Int) : List Int → real_t → Option real_t
  | [], e => some e
  | fy :: rest, e =>
    match host_apply_stencil.fx_loop in_ size filter filterSize y x fy
      (intRange (Int.tdiv (-filterSize) 2) (Int.tdiv filterSize 2 + 1)) e with
    | some e1 => host_apply_stencil.fy_loop in_ size filter filterSize y x rest e1
    | none => none

/-- 07_convolution.cpp `host_apply_stencil`, lines 49-59: the loop over `x` -/
def host_apply_stencil.x_loop (in_ : List real_t) (size : Int) (filter : List real_t)
    (filterSize y : Int) : List Int → List real_t → Option (List real_t)
  | [], out => some out
  | x :: rest, out =>
    match host_apply_stencil.fy_loop in_ size filter filterSize y x
      (intRange (Int.tdiv (-filterSize) 2) (Int.tdiv filterSize 2 + 1)) (real_t.num 0) with
    | none => none
    | some e =>
      match vec_set out (y * size + x)
        (real_t.div e (real_t.num (((filterSize * filterSize : Int)) : ℚ))) with
      | none => none
      | some out1 => host_apply_stencil.x_loop in_ size filter filterSize y rest out1

/-- 07_convolution.cpp `host_apply_stencil`, lines 48-60: the loop over `y` -/
def host_apply_stencil.y_loop (in_ : List real_t) (size : Int) (filter : List real_t)
    (filterSize : Int) : List Int → List real_t → Option (List real_t)
  | [], out => some out
  | y :: rest, out =>
    match host_apply_stencil.x_loop in_ size filter filterSize y
      (intRange (Int.tdiv filterSize 2) (size - Int.tdiv filterSize 2)) out with
    | none => none
    | some out1 => host_apply_stencil.y_loop in_ size filter filterSize rest out1

/-- 07_convolution.cpp `host_apply_stencil`: the stencil applied on the host; the
result is the vector `out` after the call, `none` when an index falls outside a
vector. Indices are mathematical integers: the vectors have fewer than `2^31`
elements. -/
def host_apply_stencil (in_ : List real_t) (size : Int) (filter : List real_t)
    (filterSize : Int) (out : List real_t) : Option (List real_t) :=
  host_apply_stencil.y_loop in_ size filter filterSize
    (intRange (Int.tdiv filterSize 2) (size - Int.tdiv filterSize 2)) out

/-- 07_convolution.cpp `device_apply_stencil`: the stencil applied on the device through
buffers; the result is the elapsed time and the vector `out` after the read-back -/
def device_apply_stencil (USE_DOUBLE : Bool) (in_ : List real_t) (size : Int)
    (filter : List real_t) (filterSize : Int) (out : List real_t) (clenv : CLEnv)
    (globalWorkSize localWorkSize : List Nat) : CL (double × List real_t) := do
  let FILTER_SIZE := filterSize
  let FILTER_BYTE_SIZE := int_of_size_t (size_t_mul
    (size_t_mul (sizeof_real_t USE_DOUBLE) (size_t_of_int FILTER_SIZE))
    (size_t_of_int FILTER_SIZE))
  let SIZE := size
  -- `SIZE * SIZE` overflows
  if isInt (SIZE * SIZE) = false then
    CL.undefined
  let BYTE_SIZE := size_t_mul (size_t_of_int (SIZE * SIZE)) (sizeof_real_t USE_DOUBLE)
  -- allocate output buffer on OpenCL device
  let calls ← CL.history
  let devOut : cl_mem := calls.length
  let status ← CL.call (Call.clCreateBuffer clenv.context
    [cl_mem_flag.CL_MEM_WRITE_ONLY, cl_mem_flag.CL_MEM_COPY_HOST_PTR] BYTE_SIZE (some out))
  check_cl_error status "clCreateBuffer"
  -- allocate input buffers on OpenCL devices and copy data
  let calls ← CL.history
  let devIn : cl_mem := calls.length
  let status ← CL.call (Call.clCreateBuffer clenv.context
    [cl_mem_flag.CL_MEM_READ_ONLY, cl_mem_flag.CL_MEM_COPY_HOST_PTR] BYTE_SIZE (some in_))
  check_cl_error status "clCreateBuffer"
  let calls ← CL.history
  let devFilter : cl_mem := calls.length
  let status ← CL.call (Call.clCreateBuffer clenv.context
    [cl_mem_flag.CL_MEM_READ_ONLY, cl_mem_flag.CL_MEM_COPY_HOST_PTR]
    (size_t_of_int FILTER_BYTE_SIZE) (some filter))
  check_cl_error status "clCreateBuffer"
  -- set kernel parameters
  let status ← CL.call (Call.clSetKernelArg clenv.kernel 0 (KernelArg.mem devIn))
  check_cl_error status "clSetKernelArg(in)"
  let status ← CL.call (Call.clSetKernelArg clenv.kernel 1 (KernelArg.int SIZE))
  check_cl_error status "clSetKernelArg(size)"
  let status ← CL.call (Call.clSetKernelArg clenv.kernel 2 (KernelArg.mem devFilter))
  check_cl_error status "clSetKernelArg(filter)"
  let status ← CL.call (Call.clSetKernelArg clenv.kernel 3 (KernelArg.int FILTER_SIZE))
  check_cl_error status "clSetKernelArg(SIZE)"
  let status ← CL.call (Call.clSetKernelArg clenv.kernel 4 (KernelArg.mem devOut))
  check_cl_error status "clSetKernelArg(out)"
  -- launch and time kernel
  match clenv.commandQueue, clenv.kernel with
  | some commandQueue, some kernel =>
    let timems ← timeEnqueueNDRangeKernel commandQueue kernel 2 globalWorkSize localWorkSize
    check_cl_error status "clEnqueueNDRangeKernel"
    -- read data from device
    let calls ← CL.history
    let status ← CL.call (Call.clEnqueueReadBuffer clenv.commandQueue devOut BYTE_SIZE)
    let out ← CL.ask (fun rt => rt.readBack calls)
    check_cl_error status "clEnqueueReadBuffer"
    let status ← CL.call (Call.clReleaseMemObject devIn)
    check_cl_error status "clReleaseMemObject"
    let status ← CL.call (Call.clReleaseMemObject devFilter)
    check_cl_error status "clReleaseMemObject"
    let status ← CL.call (Call.clReleaseMemObject devOut)
    check_cl_error status "clReleaseMemObject"
    pure (timems, out)
  | _, _ => CL.undefined

/-- 07_convolution.cpp `device_apply_stencil_image`: the stencil applied on the device
through images; with `WRITE_TO_IMAGE` the output is an image as well -/
def device_apply_stencil_image (USE_DOUBLE WRITE_TO_IMAGE : Bool) (in_ : List real_t)
    (size : Int) (filter : List real_t) (filterSize : Int) (out : List real_t)
    (clenv : CLEnv) (globalWorkSize localWorkSize : List Nat) :
    CL (double × List real_t) := do
  let SIZE := size
  -- `SIZE * SIZE` overflows
  if isInt (SIZE * SIZE) = false then
    CL.undefined
  let BYTE_SIZE := size_t_mul (size_t_of_int (SIZE * SIZE)) (sizeof_real_t USE_DOUBLE)
  -- allocate output buffer on OpenCL device
  let calls ← CL.history
  let devOut : cl_mem := calls.length
  if WRITE_TO_IMAGE then
    let status ← CL.call (Call.clCreateImage2D clenv.context
      [cl_mem_flag.CL_MEM_WRITE_ONLY, cl_mem_flag.CL_MEM_COPY_HOST_PTR]
      (size_t_of_int size) (size_t_of_int size) (some out))
    check_cl_error status "clCreateImage2D"
  else
    let status ← CL.call (Call.clCreateBuffer clenv.context
      [cl_mem_flag.CL_MEM_WRITE_ONLY, cl_mem_flag.CL_MEM_COPY_HOST_PTR] BYTE_SIZE
      (some out))
    check_cl_error status "clCreateBuffer"
  -- allocate input buffers on OpenCL devices and copy data
  let calls ← CL.history
  let devIn : cl_mem := calls.length
  let status ← CL.call (Call.clCreateImage2D clenv.context
    [cl_mem_flag.CL_MEM_READ_ONLY, cl_mem_flag.CL_MEM_COPY_HOST_PTR]
    (size_t_of_int size) (size_t_of_int size) (some in_))
  check_cl_error status "clCreateImage2D"
  let calls ← CL.history
  let devFilter : cl_mem := calls.length
  let status ← CL.call (Call.clCreateImage2D clenv.context
    [cl_mem_flag.CL_MEM_READ_ONLY, cl_mem_flag.CL_MEM_COPY_HOST_PTR]
    (size_t_of_int filterSize) (size_t_of_int filterSize) (some filter))
  check_cl_error status "clCreateImage2D"
  -- set kernel parameters
  let status ← CL.call (Call.clSetKernelArg clenv.kernel 0 (KernelArg.mem devIn))
  check_cl_error status "clSetKernelArg(size)"
  let status ← CL.call (Call.clSetKernelArg clenv.kernel 1 (KernelArg.mem devFilter))
  check_cl_error status "clSetKernelArg(SIZE)"
  let status ← CL.call (Call.clSetKernelArg clenv.kernel 2 (KernelArg.mem devOut))
  check_cl_error status "clSetKernelArg(out)"
  -- launch and time kernel
  match clenv.commandQueue, clenv.kernel with
  | some commandQueue, some kernel =>
    let timems ← timeEnqueueNDRangeKernel commandQueue kernel 2 globalWorkSize localWorkSize
    check_cl_error status "clEnqueueNDRangeKernel"
    -- read data from device
    let calls ← CL.history
    let status ←
      if WRITE_TO_IMAGE then
        CL.call (Call.clEnqueueReadImage clenv.commandQueue devOut
          [size_t_of_int SIZE, size_t_of_int SIZE, 1])
      else
        CL.call (Call.clEnqueueReadBuffer clenv.commandQueue devOut BYTE_SIZE)
    let out ← CL.ask (fun rt => rt.readBack calls)
    check_cl_error status (if WRITE_TO_IMAGE then "clEnqueueReadImage" else "clEnqueueReadBuffer")
    let status ← CL.call (Call.clReleaseMemObject devOut)
    check_cl_error status "clReleaseMemObject"
    let status ← CL.call (Call.clReleaseMemObject devIn)
    check_cl_error status "clReleaseMemObject"
    let status ← CL.call (Call.clReleaseMemObject devFilter)
    check_cl_error status "clReleaseMemObject"
    pure (timems, out)
  | _, _ => CL.undefined

/-- 07_convolution.cpp `main`, lines 334-342: the choice between buffers and images;
the result is the flag `image` -/
def main.mode (USE_DOUBLE : Bool) (argv : List String) : CL Bool := do
  let a8 ← arg argv 8
  if a8 = "image" then
    if USE_DOUBLE then
      CL.print Message.double_not_supported
      CL.exit EXIT_FAILURE
    pure true
  else
    pure false

/-- 07_convolution.cpp `main`, lines 343-413: the driver once the mode is chosen; `in_`
is the grid `create_2d_grid` produces and `beyond` the memory after the array in
`create_filter` -/
def main.run (USE_DOUBLE WRITE_TO_IMAGE : Bool) (image : Bool) (argv : List String)
    (in_ : List real_t) (beyond : Nat → real_t) : CL Int := do
  let options := String.join (argv.drop 9)
  let options := if WRITE_TO_IMAGE then options ++ " -DWRITE_TO_IMAGE" else options
  let a6 ← arg argv 6
  let a7 ← arg argv 7
  let SIZE := atoi a6
  let BLOCK_SIZE := atoi a7
  let geometry ← main.configureLaunch SIZE BLOCK_SIZE
  let platformName ← arg argv 1
  let deviceType ← arg argv 2
  let deviceNum ← arg argv 3
  let clSourcePath ← arg argv 4
  let kernelName ← arg argv 5
  let clenv ← create_clenv platformName deviceType (atoi deviceNum) true
    (some clSourcePath) (some kernelName) "" options
  -- create input and output matrices
  let filter := create_filter USE_DOUBLE beyond
  -- `SIZE * SIZE` overflows
  if isInt (SIZE * SIZE) = false then
    CL.undefined
  let out := List.replicate (SIZE * SIZE).toNat (real_t.num 0)
  let refOut := List.replicate (SIZE * SIZE).toNat (real_t.num 0)
  -- launch kernels and check results
  let (timems, out) ←
    if image then
      device_apply_stencil_image USE_DOUBLE WRITE_TO_IMAGE in_ SIZE filter FILTER_SIZE out
        clenv geometry.globalWorkSize geometry.localWorkSize
    else
      device_apply_stencil USE_DOUBLE in_ SIZE filter FILTER_SIZE out clenv
        geometry.globalWorkSize geometry.localWorkSize
  match host_apply_stencil in_ SIZE filter FILTER_SIZE refOut with
  | none => CL.undefined
  | some refOut =>
    match check_result out refOut (EPS USE_DOUBLE) with
    | none => CL.undefined
    | some verdict =>
      if verdict then
        CL.print (Message.elapsed_time timems)
        CL.print Message.passed
      else
        CL.print Message.failed
      release_clenv clenv
      pure 0

/-- 07_convolution.cpp `main`: the convolution driver; `argc` is the length of `argv`, and
a missing `argv[0]` is printed as the empty string -/
def main (USE_DOUBLE WRITE_TO_IMAGE : Bool) (argv : List String) (in_ : List real_t)
    (beyond : Nat → real_t) : CL Int := do
  if argv.length < 9 then
    CL.print (Message.convolution_usage (argv.headD ""))
    CL.exit EXIT_FAILURE
  let image ← main.mode USE_DOUBLE argv
  main.run USE_DOUBLE WRITE_TO_IMAGE image argv in_ beyond

end Convolution

/-! ## Example runtimes -/

namespace Example

/-- A runtime in which every call succeeds: platforms 7 ("A") and 8 ("B"), devices 20
and 21 of every class on each, a kernel file with text "F", an empty build log of one
byte, and an event 5 queued at 1000000 ns that ends at 3000000 ns -/
def runtime : Runtime where
  status := fun _ _ => CL_SUCCESS
  platformIDs := [7, 8]
  platformName := fun p => if p = 8 then "B" else "A"
  deviceIDs := fun _ _ => [20, 21]
  fileText := fun _ => some "F"
  buildLog := fun _ => ""
  buildLogSize := fun _ => 1
  newEvent := fun _ => 5
  profilingInfo := fun _ p =>
    if p = cl_profiling_info.CL_PROFILING_COMMAND_END then 3000000 else 1000000
  readBack := fun _ => []

/-- The example runtime without any platform -/
def noPlatforms : Runtime := { runtime with platformIDs := [] }

/-- The example runtime without any device -/
def noDevices : Runtime := { runtime with deviceIDs := fun _ _ => [] }

/-- The example runtime with an event that is queued at 1000000 ns, submitted at
1500000 ns, started at 2000000 ns and ended at 3000000 ns -/
def lateStart : Runtime :=
  { runtime with profilingInfo := fun _ p =>
      match p with
      | cl_profiling_info.CL_PROFILING_COMMAND_QUEUED => 1000000
      | cl_profiling_info.CL_PROFILING_COMMAND_SUBMIT => 1500000
      | cl_profiling_info.CL_PROFILING_COMMAND_START => 2000000
      | cl_profiling_info.CL_PROFILING_COMMAND_END => 3000000 }

/-- The example runtime with the status -5 for the calls selected by `bad` -/
def failingOn (bad : Call → Bool) : Runtime :=
  { runtime with status := fun _ c => if bad c then -5 else CL_SUCCESS }

/-- The example runtime with a build that fails with the status -11 and leaves the log
"error: x" of nine bytes -/
def failedBuild : Runtime :=
  { runtime with
      status := fun _ c =>
        match c with
        | Call.clBuildProgram _ _ _ => -11
        | _ => CL_SUCCESS
      buildLog := fun _ => "error: x"
      buildLogSize := fun _ => 9 }

/-- The example runtime with a device whose read-back delivers `data` -/
def reading (data : List real_t) : Runtime := { runtime with readBack := fun _ => data }

/-- The environment of platform 8 and device 20 with a kernel "k" of the source "F" -/
def clenv : CLEnv where
  context := some ⟨8, 20⟩
  program := some ⟨⟨8, 20⟩, "F"⟩
  kernel := some ⟨⟨⟨8, 20⟩, "F"⟩, "k"⟩
  commandQueue := some ⟨⟨8, 20⟩, 20, true⟩

end Example

/-! ## Lemmas on runs -/

theorem CL.bind_eq {α β : Type} (m : CL α) (f : α → CL β) (rt : Runtime) (s : Log) :
    (m >>= f) rt s = match m rt s with
      | (s1, Outcome.ret a) => f a rt s1
      | (s1, Outcome.exit code) => (s1, Outcome.exit code)
      | (s1, Outcome.undefined) => (s1, Outcome.undefined) := rfl

theorem CL.pure_eq {α : Type} (a : α) (rt : Runtime) (s : Log) :
    (Pure.pure a : CL α) rt s = (s, Outcome.ret a) := rfl

theorem check_cl_error_success (msg : String) (rt : Runtime) (s : Log) :
    check_cl_error CL_SUCCESS msg rt s = (s, Outcome.ret ()) := by
  simp [check_cl_error, CL.pure_eq]

theorem check_cl_error_failure (status : cl_int) (msg : String) (rt : Runtime) (s : Log)
    (h : status ≠ CL_SUCCESS) :
    check_cl_error status msg rt s
      = (⟨s.calls, s.printed ++ [Message.error status msg]⟩, Outcome.exit EXIT_FAILURE) := by
  simp [check_cl_error, h, CL.bind_eq, CL.print, CL.exit]

/-! ## Launch configuration of the convolution driver -/

namespace Convolution

/-- C1, as amended. For `int` values `SIZE >= 2` and `BLOCK_SIZE >= 1`: when `BLOCK_SIZE`
divides `SIZE - 2` the launch configuration returns the global work size
`(SIZE - 2, SIZE - 2)` and the local work size `(BLOCK_SIZE, BLOCK_SIZE)` without
printing or calling anything; when it does not, the run prints the divisibility
message and ends with `exit(EXIT_FAILURE)`, so no geometry is returned. -/
theorem configureLaunch_divisible (SIZE BLOCK_SIZE : Int) (rt : Runtime)
    (hS : 2 ≤ SIZE) (hS2 : SIZE ≤ INT_MAX) (hB : 1 ≤ BLOCK_SIZE) (hB2 : BLOCK_SIZE ≤ INT_MAX) :
    (BLOCK_SIZE ∣ SIZE - 2 →
      ∃ g l : Nat, (g : Int) = SIZE - 2 ∧ (l : Int) = BLOCK_SIZE ∧
        (main.configureLaunch SIZE BLOCK_SIZE).run rt
          = (Log.empty, Outcome.ret ⟨[g, g], [l, l]⟩))
    ∧ (¬ BLOCK_SIZE ∣ SIZE - 2 →
        (main.configureLaunch SIZE BLOCK_SIZE).run rt
          = (⟨[], [Message.size_not_divisible SIZE 2 BLOCK_SIZE]⟩,
              Outcome.exit EXIT_FAILURE)) := by
  have h2 : (2 : Int) * Int.tdiv FILTER_SIZE 2 = 2 := by decide
  simp only [INT_MAX] at hS2 hB2
  have hint : isInt (SIZE - 2) = true := by
    simp only [isInt, INT_MIN, INT_MAX, Bool.and_eq_true, decide_eq_true_eq]
    omega
  have hB0 : BLOCK_SIZE ≠ 0 := by omega
  have hmin : ¬ (SIZE - 2 = INT_MIN ∧ BLOCK_SIZE = -1) := by omega
  constructor
  · intro hdvd
    refine ⟨(SIZE - 2).toNat, BLOCK_SIZE.toNat, by omega, by omega, ?_⟩
    have hm : Int.tmod (SIZE - 2) BLOCK_SIZE = 0 := Int.tmod_eq_zero_of_dvd hdvd
    simp [main.configureLaunch, CL.run, CL.bind_eq, CL.pure_eq, h2, hint, hB0, hmin, hm,
      size_t_of_int, SIZE_T_RANGE, Log.empty]
    constructor <;> rw [Int.emod_eq_of_lt (by omega) (by omega)]
  · intro hdvd
    have hm : Int.tmod (SIZE - 2) BLOCK_SIZE ≠ 0 :=
      fun h => hdvd (Int.dvd_of_tmod_eq_zero h)
    simp [main.configureLaunch, CL.run, CL.bind_eq, CL.pure_eq, h2, hint, hB0, hmin, hm,
      CL.print, CL.exit, Log.empty]

/-- C1, witness: `SIZE = 34`, `BLOCK_SIZE = 16` gives the 32 x 32 grid in 16 x 16 groups. -/
theorem configureLaunch_divisible_witness :
    ∃ g l : Nat, (g : Int) = 34 - 2 ∧ (l : Int) = 16 ∧
      (main.configureLaunch 34 16).run Example.runtime
        = (Log.empty, Outcome.ret ⟨[g, g], [l, l]⟩) :=
  (configureLaunch_divisible 34 16 Example.runtime (by decide) (by decide) (by decide)
    (by decide)).1 (by decide)

/-- C1, as stated, fails outside that range. `SIZE = 1`, `BLOCK_SIZE = 1`: 1 divides -1
and the check passes, but the global work size is 2^64 - 1 in each dimension, not
`SIZE - 2 = -1`. `SIZE = 3`, `BLOCK_SIZE = -1`: -1 divides 1 and the check passes, but
the local work size is 2^64 - 1, not -1. `SIZE = 3`, `BLOCK_SIZE = 0`: 0 does not divide
1, and the run does not reach `exit(EXIT_FAILURE)`: the remainder by zero is
undefined. -/
theorem configureLaunch_counterexample :
    ((1 : Int) ∣ 1 - 2)
    ∧ (main.configureLaunch 1 1).run Example.runtime
        = (Log.empty,
            Outcome.ret ⟨[18446744073709551615, 18446744073709551615], [1, 1]⟩)
    ∧ ((18446744073709551615 : Nat) : Int) ≠ 1 - 2
    ∧ ((-1 : Int) ∣ 3 - 2)
    ∧ (main.configureLaunch 3 (-1)).run Example.runtime
        = (Log.empty,
            Outcome.ret ⟨[1, 1], [18446744073709551615, 18446744073709551615]⟩)
    ∧ ((18446744073709551615 : Nat) : Int) ≠ -1
    ∧ ¬ ((0 : Int) ∣ 3 - 2)
    ∧ (main.configureLaunch 3 0).run Example.runtime = (Log.empty, Outcome.undefined) := by
  refine ⟨by decide, by decide, by decide, by decide, by decide, by decide, by decide,
    by decide⟩

end Convolution

/-! ## Result verification -/

theorem real_t.not_gt_iff_le (x eps : real_t) (hx : x.isNaN = false) (he : eps.isNaN = false) :
    real_t.gt x eps = false ↔ real_t.le x eps = true := by
  cases x <;> cases eps <;> simp_all [real_t.gt, real_t.le, real_t.isNaN]

theorem real_t.fabs_isNaN (x : real_t) : (real_t.fabs x).isNaN = x.isNaN := by
  cases x <;> rfl

namespace Convolution

theorem check_result.loop_true (v1 v2 : List real_t) (eps : double)
    (hlen : v1.length = v2.length) (n i : Nat) (hn : i + n = v1.length) :
    check_result.loop v1 v2 eps n i = some true ↔
      ∀ j (h1 : j < v1.length) (h2 : j < v2.length), i ≤ j →
        real_t.gt (real_t.fabs (real_t.sub v1[j] v2[j])) eps = false := by
  induction n generalizing i with
  | zero =>
    simp only [check_result.loop, true_iff]
    intro j h1 _ hij
    omega
  | succ n ih =>
    have h1 : i < v1.length := by omega
    have h2 : i < v2.length := by omega
    simp only [check_result.loop, List.getElem?_eq_getElem h1, List.getElem?_eq_getElem h2]
    by_cases hg : real_t.gt (real_t.fabs (real_t.sub v1[i] v2[i])) eps = true
    · rw [if_pos hg]
      constructor
      · intro h; cases h
      · intro h
        have := h i h1 h2 (Nat.le_refl i)
        simp [hg] at this
    · rw [if_neg hg, ih (i + 1) (by omega)]
      constructor
      · intro h j hj1 hj2 hij
        by_cases hji : j = i
        · subst hji; simpa using hg
        · exact h j hj1 hj2 (by omega)
      · intro h j hj1 hj2 hij
        exact h j hj1 hj2 (by omega)

theorem check_result.loop_some (v1 v2 : List real_t) (eps : double)
    (hlen : v1.length = v2.length) (n i : Nat) (hn : i + n = v1.length) :
    ∃ b, check_result.loop v1 v2 eps n i = some b := by
  induction n generalizing i with
  | zero => exact ⟨true, rfl⟩
  | succ n ih =>
    have h1 : i < v1.length := by omega
    have h2 : i < v2.length := by omega
    simp only [check_result.loop, List.getElem?_eq_getElem h1, List.getElem?_eq_getElem h2]
    by_cases hg : real_t.gt (real_t.fabs (real_t.sub v1[i] v2[i])) eps = true
    · exact ⟨false, by simp [hg]⟩
    · simpa [hg] using ih (i + 1) (by omega)

end Convolution

/-- C2, as amended. For vectors of equal length, a tolerance that is not NaN and
differences none of which is NaN: the vector `check_result` returns true exactly
when `fabs(v1[i] - v2[i]) <= eps` at every index, it returns false exactly when some
index violates that bound, and the scalar `check_result` returns true exactly when
`fabs(a - b) <= eps`. -/
theorem check_result_within_tolerance (v1 v2 : List real_t) (a b : real_t) (eps : double)
    (hlen : v1.length = v2.length) (heps : eps.isNaN = false)
    (hnan : ∀ i (h1 : i < v1.length) (h2 : i < v2.length),
      (real_t.sub v1[i] v2[i]).isNaN = false)
    (hab : (real_t.sub a b).isNaN = false) :
    (Convolution.check_result v1 v2 eps = some true ↔
      ∀ i (h1 : i < v1.length) (h2 : i < v2.length),
        real_t.le (real_t.fabs (real_t.sub v1[i] v2[i])) eps = true)
    ∧ (Convolution.check_result v1 v2 eps = some false ↔
      ∃ i, ∃ (h1 : i < v1.length) (h2 : i < v2.length),
        real_t.le (real_t.fabs (real_t.sub v1[i] v2[i])) eps = false)
    ∧ (DotProduct.check_result a b eps = true ↔
        real_t.le (real_t.fabs (real_t.sub a b)) eps = true) := by
  have key : Convolution.check_result v1 v2 eps = some true ↔
      ∀ i (h1 : i < v1.length) (h2 : i < v2.length),
        real_t.le (real_t.fabs (real_t.sub v1[i] v2[i])) eps = true := by
    unfold Convolution.check_result
    rw [Convolution.check_result.loop_true v1 v2 eps hlen v1.length 0 (by omega)]
    constructor
    · intro h i h1 h2
      exact (real_t.not_gt_iff_le _ _ (by rw [real_t.fabs_isNaN]; exact hnan i h1 h2) heps).1
        (h i h1 h2 (Nat.zero_le i))
    · intro h i h1 h2 _
      exact (real_t.not_gt_iff_le _ _ (by rw [real_t.fabs_isNaN]; exact hnan i h1 h2) heps).2
        (h i h1 h2)
  refine ⟨key, ?_, ?_⟩
  · obtain ⟨r, hr⟩ := Convolution.check_result.loop_some v1 v2 eps hlen v1.length 0 (by omega)
    have hr2 : Convolution.check_result v1 v2 eps = some r := hr
    constructor
    · intro hf
      by_contra hne
      have : Convolution.check_result v1 v2 eps = some true := by
        rw [key]
        intro i h1 h2
        by_contra hle
        exact hne ⟨i, h1, h2, by simpa using hle⟩
      rw [hf] at this
      cases this
    · rintro ⟨i, h1, h2, hle⟩
      cases r with
      | false => exact hr2
      | true =>
        have := key.1 hr2 i h1 h2
        rw [hle] at this
        cases this
  · have hx := real_t.not_gt_iff_le (real_t.fabs (real_t.sub a b)) eps
      (by rw [real_t.fabs_isNaN]; exact hab) heps
    unfold DotProduct.check_result
    by_cases hg : real_t.gt (real_t.fabs (real_t.sub a b)) eps = true
    · have : real_t.le (real_t.fabs (real_t.sub a b)) eps ≠ true := by
        intro hle
        have := hx.2 hle
        rw [hg] at this
        cases this
      simp [hg, this]
    · have hg2 : real_t.gt (real_t.fabs (real_t.sub a b)) eps = false := by simpa using hg
      simp [hg2, hx.1 hg2]

/-- C2, witness: the vectors (1, 2) and (1, 3), the scalars 1 and 1, tolerance 1e-5. -/
theorem check_result_within_tolerance_witness :
    (Convolution.check_result [real_t.num 1, real_t.num 2] [real_t.num 1, real_t.num 3]
        (real_t.num (1 / 100000)) = some true ↔
      ∀ i (_h1 : i < [real_t.num 1, real_t.num 2].length)
        (_h2 : i < [real_t.num 1, real_t.num 3].length),
        real_t.le (real_t.fabs (real_t.sub [real_t.num 1, real_t.num 2][i]
          [real_t.num 1, real_t.num 3][i])) (real_t.num (1 / 100000)) = true)
    ∧ (Convolution.check_result [real_t.num 1, real_t.num 2] [real_t.num 1, real_t.num 3]
        (real_t.num (1 / 100000)) = some false ↔
      ∃ i, ∃ (_h1 : i < [real_t.num 1, real_t.num 2].length)
        (_h2 : i < [real_t.num 1, real_t.num 3].length),
        real_t.le (real_t.fabs (real_t.sub [real_t.num 1, real_t.num 2][i]
          [real_t.num 1, real_t.num 3][i])) (real_t.num (1 / 100000)) = false)
    ∧ (DotProduct.check_result (real_t.num 1) (real_t.num 1) (real_t.num (1 / 100000)) = true ↔
        real_t.le (real_t.fabs (real_t.sub (real_t.num 1) (real_t.num 1)))
          (real_t.num (1 / 100000)) = true) :=
  check_result_within_tolerance [real_t.num 1, real_t.num 2] [real_t.num 1, real_t.num 3]
    (real_t.num 1) (real_t.num 1) (real_t.num (1 / 100000)) rfl rfl
    (by
      intro i h1 h2
      have hi : i < 2 := h1
      interval_cases i <;> rfl)
    rfl

/-- C2, as stated, fails on NaN. The device value NaN against the reference 1 with
tolerance 1e-5: `fabs(NaN - 1) <= eps` is false, yet `fabs(NaN - 1) > eps` is false as
well, so the vector form and the scalar form both return true. -/
theorem check_result_nan_counterexample :
    Convolution.check_result [real_t.nan] [real_t.num 1] (real_t.num (1 / 100000)) = some true
    ∧ real_t.le (real_t.fabs (real_t.sub real_t.nan (real_t.num 1)))
        (real_t.num (1 / 100000)) = false
    ∧ DotProduct.check_result real_t.nan (real_t.num 1) (real_t.num (1 / 100000)) = true := by
  refine ⟨by decide, by decide, by decide⟩

/-! ## Context creation -/

theorem create_cl_context.search_eq (rt : Runtime)
    (hs : ∀ h p, rt.status h (Call.clGetPlatformInfo p) = CL_SUCCESS) (platformName : String) :
    ∀ (ids : List cl_platform_id) (s : Log),
      create_cl_context.search platformName ids rt s
        = (⟨s.calls
              ++ ((ids.takeWhile (fun p => !decide (platformName = rt.platformName p))).map
                    Call.clGetPlatformInfo
                ++ (ids.find? (fun p => decide (platformName = rt.platformName p))).toList.map
                    Call.clGetPlatformInfo),
            s.printed⟩,
          Outcome.ret (ids.find? (fun p => decide (platformName = rt.platformName p)))) := by
  intro ids
  induction ids with
  | nil =>
    intro s
    simp [create_cl_context.search, CL.pure_eq]
  | cons p rest ih =>
    intro s
    by_cases hp : platformName = rt.platformName p
    · simp [create_cl_context.search, CL.bind_eq, CL.pure_eq, CL.call, CL.ask, hs,
        check_cl_error_success, ← hp]
    · simp [create_cl_context.search, CL.bind_eq, CL.pure_eq, CL.call, CL.ask, hs,
        check_cl_error_success, hp, ih]

theorem create_cl_context_not_found (rt : Runtime) (hs : ∀ h c, rt.status h c = CL_SUCCESS)
    (platformName deviceTypeName : String) (deviceNum : Int)
    (hne : rt.platformIDs ≠ [])
    (hfind : rt.platformIDs.find? (fun p => decide (platformName = rt.platformName p)) = none) :
    (create_cl_context platformName deviceTypeName deviceNum).run rt
      = (⟨[Call.clGetPlatformIDs 0, Call.clGetPlatformIDs rt.platformIDs.length]
            ++ rt.platformIDs.map Call.clGetPlatformInfo,
          [Message.couldnt_find_platform platformName]⟩, Outcome.exit EXIT_FAILURE) := by
  have htw : rt.platformIDs.takeWhile (fun p => !decide (platformName = rt.platformName p))
      = rt.platformIDs := by
    rw [List.takeWhile_eq_self_iff]
    intro p hp
    have := List.find?_eq_none.1 hfind p hp
    simpa using this
  simp [create_cl_context, CL.run, CL.bind_eq, CL.pure_eq, CL.call, CL.ask, CL.print, CL.exit,
    hs, check_cl_error_success, hne, create_cl_context.search_eq rt (fun h p => hs h _), hfind, htw, Log.empty]

theorem create_cl_context_found (rt : Runtime) (hs : ∀ h c, rt.status h c = CL_SUCCESS)
    (platformName deviceTypeName : String) (deviceNum : Int) (platformID : cl_platform_id)
    (hfind : rt.platformIDs.find? (fun p => decide (platformName = rt.platformName p))
      = some platformID) :
    (create_cl_context platformName deviceTypeName deviceNum).run rt
      = match create_cl_context.deviceType deviceTypeName with
        | none =>
          (⟨[Call.clGetPlatformIDs 0, Call.clGetPlatformIDs rt.platformIDs.length]
              ++ (rt.platformIDs.takeWhile
                    (fun p => !decide (platformName = rt.platformName p))).map
                  Call.clGetPlatformInfo
              ++ [Call.clGetPlatformInfo platformID],
            [Message.device_type_unknown deviceTypeName]⟩, Outcome.exit EXIT_FAILURE)
        | some deviceType =>
          if (rt.deviceIDs platformID deviceType).length < 1 then
            (⟨[Call.clGetPlatformIDs 0, Call.clGetPlatformIDs rt.platformIDs.length]
                ++ (rt.platformIDs.takeWhile
                      (fun p => !decide (platformName = rt.platformName p))).map
                    Call.clGetPlatformInfo
                ++ [Call.clGetPlatformInfo platformID,
                    Call.clGetDeviceIDs platformID deviceType 0],
              [Message.cannot_find_device_of_type deviceTypeName]⟩, Outcome.exit EXIT_FAILURE)
          else if deviceNum < 0
              ∨ cl_uint_of_int deviceNum ≥ (rt.deviceIDs platformID deviceType).length then
            (⟨[Call.clGetPlatformIDs 0, Call.clGetPlatformIDs rt.platformIDs.length]
                ++ (rt.platformIDs.takeWhile
                      (fun p => !decide (platformName = rt.platformName p))).map
                    Call.clGetPlatformInfo
                ++ [Call.clGetPlatformInfo platformID,
                    Call.clGetDeviceIDs platformID deviceType 0,
                    Call.clGetDeviceIDs platformID deviceType
                      (rt.deviceIDs platformID deviceType).length],
              [Message.device_number_out_of_range
                ((rt.deviceIDs platformID deviceType).length - 1)]⟩,
              Outcome.exit EXIT_FAILURE)
          else
            match (rt.deviceIDs platformID deviceType)[deviceNum.toNat]? with
            | none =>
              (⟨[Call.clGetPlatformIDs 0, Call.clGetPlatformIDs rt.platformIDs.length]
                  ++ (rt.platformIDs.takeWhile
                        (fun p => !decide (platformName = rt.platformName p))).map
                      Call.clGetPlatformInfo
                  ++ [Call.clGetPlatformInfo platformID,
                      Call.clGetDeviceIDs platformID deviceType 0,
                      Call.clGetDeviceIDs platformID deviceType
                        (rt.deviceIDs platformID deviceType).length],
                []⟩, Outcome.undefined)
            | some deviceID =>
              (⟨[Call.clGetPlatformIDs 0, Call.clGetPlatformIDs rt.platformIDs.length]
                  ++ (rt.platformIDs.takeWhile
                        (fun p => !decide (platformName = rt.platformName p))).map
                      Call.clGetPlatformInfo
                  ++ [Call.clGetPlatformInfo platformID,
                      Call.clGetDeviceIDs platformID deviceType 0,
                      Call.clGetDeviceIDs platformID deviceType
                        (rt.deviceIDs platformID deviceType).length,
                      Call.clCreateContext platformID deviceID],
                []⟩, Outcome.ret ⟨platformID, deviceID⟩) := by
  have hne : rt.platformIDs ≠ [] := by
    intro h
    rw [h] at hfind
    simp at hfind
  cases htype : create_cl_context.deviceType deviceTypeName with
  | none =>
    simp [create_cl_context, CL.run, CL.bind_eq, CL.pure_eq, CL.call, CL.ask, CL.print, CL.exit,
      hs, check_cl_error_success, hne, create_cl_context.search_eq rt (fun h p => hs h _), hfind, htype,
      Log.empty]
  | some deviceType =>
    by_cases h0 : rt.deviceIDs platformID deviceType = []
    · simp [create_cl_context, CL.run, CL.bind_eq, CL.pure_eq, CL.call, CL.ask, CL.print,
        CL.exit, hs, check_cl_error_success, hne, create_cl_context.search_eq rt (fun h p => hs h _), hfind,
        htype, h0, Log.empty]
    · have h0b : ¬ (rt.deviceIDs platformID deviceType).length < 1 := by
        have := List.length_pos.2 h0
        omega
      dsimp only
      rw [if_neg h0b]
      by_cases h1 : deviceNum < 0
          ∨ (rt.deviceIDs platformID deviceType).length ≤ cl_uint_of_int deviceNum
      · simp [create_cl_context, CL.run, CL.bind_eq, CL.pure_eq, CL.call, CL.ask, CL.print,
          CL.exit, hs, check_cl_error_success, hne, create_cl_context.search_eq rt (fun h p => hs h _), hfind,
          htype, h0, h1, Log.empty]
      · cases hd : (rt.deviceIDs platformID deviceType)[deviceNum.toNat]? with
        | none =>
          simp [create_cl_context, CL.run, CL.bind_eq, CL.pure_eq, CL.call, CL.ask, CL.print,
            CL.exit, CL.undefined, hs, check_cl_error_success, hne,
            create_cl_context.search_eq rt (fun h p => hs h _), hfind, htype, h0, h1, hd, Log.empty]
        | some deviceID =>
          simp [create_cl_context, CL.run, CL.bind_eq, CL.pure_eq, CL.call, CL.ask, CL.print,
            CL.exit, CL.undefined, hs, check_cl_error_success, hne,
            create_cl_context.search_eq rt (fun h p => hs h _), hfind, htype, h0, h1, hd, Log.empty]

theorem find?_first_match (rt : Runtime) (platformName : String)
    (before after : List cl_platform_id) (platformID : cl_platform_id)
    (hbefore : ∀ p ∈ before, rt.platformName p ≠ platformName)
    (hname : rt.platformName platformID = platformName) :
    (before ++ platformID :: after).find? (fun p => decide (platformName = rt.platformName p))
      = some platformID := by
  induction before with
  | nil => simp [hname]
  | cons b bs ih =>
    have hb : ¬ platformName = rt.platformName b := fun h => hbefore b (by simp) h.symm
    simp only [List.cons_append, List.find?_cons, hb, decide_False]
    exact ih (fun p hp => hbefore p (by simp [hp]))

theorem cl_uint_of_int_eq (deviceNum : Int) (h0 : 0 ≤ deviceNum) (h : isInt deviceNum = true) :
    cl_uint_of_int deviceNum = deviceNum.toNat := by
  simp only [isInt, INT_MIN, INT_MAX, Bool.and_eq_true, decide_eq_true_eq] at h
  unfold cl_uint_of_int
  rw [Int.emod_eq_of_lt h0 (by omega)]

/-- C3. On the matched platform, for a recognised device class with at least one
device and every call succeeding: `create_cl_context` ends with `exit(EXIT_FAILURE)`
after the message "device number out of range" exactly when `deviceNum < 0` or
`deviceNum >= numDevices`, and then `clCreateContext` is never called; otherwise it
creates and returns the context of the device at position `deviceNum` of the
enumerated list. -/
theorem create_cl_context_device_index (rt : Runtime) (platformName deviceTypeName : String)
    (deviceNum : Int) (platformID : cl_platform_id) (deviceType : cl_device_type)
    (hs : ∀ h c, rt.status h c = CL_SUCCESS)
    (hfind : rt.platformIDs.find? (fun p => decide (platformName = rt.platformName p))
      = some platformID)
    (htype : create_cl_context.deviceType deviceTypeName = some deviceType)
    (hdev : 1 ≤ (rt.deviceIDs platformID deviceType).length)
    (hnum : isInt deviceNum = true) :
    ((((create_cl_context platformName deviceTypeName deviceNum).run rt).2
          = Outcome.exit EXIT_FAILURE
        ∧ ((create_cl_context platformName deviceTypeName deviceNum).run rt).1.printed
          = [Message.device_number_out_of_range
              ((rt.deviceIDs platformID deviceType).length - 1)])
      ↔ (deviceNum < 0 ∨ ((rt.deviceIDs platformID deviceType).length : Int) ≤ deviceNum))
    ∧ ((deviceNum < 0 ∨ ((rt.deviceIDs platformID deviceType).length : Int) ≤ deviceNum) →
        ∀ p d, Call.clCreateContext p d
          ∉ ((create_cl_context platformName deviceTypeName deviceNum).run rt).1.calls)
    ∧ (¬ (deviceNum < 0 ∨ ((rt.deviceIDs platformID deviceType).length : Int) ≤ deviceNum) →
        ∃ deviceID, (rt.deviceIDs platformID deviceType)[deviceNum.toNat]? = some deviceID
          ∧ ((create_cl_context platformName deviceTypeName deviceNum).run rt).2
            = Outcome.ret ⟨platformID, deviceID⟩
          ∧ ((create_cl_context platformName deviceTypeName deviceNum).run rt).1.printed = []
          ∧ ∀ p d, Call.clCreateContext p d
              ∈ ((create_cl_context platformName deviceTypeName deviceNum).run rt).1.calls
            ↔ (p = platformID ∧ d = deviceID)) := by
  have hrun := create_cl_context_found rt hs platformName deviceTypeName deviceNum platformID hfind
  rw [htype] at hrun
  have h0 : ¬ (rt.deviceIDs platformID deviceType).length < 1 := by omega
  simp only [if_neg h0] at hrun
  by_cases hr : deviceNum < 0 ∨ ((rt.deviceIDs platformID deviceType).length : Int) ≤ deviceNum
  · have h1 : deviceNum < 0
        ∨ cl_uint_of_int deviceNum ≥ (rt.deviceIDs platformID deviceType).length := by
      rcases hr with h | h
      · exact Or.inl h
      · by_cases hneg : deviceNum < 0
        · exact Or.inl hneg
        · right
          rw [cl_uint_of_int_eq deviceNum (by omega) hnum]
          omega
    rw [if_pos h1] at hrun
    rw [hrun]
    refine ⟨⟨fun _ => hr, fun _ => ⟨rfl, rfl⟩⟩, fun _ p d => by simp, fun h => absurd hr h⟩
  · have hge : 0 ≤ deviceNum := by omega
    have h1 : ¬ (deviceNum < 0
        ∨ cl_uint_of_int deviceNum ≥ (rt.deviceIDs platformID deviceType).length) := by
      rw [cl_uint_of_int_eq deviceNum hge hnum]
      omega
    rw [if_neg h1] at hrun
    have hlt : deviceNum.toNat < (rt.deviceIDs platformID deviceType).length := by omega
    rw [List.getElem?_eq_getElem hlt] at hrun
    rw [hrun]
    refine ⟨⟨fun h => ?_, fun h => absurd h hr⟩, fun h => absurd h hr, fun _ => ?_⟩
    · simp at h
    · exact ⟨_, List.getElem?_eq_getElem hlt, rfl, rfl, fun p d => by simp⟩

/-- C3, witness: device number 3 with 2 devices of the class fails. -/
theorem create_cl_context_device_index_witness :
    ((create_cl_context "B" "gpu" 3).run Example.runtime).2 = Outcome.exit EXIT_FAILURE
    ∧ ((create_cl_context "B" "gpu" 3).run Example.runtime).1.printed
      = [Message.device_number_out_of_range
          ((Example.runtime.deviceIDs 8 cl_device_type.CL_DEVICE_TYPE_GPU).length - 1)] :=
  (create_cl_context_device_index Example.runtime "B" "gpu" 3 8
    cl_device_type.CL_DEVICE_TYPE_GPU (fun _ _ => rfl) (by decide) (by decide) (by decide)
    (by decide)).1.2 (Or.inr (by decide))

theorem takeWhile_first_match (rt : Runtime) (platformName : String)
    (before after : List cl_platform_id) (platformID : cl_platform_id)
    (hbefore : ∀ p ∈ before, rt.platformName p ≠ platformName)
    (hname : rt.platformName platformID = platformName) :
    (before ++ platformID :: after).takeWhile
        (fun p => !decide (platformName = rt.platformName p)) = before := by
  induction before with
  | nil => simp [hname]
  | cons b bs ih =>
    have hb : ¬ platformName = rt.platformName b := fun h => hbefore b (by simp) h.symm
    simp only [List.cons_append, List.takeWhile_cons, hb, decide_False, Bool.not_false, if_true]
    rw [ih (fun p hp => hbefore p (by simp [hp]))]

/-- C4, as amended. With every call succeeding: for a non-empty list of platforms none
of which is called `platformName`, `create_cl_context` queries the name of every
platform, prints "Couldn't find platform" and ends with `exit(EXIT_FAILURE)`, without
any call to `clGetDeviceIDs` or `clCreateContext`; for the empty list it prints "No
OpenCL platforms found" and ends with `exit(EXIT_SUCCESS)`; and when `platformID` is
the first platform in enumeration order whose name equals `platformName`, the name
queries stop at `platformID`, every later call is a device enumeration or a context
creation for `platformID`, the devices of a recognised class are enumerated on it, and
a context that is returned is on it. -/
theorem create_cl_context_platform (rt : Runtime) (platformName deviceTypeName : String)
    (deviceNum : Int) (hs : ∀ h c, rt.status h c = CL_SUCCESS) :
    (rt.platformIDs ≠ [] → (∀ p ∈ rt.platformIDs, rt.platformName p ≠ platformName) →
      (create_cl_context platformName deviceTypeName deviceNum).run rt
        = (⟨[Call.clGetPlatformIDs 0, Call.clGetPlatformIDs rt.platformIDs.length]
              ++ rt.platformIDs.map Call.clGetPlatformInfo,
            [Message.couldnt_find_platform platformName]⟩, Outcome.exit EXIT_FAILURE))
    ∧ (rt.platformIDs = [] →
      (create_cl_context platformName deviceTypeName deviceNum).run rt
        = (⟨[Call.clGetPlatformIDs 0], [Message.no_platforms_found]⟩,
            Outcome.exit EXIT_SUCCESS))
    ∧ (∀ (before after : List cl_platform_id) (platformID : cl_platform_id),
      rt.platformIDs = before ++ platformID :: after →
      (∀ p ∈ before, rt.platformName p ≠ platformName) →
      rt.platformName platformID = platformName →
        ∃ rest : List Call,
          ((create_cl_context platformName deviceTypeName deviceNum).run rt).1.calls
            = [Call.clGetPlatformIDs 0, Call.clGetPlatformIDs rt.platformIDs.length]
                ++ (before ++ [platformID]).map Call.clGetPlatformInfo ++ rest
          ∧ (∀ c ∈ rest, (∃ t n, c = Call.clGetDeviceIDs platformID t n)
              ∨ (∃ d, c = Call.clCreateContext platformID d))
          ∧ (∀ t, create_cl_context.deviceType deviceTypeName = some t →
              Call.clGetDeviceIDs platformID t 0 ∈ rest)
          ∧ (∀ ctx, ((create_cl_context platformName deviceTypeName deviceNum).run rt).2
              = Outcome.ret ctx → ctx.platform = platformID)) := by
  refine ⟨?_, ?_, ?_⟩
  · intro hne hall
    apply create_cl_context_not_found rt hs platformName deviceTypeName deviceNum hne
    rw [List.find?_eq_none]
    intro p hp
    have := hall p hp
    simpa using fun h => this h.symm
  · intro hnil
    simp [create_cl_context, CL.run, CL.bind_eq, CL.pure_eq, CL.call, CL.ask, CL.print, CL.exit,
      hs, check_cl_error_success, hnil, Log.empty]
  · intro before after platformID hids hbefore hname
    have hfind : rt.platformIDs.find? (fun p => decide (platformName = rt.platformName p))
        = some platformID := by
      rw [hids]
      exact find?_first_match rt platformName before after platformID hbefore hname
    have htw : rt.platformIDs.takeWhile (fun p => !decide (platformName = rt.platformName p))
        = before := by
      rw [hids]
      exact takeWhile_first_match rt platformName before after platformID hbefore hname
    have hrun :=
      create_cl_context_found rt hs platformName deviceTypeName deviceNum platformID hfind
    rw [htw] at hrun
    rw [hrun]
    cases create_cl_context.deviceType deviceTypeName with
    | none =>
      exact ⟨[], by simp, by simp, by simp, fun ctx h => by cases h⟩
    | some deviceType =>
      dsimp only
      split
      · exact ⟨[Call.clGetDeviceIDs platformID deviceType 0], by simp, by simp, by simp,
          fun ctx h => by cases h⟩
      · split
        · exact ⟨[Call.clGetDeviceIDs platformID deviceType 0,
            Call.clGetDeviceIDs platformID deviceType
              (rt.deviceIDs platformID deviceType).length], by simp, by simp, by simp,
            fun ctx h => by cases h⟩
        · split
          · exact ⟨[Call.clGetDeviceIDs platformID deviceType 0,
              Call.clGetDeviceIDs platformID deviceType
                (rt.deviceIDs platformID deviceType).length], by simp, by simp, by simp,
              fun ctx h => by cases h⟩
          · rename_i deviceID _
            exact ⟨[Call.clGetDeviceIDs platformID deviceType 0,
              Call.clGetDeviceIDs platformID deviceType
                (rt.deviceIDs platformID deviceType).length,
              Call.clCreateContext platformID deviceID], by simp, by simp, by simp,
              fun ctx h => by cases h; rfl⟩

/-- C4, witness: no platform of the example runtime is called "C". -/
theorem create_cl_context_platform_witness :
    (create_cl_context "C" "gpu" 0).run Example.runtime
      = (⟨[Call.clGetPlatformIDs 0, Call.clGetPlatformIDs Example.runtime.platformIDs.length]
            ++ Example.runtime.platformIDs.map Call.clGetPlatformInfo,
          [Message.couldnt_find_platform "C"]⟩, Outcome.exit EXIT_FAILURE) :=
  (create_cl_context_platform Example.runtime "C" "gpu" 0 (fun _ _ => rfl)).1
    (by decide) (by decide)

/-- C4, as stated, fails for the empty list of platforms: no platform is called "A", and
the run ends with `exit(EXIT_SUCCESS)`, status zero, after printing "No OpenCL
platforms found". -/
theorem create_cl_context_no_platforms_counterexample :
    Example.noPlatforms.platformIDs = []
    ∧ (create_cl_context "A" "cpu" 0).run Example.noPlatforms
      = (⟨[Call.clGetPlatformIDs 0], [Message.no_platforms_found]⟩, Outcome.exit 0) := by
  refine ⟨by decide, by decide⟩

/-- C5. The device class names map as "default" to DEFAULT, "cpu" to CPU, "gpu" to GPU,
"acc" to ACCELERATOR and "all" to CPU. With the platform matched and every call
succeeding, any other name makes `create_cl_context` print "device type ... unknown"
and end with `exit(EXIT_FAILURE)` without any call to `clGetDeviceIDs`; and a name
that maps to a class makes it enumerate the devices of that class and of no other. -/
theorem create_cl_context_device_type (rt : Runtime) (platformName deviceTypeName : String)
    (deviceNum : Int) (platformID : cl_platform_id)
    (hs : ∀ h c, rt.status h c = CL_SUCCESS)
    (hfind : rt.platformIDs.find? (fun p => decide (platformName = rt.platformName p))
      = some platformID) :
    create_cl_context.deviceType "default" = some cl_device_type.CL_DEVICE_TYPE_DEFAULT
    ∧ create_cl_context.deviceType "cpu" = some cl_device_type.CL_DEVICE_TYPE_CPU
    ∧ create_cl_context.deviceType "gpu" = some cl_device_type.CL_DEVICE_TYPE_GPU
    ∧ create_cl_context.deviceType "acc" = some cl_device_type.CL_DEVICE_TYPE_ACCELERATOR
    ∧ create_cl_context.deviceType "all" = some cl_device_type.CL_DEVICE_TYPE_CPU
    ∧ (deviceTypeName ∉ ["default", "cpu", "gpu", "acc", "all"] →
        create_cl_context.deviceType deviceTypeName = none
        ∧ ((create_cl_context platformName deviceTypeName deviceNum).run rt).2
            = Outcome.exit EXIT_FAILURE
        ∧ ((create_cl_context platformName deviceTypeName deviceNum).run rt).1.printed
            = [Message.device_type_unknown deviceTypeName]
        ∧ ∀ p t n, Call.clGetDeviceIDs p t n
            ∉ ((create_cl_context platformName deviceTypeName deviceNum).run rt).1.calls)
    ∧ (∀ deviceType, create_cl_context.deviceType deviceTypeName = some deviceType →
        Call.clGetDeviceIDs platformID deviceType 0
          ∈ ((create_cl_context platformName deviceTypeName deviceNum).run rt).1.calls
        ∧ ∀ p t n, Call.clGetDeviceIDs p t n
            ∈ ((create_cl_context platformName deviceTypeName deviceNum).run rt).1.calls →
            t = deviceType) := by
  have hrun :=
    create_cl_context_found rt hs platformName deviceTypeName deviceNum platformID hfind
  refine ⟨by decide, by decide, by decide, by decide, by decide, ?_, ?_⟩
  · intro hnot
    have hnone : create_cl_context.deviceType deviceTypeName = none := by
      simp only [List.mem_cons, List.mem_singleton, List.not_mem_nil, or_false, not_or] at hnot
      simp [create_cl_context.deviceType, hnot]
    rw [hnone] at hrun
    rw [hrun]
    exact ⟨hnone, rfl, rfl, fun p t n => by simp⟩
  · intro deviceType htype
    rw [htype] at hrun
    rw [hrun]
    dsimp only
    split
    · exact ⟨by simp, fun p t n h => by simp at h; exact h.2.1⟩
    · split
      · exact ⟨by simp, fun p t n h => by simp at h; rcases h with h | h <;> exact h.2.1⟩
      · split
        · exact ⟨by simp, fun p t n h => by simp at h; rcases h with h | h <;> exact h.2.1⟩
        · exact ⟨by simp, fun p t n h => by simp at h; rcases h with h | h <;> exact h.2.1⟩

/-- C5, witness: "CPU" in upper case is not a device class name. -/
theorem create_cl_context_device_type_witness :
    create_cl_context.deviceType "CPU" = none
    ∧ ((create_cl_context "B" "CPU" 0).run Example.runtime).2 = Outcome.exit EXIT_FAILURE
    ∧ ((create_cl_context "B" "CPU" 0).run Example.runtime).1.printed
        = [Message.device_type_unknown "CPU"]
    ∧ ∀ p t n, Call.clGetDeviceIDs p t n
        ∉ ((create_cl_context "B" "CPU" 0).run Example.runtime).1.calls :=
  (create_cl_context_device_type Example.runtime "B" "CPU" 0 8 (fun _ _ => rfl)
    (by decide)).2.2.2.2.2.1 (by decide)

theorem dropLast_append_pair {α : Type} (l : List α) (a b : α) :
    (l ++ [a, b]).dropLast = l ++ [a] := by
  rw [show l ++ [a, b] = (l ++ [a]) ++ [b] by simp]
  exact List.dropLast_concat

/-- C6. On the matched platform, for a recognised device class without any device, and
with the platform queries succeeding: for every `deviceNum`, `create_cl_context` ends
with `exit(EXIT_FAILURE)` right after the first `clGetDeviceIDs`, having printed
"Cannot find device of type" when that call reported success and the API error
otherwise; the range of `deviceNum` is never examined. -/
theorem create_cl_context_no_device (rt : Runtime) (platformName deviceTypeName : String)
    (deviceNum : Int) (platformID : cl_platform_id) (deviceType : cl_device_type)
    (hids : ∀ h n, rt.status h (Call.clGetPlatformIDs n) = CL_SUCCESS)
    (hinfo : ∀ h p, rt.status h (Call.clGetPlatformInfo p) = CL_SUCCESS)
    (hfind : rt.platformIDs.find? (fun p => decide (platformName = rt.platformName p))
      = some platformID)
    (htype : create_cl_context.deviceType deviceTypeName = some deviceType)
    (hdev : rt.deviceIDs platformID deviceType = []) :
    ((create_cl_context platformName deviceTypeName deviceNum).run rt).2
      = Outcome.exit EXIT_FAILURE
    ∧ ((create_cl_context platformName deviceTypeName deviceNum).run rt).1.calls
      = [Call.clGetPlatformIDs 0, Call.clGetPlatformIDs rt.platformIDs.length]
          ++ (rt.platformIDs.takeWhile
                (fun p => !decide (platformName = rt.platformName p))).map
              Call.clGetPlatformInfo
          ++ [Call.clGetPlatformInfo platformID, Call.clGetDeviceIDs platformID deviceType 0]
    ∧ ((create_cl_context platformName deviceTypeName deviceNum).run rt).1.printed
      = (if rt.status
            ((create_cl_context platformName deviceTypeName deviceNum).run rt).1.calls.dropLast
            (Call.clGetDeviceIDs platformID deviceType 0) = CL_SUCCESS
          then [Message.cannot_find_device_of_type deviceTypeName]
          else [Message.error
            (rt.status
              ((create_cl_context platformName deviceTypeName deviceNum).run rt).1.calls.dropLast
              (Call.clGetDeviceIDs platformID deviceType 0)) "clGetDeviceIDs"]) := by
  have hne : rt.platformIDs ≠ [] := by
    intro h
    rw [h] at hfind
    simp at hfind
  have hrun : ∀ st, rt.status
        ([Call.clGetPlatformIDs 0, Call.clGetPlatformIDs rt.platformIDs.length]
          ++ (rt.platformIDs.takeWhile
                (fun p => !decide (platformName = rt.platformName p))).map
              Call.clGetPlatformInfo
          ++ [Call.clGetPlatformInfo platformID])
        (Call.clGetDeviceIDs platformID deviceType 0) = st →
      (create_cl_context platformName deviceTypeName deviceNum).run rt
        = (⟨[Call.clGetPlatformIDs 0, Call.clGetPlatformIDs rt.platformIDs.length]
              ++ (rt.platformIDs.takeWhile
                    (fun p => !decide (platformName = rt.platformName p))).map
                  Call.clGetPlatformInfo
              ++ [Call.clGetPlatformInfo platformID,
                  Call.clGetDeviceIDs platformID deviceType 0],
            if st = CL_SUCCESS then [Message.cannot_find_device_of_type deviceTypeName]
            else [Message.error st "clGetDeviceIDs"]⟩, Outcome.exit EXIT_FAILURE) := by
    intro st hst
    simp only [List.append_assoc, List.cons_append, List.nil_append] at hst
    by_cases h : st = CL_SUCCESS
    · subst h
      simp [create_cl_context, CL.run, CL.bind_eq, CL.pure_eq, CL.call, CL.ask, CL.print,
        CL.exit, hids, hinfo, check_cl_error_success, hne, create_cl_context.search_eq rt hinfo,
        hfind, htype, hdev, hst, Log.empty]
    · simp [create_cl_context, CL.run, CL.bind_eq, CL.pure_eq, CL.call, CL.ask, CL.print,
        CL.exit, hids, hinfo, check_cl_error_success, hne, create_cl_context.search_eq rt hinfo,
        hfind, htype, hdev, hst, h, check_cl_error_failure, Log.empty]
  have hr := hrun _ rfl
  refine ⟨by rw [hr], by rw [hr], ?_⟩
  have hdrop : ((create_cl_context platformName deviceTypeName deviceNum).run rt).1.calls.dropLast
      = [Call.clGetPlatformIDs 0, Call.clGetPlatformIDs rt.platformIDs.length]
          ++ (rt.platformIDs.takeWhile
                (fun p => !decide (platformName = rt.platformName p))).map
              Call.clGetPlatformInfo
          ++ [Call.clGetPlatformInfo platformID] := by
    rw [hr]
    exact dropLast_append_pair _ _ _
  rw [hdrop, hr]

/-- C6, witness: the example runtime without devices, device numbers -1, 0 and 5 alike. -/
theorem create_cl_context_no_device_witness :
    ((create_cl_context "B" "gpu" (-1)).run Example.noDevices).2 = Outcome.exit EXIT_FAILURE
    ∧ ((create_cl_context "B" "gpu" (-1)).run Example.noDevices).1.printed
      = [Message.cannot_find_device_of_type "gpu"]
    ∧ (create_cl_context "B" "gpu" 0).run Example.noDevices
      = (create_cl_context "B" "gpu" (-1)).run Example.noDevices
    ∧ (create_cl_context "B" "gpu" 5).run Example.noDevices
      = (create_cl_context "B" "gpu" (-1)).run Example.noDevices :=
  ⟨(create_cl_context_no_device Example.noDevices "B" "gpu" (-1) 8
      cl_device_type.CL_DEVICE_TYPE_GPU (fun _ _ => rfl) (fun _ _ => rfl) (by decide)
      (by decide) rfl).1,
    by decide, by decide, by decide⟩

theorem elapsed_ms_eq (startTime endTime : Nat) :
    elapsed_ms startTime endTime
      = real_t.num ((((((endTime : Int) - (startTime : Int)) % 18446744073709551616 : Int)) : ℚ)
          / 1000000) := by
  have hnn : 0 ≤ ((endTime : Int) - (startTime : Int)) % 18446744073709551616 :=
    Int.emod_nonneg _ (by decide)
  unfold elapsed_ms cl_ulong_sub SIZE_T_RANGE real_t.div
  have hcast : (((((endTime : Int) - (startTime : Int)) % ((18446744073709551616 : Nat) : Int)).toNat
      : Nat) : ℚ) = (((((endTime : Int) - (startTime : Int)) % 18446744073709551616 : Int)) : ℚ) := by
    have h := Int.toNat_of_nonneg hnn
    have h2 : ((18446744073709551616 : Nat) : Int) = 18446744073709551616 := by norm_num
    rw [h2]
    exact_mod_cast congrArg (fun z : Int => (z : ℚ)) h
  simp only [hcast]
  norm_num

theorem timeEnqueueNDRangeKernel_success (rt : Runtime) (command_queue : cl_command_queue)
    (kernel : cl_kernel) (work_dim : Nat) (global_work_size local_work_size : List Nat)
    (s : Log) (hs : ∀ h c, rt.status h c = CL_SUCCESS) :
    timeEnqueueNDRangeKernel command_queue kernel work_dim global_work_size local_work_size rt s
      = (⟨s.calls ++ [Call.clFinish command_queue,
            Call.clEnqueueNDRangeKernel command_queue kernel work_dim global_work_size
              local_work_size,
            Call.clFinish command_queue,
            Call.clWaitForEvents (rt.newEvent (s.calls ++ [Call.clFinish command_queue])),
            Call.clGetEventProfilingInfo
              (rt.newEvent (s.calls ++ [Call.clFinish command_queue]))
              cl_profiling_info.CL_PROFILING_COMMAND_QUEUED,
            Call.clGetEventProfilingInfo
              (rt.newEvent (s.calls ++ [Call.clFinish command_queue]))
              cl_profiling_info.CL_PROFILING_COMMAND_END], s.printed⟩,
          Outcome.ret (elapsed_ms
            (rt.profilingInfo (rt.newEvent (s.calls ++ [Call.clFinish command_queue]))
              cl_profiling_info.CL_PROFILING_COMMAND_QUEUED)
            (rt.profilingInfo (rt.newEvent (s.calls ++ [Call.clFinish command_queue]))
              cl_profiling_info.CL_PROFILING_COMMAND_END))) := by
  simp [timeEnqueueNDRangeKernel, CL.bind_eq, CL.pure_eq, CL.call, CL.ask, CL.history, hs,
    check_cl_error_success]

theorem get_cl_time_success (rt : Runtime) (ev : cl_event) (s : Log)
    (hs : ∀ h c, rt.status h c = CL_SUCCESS) :
    get_cl_time ev rt s
      = (⟨s.calls ++ [Call.clGetEventProfilingInfo ev
              cl_profiling_info.CL_PROFILING_COMMAND_QUEUED,
            Call.clGetEventProfilingInfo ev cl_profiling_info.CL_PROFILING_COMMAND_END],
          s.printed⟩,
          Outcome.ret (elapsed_ms
            (rt.profilingInfo ev cl_profiling_info.CL_PROFILING_COMMAND_QUEUED)
            (rt.profilingInfo ev cl_profiling_info.CL_PROFILING_COMMAND_END))) := by
  simp [get_cl_time, CL.bind_eq, CL.pure_eq, CL.call, CL.ask, hs, check_cl_error_success]

/-- C9. `release_clenv` issues `clReleaseCommandQueue`, `clReleaseKernel`,
`clReleaseProgram`, `clReleaseContext` in this order, once each, when every release
succeeds; and when the release number `k` is the first to report a status other than
`CL_SUCCESS`, exactly the first `k + 1` releases are issued, the error message names
that release call, and the run ends with `exit(EXIT_FAILURE)`. -/
theorem release_clenv_order (rt : Runtime) (e : CLEnv) (s : Log)
    (steps : List Call) (names : List String)
    (hsteps : steps = [Call.clReleaseCommandQueue e.commandQueue, Call.clReleaseKernel e.kernel,
      Call.clReleaseProgram e.program, Call.clReleaseContext e.context])
    (hnames : names = ["clReleaseCommandQueue", "clReleaseKernel", "clReleaseProgram",
      "clReleaseContext"]) :
    ((∀ k (hk : k < steps.length), rt.status (s.calls ++ steps.take k) steps[k] = CL_SUCCESS) →
      release_clenv e rt s = (⟨s.calls ++ steps, s.printed⟩, Outcome.ret ()))
    ∧ (∀ k (hk : k < steps.length) (hk2 : k < names.length),
        (∀ j (hj : j < steps.length), j < k →
          rt.status (s.calls ++ steps.take j) steps[j] = CL_SUCCESS) →
        rt.status (s.calls ++ steps.take k) steps[k] ≠ CL_SUCCESS →
        release_clenv e rt s
          = (⟨s.calls ++ steps.take (k + 1),
              s.printed ++ [Message.error (rt.status (s.calls ++ steps.take k) steps[k])
                names[k]]⟩, Outcome.exit EXIT_FAILURE)) := by
  subst hsteps hnames
  constructor
  · intro h
    have h0 := h 0 (by simp)
    have h1 := h 1 (by simp)
    have h2 := h 2 (by simp)
    have h3 := h 3 (by simp)
    simp only [List.take, List.getElem_cons_zero, List.getElem_cons_succ, List.append_nil,
      List.append_assoc, List.singleton_append, List.cons_append] at h0 h1 h2 h3
    simp [release_clenv, CL.bind_eq, CL.pure_eq, CL.call, h0, h1, h2, h3,
      check_cl_error_success]
  · intro k hk hk2 hprev hfail
    have hk4 : k < 4 := hk
    interval_cases k
    · simp only [List.take, List.getElem_cons_zero, List.append_nil] at hfail
      simp [release_clenv, CL.bind_eq, CL.pure_eq, CL.call, check_cl_error_failure _ _ _ _ hfail]
    · have h0 := hprev 0 (by simp) (by decide)
      simp only [List.take, List.getElem_cons_zero, List.getElem_cons_succ, List.append_nil,
        List.append_assoc, List.singleton_append, List.cons_append] at h0 hfail
      simp [release_clenv, CL.bind_eq, CL.pure_eq, CL.call, h0, check_cl_error_success,
        check_cl_error_failure _ _ _ _ hfail]
    · have h0 := hprev 0 (by simp) (by decide)
      have h1 := hprev 1 (by simp) (by decide)
      simp only [List.take, List.getElem_cons_zero, List.getElem_cons_succ, List.append_nil,
        List.append_assoc, List.singleton_append, List.cons_append] at h0 h1 hfail
      simp [release_clenv, CL.bind_eq, CL.pure_eq, CL.call, h0, h1, check_cl_error_success,
        check_cl_error_failure _ _ _ _ hfail]
    · have h0 := hprev 0 (by simp) (by decide)
      have h1 := hprev 1 (by simp) (by decide)
      have h2 := hprev 2 (by simp) (by decide)
      simp only [List.take, List.getElem_cons_zero, List.getElem_cons_succ, List.append_nil,
        List.append_assoc, List.singleton_append, List.cons_append] at h0 h1 h2 hfail
      simp [release_clenv, CL.bind_eq, CL.pure_eq, CL.call, h0, h1, h2, check_cl_error_success,
        check_cl_error_failure _ _ _ _ hfail]

/-- C9, witness: the kernel release fails with status -5, so the program and the
context are not released. -/
theorem release_clenv_order_witness :
    release_clenv Example.clenv (Example.failingOn
        (fun c => decide (c = Call.clReleaseKernel Example.clenv.kernel))) Log.empty
      = (⟨[Call.clReleaseCommandQueue Example.clenv.commandQueue,
            Call.clReleaseKernel Example.clenv.kernel],
          [Message.error (-5) "clReleaseKernel"]⟩, Outcome.exit EXIT_FAILURE) :=
  (release_clenv_order (Example.failingOn
      (fun c => decide (c = Call.clReleaseKernel Example.clenv.kernel))) Example.clenv
    Log.empty
    [Call.clReleaseCommandQueue Example.clenv.commandQueue,
      Call.clReleaseKernel Example.clenv.kernel, Call.clReleaseProgram Example.clenv.program,
      Call.clReleaseContext Example.clenv.context]
    ["clReleaseCommandQueue", "clReleaseKernel", "clReleaseProgram", "clReleaseContext"]
    rfl rfl).2 1 (by decide) (by decide)
    (by
      intro j hj hjk
      interval_cases j
      rfl)
    (by decide)

/-- C8. `timeEnqueueNDRangeKernel` issues, in this order, `clFinish`,
`clEnqueueNDRangeKernel`, `clFinish`, `clWaitForEvents` on the event of the launch,
`clGetEventProfilingInfo` for the queued timestamp and `clGetEventProfilingInfo` for
the end timestamp, and returns when all six succeed; and when step `k` is the first to
report a status other than `CL_SUCCESS`, exactly the first `k + 1` steps are issued,
the error message names that step, and the run ends with `exit(EXIT_FAILURE)`. -/
theorem timeEnqueueNDRangeKernel_order (rt : Runtime) (command_queue : cl_command_queue)
    (kernel : cl_kernel) (work_dim : Nat) (global_work_size local_work_size : List Nat)
    (s : Log) (steps : List Call) (names : List String)
    (hsteps : steps = [Call.clFinish command_queue,
      Call.clEnqueueNDRangeKernel command_queue kernel work_dim global_work_size local_work_size,
      Call.clFinish command_queue,
      Call.clWaitForEvents (rt.newEvent (s.calls ++ [Call.clFinish command_queue])),
      Call.clGetEventProfilingInfo (rt.newEvent (s.calls ++ [Call.clFinish command_queue]))
        cl_profiling_info.CL_PROFILING_COMMAND_QUEUED,
      Call.clGetEventProfilingInfo (rt.newEvent (s.calls ++ [Call.clFinish command_queue]))
        cl_profiling_info.CL_PROFILING_COMMAND_END])
    (hnames : names = ["clFinish", "clEnqueueNDRangeKernel", "clFinish", "clWaitForEvents",
      "clGetEventProfilingInfo", "clGetEventProfilingInfo"]) :
    ((∀ k (hk : k < steps.length), rt.status (s.calls ++ steps.take k) steps[k] = CL_SUCCESS) →
      timeEnqueueNDRangeKernel command_queue kernel work_dim global_work_size
          local_work_size rt s
        = (⟨s.calls ++ steps, s.printed⟩,
            Outcome.ret (elapsed_ms
              (rt.profilingInfo (rt.newEvent (s.calls ++ [Call.clFinish command_queue]))
                cl_profiling_info.CL_PROFILING_COMMAND_QUEUED)
              (rt.profilingInfo (rt.newEvent (s.calls ++ [Call.clFinish command_queue]))
                cl_profiling_info.CL_PROFILING_COMMAND_END))))
    ∧ (∀ k (hk : k < steps.length) (hk2 : k < names.length),
        (∀ j (hj : j < steps.length), j < k →
          rt.status (s.calls ++ steps.take j) steps[j] = CL_SUCCESS) →
        rt.status (s.calls ++ steps.take k) steps[k] ≠ CL_SUCCESS →
        timeEnqueueNDRangeKernel command_queue kernel work_dim global_work_size
            local_work_size rt s
          = (⟨s.calls ++ steps.take (k + 1),
              s.printed ++ [Message.error (rt.status (s.calls ++ steps.take k) steps[k])
                names[k]]⟩, Outcome.exit EXIT_FAILURE)) := by
  subst hsteps hnames
  constructor
  · intro h
    have h0 := h 0 (by simp)
    have h1 := h 1 (by simp)
    have h2 := h 2 (by simp)
    have h3 := h 3 (by simp)
    have h4 := h 4 (by simp)
    have h5 := h 5 (by simp)
    simp only [List.take, List.getElem_cons_zero, List.getElem_cons_succ, List.append_nil,
      List.append_assoc, List.singleton_append, List.cons_append] at h0 h1 h2 h3 h4 h5
    simp [timeEnqueueNDRangeKernel, CL.bind_eq, CL.pure_eq, CL.call, CL.ask, CL.history,
      h0, h1, h2, h3, h4, h5, check_cl_error_success]
  · intro k hk hk2 hprev hfail
    have hk6 : k < 6 := hk
    interval_cases k
    · simp only [List.take, List.getElem_cons_zero, List.append_nil] at hfail
      simp [timeEnqueueNDRangeKernel, CL.bind_eq, CL.pure_eq, CL.call, CL.ask, CL.history,
        check_cl_error_failure _ _ _ _ hfail]
    · have h0 := hprev 0 (by simp) (by decide)
      simp only [List.take, List.getElem_cons_zero, List.getElem_cons_succ, List.append_nil,
        List.append_assoc, List.singleton_append, List.cons_append] at h0 hfail
      simp [timeEnqueueNDRangeKernel, CL.bind_eq, CL.pure_eq, CL.call, CL.ask, CL.history,
        h0, check_cl_error_success, check_cl_error_failure _ _ _ _ hfail]
    · have h0 := hprev 0 (by simp) (by decide)
      have h1 := hprev 1 (by simp) (by decide)
      simp only [List.take, List.getElem_cons_zero, List.getElem_cons_succ, List.append_nil,
        List.append_assoc, List.singleton_append, List.cons_append] at h0 h1 hfail
      simp [timeEnqueueNDRangeKernel, CL.bind_eq, CL.pure_eq, CL.call, CL.ask, CL.history,
        h0, h1, check_cl_error_success, check_cl_error_failure _ _ _ _ hfail]
    · have h0 := hprev 0 (by simp) (by decide)
      have h1 := hprev 1 (by simp) (by decide)
      have h2 := hprev 2 (by simp) (by decide)
      simp only [List.take, List.getElem_cons_zero, List.getElem_cons_succ, List.append_nil,
        List.append_assoc, List.singleton_append, List.cons_append] at h0 h1 h2 hfail
      simp [timeEnqueueNDRangeKernel, CL.bind_eq, CL.pure_eq, CL.call, CL.ask, CL.history,
        h0, h1, h2, check_cl_error_success, check_cl_error_failure _ _ _ _ hfail]
    · have h0 := hprev 0 (by simp) (by decide)
      have h1 := hprev 1 (by simp) (by decide)
      have h2 := hprev 2 (by simp) (by decide)
      have h3 := hprev 3 (by simp) (by decide)
      simp only [List.take, List.getElem_cons_zero, List.getElem_cons_succ, List.append_nil,
        List.append_assoc, List.singleton_append, List.cons_append] at h0 h1 h2 h3 hfail
      simp [timeEnqueueNDRangeKernel, CL.bind_eq, CL.pure_eq, CL.call, CL.ask, CL.history,
        h0, h1, h2, h3, check_cl_error_success, check_cl_error_failure _ _ _ _ hfail]
    · have h0 := hprev 0 (by simp) (by decide)
      have h1 := hprev 1 (by simp) (by decide)
      have h2 := hprev 2 (by simp) (by decide)
      have h3 := hprev 3 (by simp) (by decide)
      have h4 := hprev 4 (by simp) (by decide)
      simp only [List.take, List.getElem_cons_zero, List.getElem_cons_succ, List.append_nil,
        List.append_assoc, List.singleton_append, List.cons_append] at h0 h1 h2 h3 h4 hfail
      simp [timeEnqueueNDRangeKernel, CL.bind_eq, CL.pure_eq, CL.call, CL.ask, CL.history,
        h0, h1, h2, h3, h4, check_cl_error_success, check_cl_error_failure _ _ _ _ hfail]

/-- C8, witness: the wait on the event fails with status -5, so no timestamp is read. -/
theorem timeEnqueueNDRangeKernel_order_witness :
    timeEnqueueNDRangeKernel ⟨⟨8, 20⟩, 20, true⟩ ⟨⟨⟨8, 20⟩, "F"⟩, "k"⟩ 2 [32, 32] [16, 16]
        (Example.failingOn (fun c => decide (c = Call.clWaitForEvents 5))) Log.empty
      = (⟨[Call.clFinish ⟨⟨8, 20⟩, 20, true⟩,
            Call.clEnqueueNDRangeKernel ⟨⟨8, 20⟩, 20, true⟩ ⟨⟨⟨8, 20⟩, "F"⟩, "k"⟩ 2 [32, 32]
              [16, 16],
            Call.clFinish ⟨⟨8, 20⟩, 20, true⟩,
            Call.clWaitForEvents 5],
          [Message.error (-5) "clWaitForEvents"]⟩, Outcome.exit EXIT_FAILURE) :=
  (timeEnqueueNDRangeKernel_order (Example.failingOn
      (fun c => decide (c = Call.clWaitForEvents 5))) ⟨⟨8, 20⟩, 20, true⟩
    ⟨⟨⟨8, 20⟩, "F"⟩, "k"⟩ 2 [32, 32] [16, 16] Log.empty
    [Call.clFinish ⟨⟨8, 20⟩, 20, true⟩,
      Call.clEnqueueNDRangeKernel ⟨⟨8, 20⟩, 20, true⟩ ⟨⟨⟨8, 20⟩, "F"⟩, "k"⟩ 2 [32, 32] [16, 16],
      Call.clFinish ⟨⟨8, 20⟩, 20, true⟩, Call.clWaitForEvents 5,
      Call.clGetEventProfilingInfo 5 cl_profiling_info.CL_PROFILING_COMMAND_QUEUED,
      Call.clGetEventProfilingInfo 5 cl_profiling_info.CL_PROFILING_COMMAND_END]
    ["clFinish", "clEnqueueNDRangeKernel", "clFinish", "clWaitForEvents",
      "clGetEventProfilingInfo", "clGetEventProfilingInfo"]
    rfl rfl).2 3 (by decide) (by decide)
    (by
      intro j hj hjk
      interval_cases j <;> rfl)
    (by decide)

theorem create_cl_context_returns (rt : Runtime) (hs : ∀ h c, rt.status h c = CL_SUCCESS)
    (platformName deviceTypeName : String) (deviceNum : Int) (platformID : cl_platform_id)
    (deviceType : cl_device_type) (deviceID : cl_device_id)
    (hfind : rt.platformIDs.find? (fun p => decide (platformName = rt.platformName p))
      = some platformID)
    (htype : create_cl_context.deviceType deviceTypeName = some deviceType)
    (hge : 0 ≤ deviceNum) (hnum : isInt deviceNum = true)
    (hdev : (rt.deviceIDs platformID deviceType)[deviceNum.toNat]? = some deviceID) :
    create_cl_context platformName deviceTypeName deviceNum rt Log.empty
      = (⟨[Call.clGetPlatformIDs 0, Call.clGetPlatformIDs rt.platformIDs.length]
            ++ (rt.platformIDs.takeWhile
                  (fun p => !decide (platformName = rt.platformName p))).map
                Call.clGetPlatformInfo
            ++ [Call.clGetPlatformInfo platformID,
                Call.clGetDeviceIDs platformID deviceType 0,
                Call.clGetDeviceIDs platformID deviceType
                  (rt.deviceIDs platformID deviceType).length,
                Call.clCreateContext platformID deviceID],
          []⟩, Outcome.ret ⟨platformID, deviceID⟩) := by
  have hrun := create_cl_context_found rt hs platformName deviceTypeName deviceNum platformID hfind
  rw [htype] at hrun
  have hlt : deviceNum.toNat < (rt.deviceIDs platformID deviceType).length := by
    by_contra h
    rw [List.getElem?_eq_none (by omega)] at hdev
    cases hdev
  have h0 : ¬ (rt.deviceIDs platformID deviceType).length < 1 := by omega
  have h1 : ¬ (deviceNum < 0
      ∨ cl_uint_of_int deviceNum ≥ (rt.deviceIDs platformID deviceType).length) := by
    rw [cl_uint_of_int_eq deviceNum hge hnum]
    omega
  simp only [if_neg h0, if_neg h1, hdev] at hrun
  exact hrun

/-- C10, as amended. With every call succeeding, a context created for the device
`deviceID` and a kernel file of text `F`, the only program source `create_clenv` hands
to `clCreateProgramWithSource` is the prefix `P`, one newline, and `F`, with the
length `length(P) + 1 + length(F)`; it is the source of the program of the returned
environment. -/
theorem create_clenv_program_source (rt : Runtime) (platformName deviceTypeName : String)
    (deviceNum : Int) (enableProfiling : Bool) (clSourcePath : String)
    (kernelName : Option String) (P F buildOptions : String)
    (platformID : cl_platform_id) (deviceType : cl_device_type) (deviceID : cl_device_id)
    (hs : ∀ h c, rt.status h c = CL_SUCCESS)
    (hfind : rt.platformIDs.find? (fun p => decide (platformName = rt.platformName p))
      = some platformID)
    (htype : create_cl_context.deviceType deviceTypeName = some deviceType)
    (hge : 0 ≤ deviceNum) (hnum : isInt deviceNum = true)
    (hdev : (rt.deviceIDs platformID deviceType)[deviceNum.toNat]? = some deviceID)
    (hfile : rt.fileText clSourcePath = some F) :
    Call.clCreateProgramWithSource ⟨platformID, deviceID⟩ (P ++ "\n" ++ F)
        (P.length + 1 + F.length)
      ∈ ((create_clenv platformName deviceTypeName deviceNum enableProfiling
          (some clSourcePath) kernelName P buildOptions).run rt).1.calls
    ∧ (∀ ctx src len, Call.clCreateProgramWithSource ctx src len
        ∈ ((create_clenv platformName deviceTypeName deviceNum enableProfiling
            (some clSourcePath) kernelName P buildOptions).run rt).1.calls →
        src = P ++ "\n" ++ F ∧ len = P.length + 1 + F.length)
    ∧ (∃ env, ((create_clenv platformName deviceTypeName deviceNum enableProfiling
          (some clSourcePath) kernelName P buildOptions).run rt).2 = Outcome.ret env
        ∧ env.program = some ⟨⟨platformID, deviceID⟩, P ++ "\n" ++ F⟩)
    ∧ (P ++ "\n" ++ F).length = P.length + 1 + F.length := by
  have hctx := create_cl_context_returns rt hs platformName deviceTypeName deviceNum platformID
    deviceType deviceID hfind htype hge hnum hdev
  have hnl : "\n".length = 1 := by decide
  have hlen : (P ++ "\n" ++ F).length = P.length + 1 + F.length := by
    simp [String.length_append, hnl]
  cases kernelName with
  | none =>
    by_cases hopt : buildOptions.length = 0 <;> by_cases hlog : 1 < rt.buildLogSize ⟨⟨platformID, deviceID⟩, P ++ "\n" ++ F⟩ <;>
    simp [create_clenv, create_clenv.program, create_clenv.kernel, load_text, CL.run,
      CL.bind_eq, CL.pure_eq, CL.call, CL.ask, CL.print, hs, check_cl_error_success, hctx,
      hfile, hlen, hnl, hopt, hlog]
  | some name =>
    by_cases hopt : buildOptions.length = 0 <;> by_cases hlog : 1 < rt.buildLogSize ⟨⟨platformID, deviceID⟩, P ++ "\n" ++ F⟩ <;>
    simp [create_clenv, create_clenv.program, create_clenv.kernel, load_text, CL.run,
      CL.bind_eq, CL.pure_eq, CL.call, CL.ask, CL.print, hs, check_cl_error_success, hctx,
      hfile, hlen, hnl, hopt, hlog]

/-- C10, witness: the prefix "P" and the file text "F" give the source "P", newline,
"F" of length 3. -/
theorem create_clenv_program_source_witness :
    Call.clCreateProgramWithSource ⟨8, 20⟩ ("P" ++ "\n" ++ "F") ("P".length + 1 + "F".length)
      ∈ ((create_clenv "B" "gpu" 0 true (some "kernel.cl") (some "k") "P" "").run
          Example.runtime).1.calls :=
  (create_clenv_program_source Example.runtime "B" "gpu" 0 true "kernel.cl" (some "k") "P" "F"
    "" 8 cl_device_type.CL_DEVICE_TYPE_GPU 20 (fun _ _ => rfl) (by decide) (by decide)
    (by decide) (by decide) (by decide) rfl).1

/-- C10, as stated, fails: for the prefix "P" and the file text "F" the source handed
to `clCreateProgramWithSource` is "P", newline, "F" with the length 3; it is not the
concatenation "PF" and its length is not 1 + 1. -/
theorem create_clenv_program_source_counterexample :
    Example.runtime.fileText "kernel.cl" = some "F"
    ∧ ((create_clenv "B" "gpu" 0 true (some "kernel.cl") (some "k") "P" "").run
        Example.runtime).1.calls.filter
          (fun c => match c with
            | Call.clCreateProgramWithSource _ _ _ => true
            | _ => false)
      = [Call.clCreateProgramWithSource ⟨8, 20⟩ "P\nF" 3]
    ∧ "P\nF" ≠ "P" ++ "F"
    ∧ (3 : Nat) ≠ "P".length + "F".length := by
  refine ⟨by decide, by decide, by decide, by decide⟩

theorem real_t.not_gt_self (x eps : real_t) (heps : real_t.le (real_t.num 0) eps = true) :
    real_t.gt (real_t.fabs (real_t.sub x x)) eps = false := by
  cases x with
  | nan => rfl
  | num q =>
    cases eps with
    | nan => simp [real_t.le] at heps
    | num e =>
      simp only [real_t.le, decide_eq_true_eq] at heps
      simp [real_t.sub, real_t.fabs, real_t.gt, heps]

/-- C15. For every vector `X` and every tolerance `eps >= 0`, the vector `check_result`
of `X` against itself returns true, and so does the scalar `check_result` of any value
`x` against itself, NaN entries included. -/
theorem check_result_self (X : List real_t) (x : real_t) (eps : double)
    (heps : real_t.le (real_t.num 0) eps = true) :
    Convolution.check_result X X eps = some true ∧ DotProduct.check_result x x eps = true := by
  constructor
  · unfold Convolution.check_result
    rw [Convolution.check_result.loop_true X X eps rfl X.length 0 (by omega)]
    intro j _ _ _
    exact real_t.not_gt_self _ eps heps
  · simp [DotProduct.check_result, real_t.not_gt_self x eps heps]

/-- C15, witness: the vector (1, NaN, 3) and the value 2 against themselves,
tolerance 0. -/
theorem check_result_self_witness :
    Convolution.check_result [real_t.num 1, real_t.nan, real_t.num 3]
        [real_t.num 1, real_t.nan, real_t.num 3] (real_t.num 0) = some true
    ∧ DotProduct.check_result (real_t.num 2) (real_t.num 2) (real_t.num 0) = true :=
  check_result_self [real_t.num 1, real_t.nan, real_t.num 3] (real_t.num 2) (real_t.num 0)
    (by simp [real_t.le])

/-- C14, the failing input. `SIZE = 3` and `BLOCK_SIZE = -1` pass the divisibility
check of the convolution driver, the extents passed are the global work size 1 and
the local work size 2^64 - 1 in each dimension, and 1 is not a multiple of 2^64 - 1.
In the dot-product driver the extents are 256 and 16, and 256 is a multiple of 16. -/
theorem configureLaunch_negative_block :
    (Convolution.main.configureLaunch 3 (-1)).run Example.runtime
      = (Log.empty,
          Outcome.ret ⟨[1, 1], [18446744073709551615, 18446744073709551615]⟩)
    ∧ (1 : Nat) % 18446744073709551615 ≠ 0
    ∧ size_t_of_int DotProduct.SIZE = 256
    ∧ size_t_of_int DotProduct.BLOCK_SIZE = 16
    ∧ (256 : Nat) % 16 = 0 := by
  refine ⟨by decide, by decide, by decide, by decide, by decide⟩

/-- C19, as amended. With every call succeeding and an event of timestamps `queued`
and `finished` (`queued <= finished < 2^64`) and any start timestamp, the elapsed time of
`timeEnqueueNDRangeKernel` and of `get_cl_time` is `(finished - queued) / 10^6`
milliseconds: it is measured from the queued timestamp, the start timestamp is never
read, and the result equals `(finished - start) / 10^6` only when the start timestamp
of the event equals `queued`. -/
theorem elapsed_time_from_queued (rt : Runtime) (command_queue : cl_command_queue)
    (kernel : cl_kernel) (work_dim : Nat) (global_work_size local_work_size : List Nat)
    (s s2 : Log) (queued finished : Nat)
    (hs : ∀ h c, rt.status h c = CL_SUCCESS)
    (hq : rt.profilingInfo (rt.newEvent (s.calls ++ [Call.clFinish command_queue]))
      cl_profiling_info.CL_PROFILING_COMMAND_QUEUED = queued)
    (hf : rt.profilingInfo (rt.newEvent (s.calls ++ [Call.clFinish command_queue]))
      cl_profiling_info.CL_PROFILING_COMMAND_END = finished)
    (hle : queued ≤ finished) (hf64 : finished < 18446744073709551616) :
    (timeEnqueueNDRangeKernel command_queue kernel work_dim global_work_size local_work_size
        rt s).2 = Outcome.ret (real_t.num (((finished : ℚ) - (queued : ℚ)) / 1000000))
    ∧ (get_cl_time (rt.newEvent (s.calls ++ [Call.clFinish command_queue])) rt s2).2
      = Outcome.ret (real_t.num (((finished : ℚ) - (queued : ℚ)) / 1000000))
    ∧ ((timeEnqueueNDRangeKernel command_queue kernel work_dim global_work_size
          local_work_size rt s).2
        = Outcome.ret (real_t.num (((finished : ℚ)
            - (rt.profilingInfo (rt.newEvent (s.calls ++ [Call.clFinish command_queue]))
                cl_profiling_info.CL_PROFILING_COMMAND_START : ℚ)) / 1000000))
      ↔ rt.profilingInfo (rt.newEvent (s.calls ++ [Call.clFinish command_queue]))
          cl_profiling_info.CL_PROFILING_COMMAND_START = queued)
    ∧ (∀ e, Call.clGetEventProfilingInfo e cl_profiling_info.CL_PROFILING_COMMAND_START
        ∈ (timeEnqueueNDRangeKernel command_queue kernel work_dim global_work_size
            local_work_size rt s).1.calls →
        Call.clGetEventProfilingInfo e cl_profiling_info.CL_PROFILING_COMMAND_START
          ∈ s.calls) := by
  have hmod : ((finished : Int) - (queued : Int)) % 18446744073709551616
      = (finished : Int) - (queued : Int) :=
    Int.emod_eq_of_lt (by omega) (by omega)
  have hval : elapsed_ms queued finished
      = real_t.num (((finished : ℚ) - (queued : ℚ)) / 1000000) := by
    rw [elapsed_ms_eq, hmod]
    push_cast
    rfl
  rw [timeEnqueueNDRangeKernel_success rt command_queue kernel work_dim global_work_size
    local_work_size s hs, get_cl_time_success rt _ s2 hs, hq, hf, hval]
  refine ⟨rfl, rfl, ?_, ?_⟩
  · constructor
    · intro h
      simp only [Outcome.ret.injEq, real_t.num.injEq] at h
      have h2 : (finished : ℚ) - (queued : ℚ) = (finished : ℚ)
          - (rt.profilingInfo (rt.newEvent (s.calls ++ [Call.clFinish command_queue]))
              cl_profiling_info.CL_PROFILING_COMMAND_START : ℚ) := by
        have h3 := congrArg (fun z : ℚ => z * 1000000) h
        simpa using h3
      have h4 : (rt.profilingInfo (rt.newEvent (s.calls ++ [Call.clFinish command_queue]))
          cl_profiling_info.CL_PROFILING_COMMAND_START : ℚ) = (queued : ℚ) := by linarith
      exact_mod_cast h4
    · intro h
      rw [h]
  · intro e he
    simpa using he

/-- C19, witness: the event of the example runtime, queued and started at 1000000 ns,
ended at 3000000 ns. -/
theorem elapsed_time_from_queued_witness :
    (timeEnqueueNDRangeKernel ⟨⟨8, 20⟩, 20, true⟩ ⟨⟨⟨8, 20⟩, "F"⟩, "k"⟩ 2 [32, 32] [16, 16]
        Example.runtime Log.empty).2
      = Outcome.ret (real_t.num (((3000000 : ℚ) - (1000000 : ℚ)) / 1000000)) :=
  (elapsed_time_from_queued Example.runtime ⟨⟨8, 20⟩, 20, true⟩
    ⟨⟨⟨8, 20⟩, "F"⟩, "k"⟩ 2 [32, 32] [16, 16] Log.empty Log.empty 1000000 3000000
    (fun _ _ => rfl) rfl rfl (by decide) (by decide)).1

/-- C19, as stated, fails. For an event queued at 1000000 ns, started at 2000000 ns and
ended at 3000000 ns both functions return 2 ms, the time since it was queued, while
`(end - start) / 1e6` is 1 ms. -/
theorem elapsed_time_from_start_counterexample :
    Example.lateStart.profilingInfo 5 cl_profiling_info.CL_PROFILING_COMMAND_START = 2000000
    ∧ Example.lateStart.profilingInfo 5 cl_profiling_info.CL_PROFILING_COMMAND_END = 3000000
    ∧ (timeEnqueueNDRangeKernel ⟨⟨8, 20⟩, 20, true⟩ ⟨⟨⟨8, 20⟩, "F"⟩, "k"⟩ 2 [32, 32]
        [16, 16] Example.lateStart Log.empty).2 = Outcome.ret (real_t.num 2)
    ∧ (get_cl_time 5 Example.lateStart Log.empty).2 = Outcome.ret (real_t.num 2)
    ∧ real_t.num 2 ≠ real_t.num (((3000000 : ℚ) - (2000000 : ℚ)) / 1000000) := by
  have hs : ∀ h c, Example.lateStart.status h c = CL_SUCCESS := fun _ _ => rfl
  have hval : elapsed_ms 1000000 3000000 = real_t.num 2 := by
    rw [elapsed_ms_eq]
    norm_num
  refine ⟨rfl, rfl, ?_, ?_, ?_⟩
  · rw [timeEnqueueNDRangeKernel_success _ _ _ _ _ _ _ hs]
    exact congrArg Outcome.ret hval
  · rw [get_cl_time_success _ _ _ hs]
    exact congrArg Outcome.ret hval
  · norm_num

theorem CL.ite_eq {α : Type} (c : Prop) [Decidable c] (a b : CL α) (rt : Runtime) (s : Log) :
    (if c then a else b) rt s = if c then a rt s else b rt s := by
  split <;> rfl

theorem device_apply_stencil_success (rt : Runtime) (USE_DOUBLE : Bool) (in_ : List real_t)
    (size : Int) (filter : List real_t) (filterSize : Int) (out : List real_t) (clenv : CLEnv)
    (globalWorkSize localWorkSize : List Nat) (s : Log)
    (commandQueue : cl_command_queue) (kernel : cl_kernel)
    (hs : ∀ h c, rt.status h c = CL_SUCCESS)
    (hq : clenv.commandQueue = some commandQueue) (hk : clenv.kernel = some kernel)
    (hsize : isInt (size * size) = true) :
    ∃ (BYTE_SIZE FILTER_BYTE_SIZE : Nat) (ev : cl_event) (timems : double)
      (out1 : List real_t),
      Convolution.device_apply_stencil USE_DOUBLE in_ size filter filterSize out clenv
          globalWorkSize localWorkSize rt s
        = (⟨s.calls ++
            [Call.clCreateBuffer clenv.context
                [cl_mem_flag.CL_MEM_WRITE_ONLY, cl_mem_flag.CL_MEM_COPY_HOST_PTR] BYTE_SIZE
                (some out),
              Call.clCreateBuffer clenv.context
                [cl_mem_flag.CL_MEM_READ_ONLY, cl_mem_flag.CL_MEM_COPY_HOST_PTR] BYTE_SIZE
                (some in_),
              Call.clCreateBuffer clenv.context
                [cl_mem_flag.CL_MEM_READ_ONLY, cl_mem_flag.CL_MEM_COPY_HOST_PTR]
                FILTER_BYTE_SIZE (some filter),
              Call.clSetKernelArg clenv.kernel 0 (KernelArg.mem (s.calls.length + 1)),
              Call.clSetKernelArg clenv.kernel 1 (KernelArg.int size),
              Call.clSetKernelArg clenv.kernel 2 (KernelArg.mem (s.calls.length + 2)),
              Call.clSetKernelArg clenv.kernel 3 (KernelArg.int filterSize),
              Call.clSetKernelArg clenv.kernel 4 (KernelArg.mem s.calls.length),
              Call.clFinish commandQueue,
              Call.clEnqueueNDRangeKernel commandQueue kernel 2 globalWorkSize localWorkSize,
              Call.clFinish commandQueue,
              Call.clWaitForEvents ev,
              Call.clGetEventProfilingInfo ev cl_profiling_info.CL_PROFILING_COMMAND_QUEUED,
              Call.clGetEventProfilingInfo ev cl_profiling_info.CL_PROFILING_COMMAND_END,
              Call.clEnqueueReadBuffer clenv.commandQueue s.calls.length BYTE_SIZE,
              Call.clReleaseMemObject (s.calls.length + 1),
              Call.clReleaseMemObject (s.calls.length + 2),
              Call.clReleaseMemObject s.calls.length], s.printed⟩,
          Outcome.ret (timems, out1)) := by
  simp [Convolution.device_apply_stencil, CL.bind_eq, CL.pure_eq, CL.call, CL.ask, CL.history,
    hs, check_cl_error_success, hq, hk, hsize,
    timeEnqueueNDRangeKernel_success rt _ _ _ _ _ _ hs]

theorem device_apply_stencil_image_success (rt : Runtime) (USE_DOUBLE WRITE_TO_IMAGE : Bool)
    (in_ : List real_t) (size : Int) (filter : List real_t) (filterSize : Int)
    (out : List real_t) (clenv : CLEnv) (globalWorkSize localWorkSize : List Nat) (s : Log)
    (commandQueue : cl_command_queue) (kernel : cl_kernel)
    (hs : ∀ h c, rt.status h c = CL_SUCCESS)
    (hq : clenv.commandQueue = some commandQueue) (hk : clenv.kernel = some kernel)
    (hsize : isInt (size * size) = true) :
    ∃ (BYTE_SIZE : Nat) (ev : cl_event) (timems : double) (out1 : List real_t),
      Convolution.device_apply_stencil_image USE_DOUBLE WRITE_TO_IMAGE in_ size filter
          filterSize out clenv globalWorkSize localWorkSize rt s
        = (⟨s.calls ++
            [(if WRITE_TO_IMAGE then
                Call.clCreateImage2D clenv.context
                  [cl_mem_flag.CL_MEM_WRITE_ONLY, cl_mem_flag.CL_MEM_COPY_HOST_PTR]
                  (size_t_of_int size) (size_t_of_int size) (some out)
              else
                Call.clCreateBuffer clenv.context
                  [cl_mem_flag.CL_MEM_WRITE_ONLY, cl_mem_flag.CL_MEM_COPY_HOST_PTR] BYTE_SIZE
                  (some out)),
              Call.clCreateImage2D clenv.context
                [cl_mem_flag.CL_MEM_READ_ONLY, cl_mem_flag.CL_MEM_COPY_HOST_PTR]
                (size_t_of_int size) (size_t_of_int size) (some in_),
              Call.clCreateImage2D clenv.context
                [cl_mem_flag.CL_MEM_READ_ONLY, cl_mem_flag.CL_MEM_COPY_HOST_PTR]
                (size_t_of_int filterSize) (size_t_of_int filterSize) (some filter),
              Call.clSetKernelArg clenv.kernel 0 (KernelArg.mem (s.calls.length + 1)),
              Call.clSetKernelArg clenv.kernel 1 (KernelArg.mem (s.calls.length + 2)),
              Call.clSetKernelArg clenv.kernel 2 (KernelArg.mem s.calls.length),
              Call.clFinish commandQueue,
              Call.clEnqueueNDRangeKernel commandQueue kernel 2 globalWorkSize localWorkSize,
              Call.clFinish commandQueue,
              Call.clWaitForEvents ev,
              Call.clGetEventProfilingInfo ev cl_profiling_info.CL_PROFILING_COMMAND_QUEUED,
              Call.clGetEventProfilingInfo ev cl_profiling_info.CL_PROFILING_COMMAND_END,
              (if WRITE_TO_IMAGE then
                Call.clEnqueueReadImage clenv.commandQueue s.calls.length
                  [size_t_of_int size, size_t_of_int size, 1]
              else
                Call.clEnqueueReadBuffer clenv.commandQueue s.calls.length BYTE_SIZE),
              Call.clReleaseMemObject s.calls.length,
              Call.clReleaseMemObject (s.calls.length + 1),
              Call.clReleaseMemObject (s.calls.length + 2)], s.printed⟩,
          Outcome.ret (timems, out1)) := by
  cases WRITE_TO_IMAGE <;>
  simp [Convolution.device_apply_stencil_image, CL.bind_eq, CL.pure_eq, CL.call, CL.ask,
    CL.history, hs, check_cl_error_success, hq, hk, hsize,
    timeEnqueueNDRangeKernel_success rt _ _ _ _ _ _ hs]

theorem create_clenv_returns (rt : Runtime) (platformName deviceTypeName : String)
    (deviceNum : Int) (enableProfiling : Bool) (clSourcePath kernelName : String)
    (P F buildOptions : String)
    (platformID : cl_platform_id) (deviceType : cl_device_type) (deviceID : cl_device_id)
    (hs : ∀ h c, rt.status h c = CL_SUCCESS)
    (hfind : rt.platformIDs.find? (fun p => decide (platformName = rt.platformName p))
      = some platformID)
    (htype : create_cl_context.deviceType deviceTypeName = some deviceType)
    (hge : 0 ≤ deviceNum) (hnum : isInt deviceNum = true)
    (hdev : (rt.deviceIDs platformID deviceType)[deviceNum.toNat]? = some deviceID)
    (hfile : rt.fileText clSourcePath = some F) :
    ∃ (pre : List Call) (printed : List Message),
      create_clenv platformName deviceTypeName deviceNum enableProfiling
          (some clSourcePath) (some kernelName) P buildOptions rt Log.empty
        = (⟨pre, printed⟩,
            Outcome.ret ⟨some ⟨platformID, deviceID⟩,
              some ⟨⟨platformID, deviceID⟩, P ++ "\n" ++ F⟩,
              some ⟨⟨⟨platformID, deviceID⟩, P ++ "\n" ++ F⟩, kernelName⟩,
              some ⟨⟨platformID, deviceID⟩, deviceID, enableProfiling⟩⟩)
      ∧ (∀ c ∈ pre, (∀ m, c ≠ Call.clReleaseMemObject m)
          ∧ (∀ x f n h, c ≠ Call.clCreateBuffer x f n h)
          ∧ (∀ x f w h d, c ≠ Call.clCreateImage2D x f w h d)
          ∧ (∀ x, c ≠ Call.clReleaseContext x))
      ∧ (∀ m ∈ printed, ∃ b, m = Message.build_output b) := by
  have hctx := create_cl_context_returns rt hs platformName deviceTypeName deviceNum platformID
    deviceType deviceID hfind htype hge hnum hdev
  have key : ∃ (pre : List Call),
      create_clenv platformName deviceTypeName deviceNum enableProfiling
          (some clSourcePath) (some kernelName) P buildOptions rt Log.empty
        = (⟨pre, if 1 < rt.buildLogSize ⟨⟨platformID, deviceID⟩, P ++ "\n" ++ F⟩
              then [Message.build_output (rt.buildLog ⟨⟨platformID, deviceID⟩, P ++ "\n" ++ F⟩)]
              else []⟩,
            Outcome.ret ⟨some ⟨platformID, deviceID⟩,
              some ⟨⟨platformID, deviceID⟩, P ++ "\n" ++ F⟩,
              some ⟨⟨⟨platformID, deviceID⟩, P ++ "\n" ++ F⟩, kernelName⟩,
              some ⟨⟨platformID, deviceID⟩, deviceID, enableProfiling⟩⟩)
      ∧ (∀ c ∈ pre, (∀ m, c ≠ Call.clReleaseMemObject m)
          ∧ (∀ x f n h, c ≠ Call.clCreateBuffer x f n h)
          ∧ (∀ x f w h d, c ≠ Call.clCreateImage2D x f w h d)
          ∧ (∀ x, c ≠ Call.clReleaseContext x)) := by
    by_cases hopt : buildOptions.length = 0 <;>
    by_cases hlog : 1 < rt.buildLogSize ⟨⟨platformID, deviceID⟩, P ++ "\n" ++ F⟩ <;>
    simp [create_clenv, create_clenv.program, create_clenv.kernel, load_text,
      CL.bind_eq, CL.pure_eq, CL.call, CL.ask, CL.print, hs, check_cl_error_success, hctx,
      hfile, hopt, hlog] <;>
    intro a ha <;>
    rcases ha with ⟨_, _, rfl⟩ | rfl | rfl | rfl | rfl | rfl | rfl | rfl | rfl | rfl | rfl <;>
    simp
  obtain ⟨pre, hrun, hpre⟩ := key
  refine ⟨pre, _, hrun, hpre, ?_⟩
  intro m hm
  split_ifs at hm
  · exact ⟨_, List.mem_singleton.mp hm⟩
  · simp at hm

theorem DotProduct.main_success (rt : Runtime) (USE_DOUBLE : Bool) (argv : List String)
    (V1 V2 : List real_t) (hostDot : real_t)
    (platformName deviceTypeName deviceNum clSourcePath kernelName F : String)
    (platformID : cl_platform_id) (deviceType : cl_device_type) (deviceID : cl_device_id)
    (hs : ∀ h c, rt.status h c = CL_SUCCESS)
    (hargc : 6 ≤ argv.length)
    (h1 : argv[1]? = some platformName) (h2 : argv[2]? = some deviceTypeName)
    (h3 : argv[3]? = some deviceNum) (h4 : argv[4]? = some clSourcePath)
    (h5 : argv[5]? = some kernelName)
    (hfind : rt.platformIDs.find? (fun p => decide (platformName = rt.platformName p))
      = some platformID)
    (htype : create_cl_context.deviceType deviceTypeName = some deviceType)
    (hge : 0 ≤ atoi deviceNum) (hnum : isInt (atoi deviceNum) = true)
    (hdev : (rt.deviceIDs platformID deviceType)[(atoi deviceNum).toNat]? = some deviceID)
    (hfile : rt.fileText clSourcePath = some F)
    (hhost : DotProduct.host_dot_product USE_DOUBLE V1 V2 = some hostDot) :
    ∃ (pre : List Call) (program : cl_program),
      ((DotProduct.main USE_DOUBLE argv V1 V2).run rt).1.calls
        = pre ++
            [Call.clCreateBuffer (some ⟨platformID, deviceID⟩) [cl_mem_flag.CL_MEM_WRITE_ONLY]
                (16 * sizeof_real_t USE_DOUBLE) none,
              Call.clCreateBuffer (some ⟨platformID, deviceID⟩)
                [cl_mem_flag.CL_MEM_READ_ONLY, cl_mem_flag.CL_MEM_COPY_HOST_PTR]
                (256 * sizeof_real_t USE_DOUBLE) (some V1),
              Call.clCreateBuffer (some ⟨platformID, deviceID⟩)
                [cl_mem_flag.CL_MEM_READ_ONLY, cl_mem_flag.CL_MEM_COPY_HOST_PTR]
                (256 * sizeof_real_t USE_DOUBLE) (some V2),
              Call.clSetKernelArg (some ⟨program, kernelName⟩) 0
                (KernelArg.mem (pre.length + 1)),
              Call.clSetKernelArg (some ⟨program, kernelName⟩) 1
                (KernelArg.mem (pre.length + 2)),
              Call.clSetKernelArg (some ⟨program, kernelName⟩) 2 (KernelArg.mem pre.length),
              Call.clEnqueueNDRangeKernel ⟨⟨platformID, deviceID⟩, deviceID, false⟩
                ⟨program, kernelName⟩ 1 [256] [16],
              Call.clEnqueueReadBuffer (some ⟨⟨platformID, deviceID⟩, deviceID, false⟩)
                pre.length (16 * sizeof_real_t USE_DOUBLE),
              Call.clReleaseMemObject (pre.length + 1),
              Call.clReleaseMemObject (pre.length + 2),
              Call.clReleaseMemObject pre.length,
              Call.clReleaseCommandQueue (some ⟨⟨platformID, deviceID⟩, deviceID, false⟩),
              Call.clReleaseKernel (some ⟨program, kernelName⟩),
              Call.clReleaseProgram (some program),
              Call.clReleaseContext (some ⟨platformID, deviceID⟩)]
      ∧ ((DotProduct.main USE_DOUBLE argv V1 V2).run rt).2 = Outcome.ret 0
      ∧ (∀ c ∈ pre, (∀ m, c ≠ Call.clReleaseMemObject m)
          ∧ (∀ x f n h, c ≠ Call.clCreateBuffer x f n h)
          ∧ (∀ x f w h d, c ≠ Call.clCreateImage2D x f w h d)
          ∧ (∀ x, c ≠ Call.clReleaseContext x)) := by
  obtain ⟨pre, printed, hclenv, hpre, _⟩ := create_clenv_returns rt platformName deviceTypeName
    (atoi deviceNum) false clSourcePath kernelName
    ("#define BLOCK_SIZE 16\n" ++ (if USE_DOUBLE then "#define DOUBLE\n" else "")) F ""
    platformID deviceType deviceID hs hfind htype hge hnum hdev hfile
  have hlt : ¬ argv.length < 6 := by omega
  have hsz : size_t_of_int (int_of_size_t (size_t_mul
      (size_t_of_int (Int.tdiv DotProduct.SIZE DotProduct.BLOCK_SIZE))
      (sizeof_real_t USE_DOUBLE))) = 16 * sizeof_real_t USE_DOUBLE := by
    cases USE_DOUBLE <;> decide
  have hsz2 : size_t_mul (size_t_of_int DotProduct.SIZE) (sizeof_real_t USE_DOUBLE)
      = 256 * sizeof_real_t USE_DOUBLE := by
    cases USE_DOUBLE <;> decide
  have hsz3 : size_t_mul 256 (sizeof_real_t USE_DOUBLE) = 256 * sizeof_real_t USE_DOUBLE := by
    cases USE_DOUBLE <;> decide
  have hg : size_t_of_int DotProduct.SIZE = 256 := by decide
  have hl : size_t_of_int DotProduct.BLOCK_SIZE = 16 := by decide
  refine ⟨pre, ⟨⟨platformID, deviceID⟩,
    ("#define BLOCK_SIZE 16\n" ++ (if USE_DOUBLE then "#define DOUBLE\n" else ""))
      ++ "\n" ++ F⟩, ?_⟩
  simp only [DotProduct.main, DotProduct.main.body, arg, h1, h2, h3, h4, h5, hlt, hclenv,
    hhost, CL.run, CL.bind_eq, CL.pure_eq, CL.call, CL.ask, CL.history, CL.print, hs,
    check_cl_error_success, release_clenv, CL.ite_eq, hsz, hsz2, hg, hl, if_false]
  generalize DotProduct.check_result hostDot _ (EPS USE_DOUBLE) = verdict
  cases verdict <;> simp [hsz3] <;> exact hpre

theorem round_half_even_intCast (n : Int) : round_half_even (n : ℚ) = n := by
  simp [round_half_even]

theorem round_to_scaled (p : Nat) (m j : Int) (hm : |m| < 2 ^ p) :
    round_to p ((m : ℚ) * 2 ^ j) = (m : ℚ) * 2 ^ j := by
  by_cases hm0 : m = 0
  · simp [round_to, hm0]
  have h2 : (2 : ℚ) ≠ 0 := by norm_num
  have hq0 : (m : ℚ) * 2 ^ j ≠ 0 := mul_ne_zero (by exact_mod_cast hm0) (zpow_ne_zero _ h2)
  have hpos : 0 < |(m : ℚ) * 2 ^ j| := abs_pos.mpr hq0
  have hle : ((2 : ℕ) : ℚ) ^ Int.log 2 |(m : ℚ) * 2 ^ j| ≤ |(m : ℚ) * 2 ^ j| :=
    Int.zpow_log_le_self (by norm_num) hpos
  have hlt : |(m : ℚ) * 2 ^ j| < 2 ^ ((p : Int) + j) := by
    rw [abs_mul, abs_of_pos (zpow_pos (by norm_num : (0 : ℚ) < 2) j), zpow_add₀ h2, zpow_natCast]
    apply mul_lt_mul_of_pos_right _ (zpow_pos (by norm_num) j)
    have : ((|m| : Int) : ℚ) < ((2 ^ p : Int) : ℚ) := by exact_mod_cast hm
    simpa using this
  have he : Int.log 2 |(m : ℚ) * 2 ^ j| < (p : Int) + j := by
    have h := lt_of_le_of_lt hle hlt
    have h' : ((2 : ℚ)) ^ Int.log 2 |(m : ℚ) * 2 ^ j| < (2 : ℚ) ^ ((p : Int) + j) := by
      simpa using h
    exact (zpow_lt_zpow_iff_right₀ (by norm_num : (1 : ℚ) < 2)).mp h'
  simp only [round_to, hq0, if_false]
  obtain ⟨k, hk⟩ : ∃ k : ℕ, j = (Int.log 2 |(m : ℚ) * 2 ^ j| - (p : Int) + 1) + k :=
    ⟨(j - (Int.log 2 |(m : ℚ) * 2 ^ j| - (p : Int) + 1)).toNat, by omega⟩
  generalize Int.log 2 |(m : ℚ) * 2 ^ j| - (p : Int) + 1 = s at hk ⊢
  have hdiv : (m : ℚ) * 2 ^ j / 2 ^ s = ((m * 2 ^ k : Int) : ℚ) := by
    rw [hk, zpow_add₀ h2, zpow_natCast]
    field_simp
    ring
  rw [hdiv, round_half_even_intCast, hk, zpow_add₀ h2, zpow_natCast]
  push_cast
  ring

theorem round_to_intCast (p : Nat) (n : Int) (hn : |n| < 2 ^ p) :
    round_to p (n : ℚ) = n := by
  have h := round_to_scaled p n 0 hn
  simpa using h

theorem round_to_tie : round_to 24 16777217 = 16777216 := by
  have hlog : Int.log 2 |(16777217 : ℚ)| = 24 := by
    rw [abs_of_pos (by norm_num)]
    have : (16777217 : ℚ) = ((16777217 : ℕ) : ℚ) := by norm_num
    have hn : Nat.log 2 16777217 = 24 :=
      Nat.log_eq_of_pow_le_of_lt_pow (by norm_num) (by norm_num)
    rw [this, Int.log_natCast, hn]
    rfl
  have hfloor : ⌊(16777217 : ℚ) / 2⌋ = 8388608 := by
    rw [Int.floor_eq_iff]
    constructor <;> norm_num
  simp only [round_to, hlog]
  norm_num [round_half_even, hfloor]

theorem real_t.round_intCast (USE_DOUBLE : Bool) (n : Int) (h0 : 0 ≤ n) (hn : n < 2 ^ 24) :
    real_t.round USE_DOUBLE (real_t.num (n : ℚ)) = real_t.num (n : ℚ) := by
  have hp : (2 : Int) ^ 24 ≤ 2 ^ significand_bits USE_DOUBLE := by
    cases USE_DOUBLE <;> simp [significand_bits]
  rw [real_t.round, round_to_intCast _ n (by rw [abs_of_nonneg h0]; omega)]

namespace DotProduct

theorem zipWith_mul_sum_bounds (A B : List Int) (hA : ∀ n ∈ A, 0 ≤ n ∧ n ≤ 9)
    (hB : ∀ n ∈ B, 0 ≤ n ∧ n ≤ 9) :
    0 ≤ (List.zipWith (· * ·) A B).sum ∧ (List.zipWith (· * ·) A B).sum ≤ 81 * A.length := by
  induction A generalizing B with
  | nil => simp
  | cons a A ih =>
    cases B with
    | nil => simp; omega
    | cons b B =>
      obtain ⟨h1, h2⟩ := ih B (fun n hn => hA n (List.mem_cons_of_mem _ hn))
        (fun n hn => hB n (List.mem_cons_of_mem _ hn))
      obtain ⟨ha0, ha9⟩ := hA a (List.mem_cons_self _ _)
      obtain ⟨hb0, hb9⟩ := hB b (List.mem_cons_self _ _)
      have hab0 : 0 ≤ a * b := mul_nonneg ha0 hb0
      have hab : a * b ≤ 81 := by nlinarith
      simp only [List.zipWith_cons_cons, List.sum_cons, List.length_cons]
      push_cast
      constructor <;> omega

theorem inner_product_int (USE_DOUBLE : Bool) (A B : List Int) (c : Int)
    (hlen : A.length = B.length) (hA : ∀ n ∈ A, 0 ≤ n ∧ n ≤ 9) (hB : ∀ n ∈ B, 0 ≤ n ∧ n ≤ 9)
    (hc0 : 0 ≤ c) (hc : c + 81 * A.length < 2 ^ 24) :
    inner_product USE_DOUBLE (A.map (fun (n : Int) => real_t.num (n : ℚ)))
        (B.map (fun (n : Int) => real_t.num (n : ℚ))) (real_t.num (c : ℚ))
      = some (real_t.num ((c + (List.zipWith (· * ·) A B).sum : Int) : ℚ)) := by
  induction A generalizing B c with
  | nil => simp [inner_product]
  | cons a A ih =>
    cases B with
    | nil => simp at hlen
    | cons b B =>
      simp only [List.length_cons, Nat.add_right_cancel_iff] at hlen
      obtain ⟨ha0, ha9⟩ := hA a (List.mem_cons_self _ _)
      obtain ⟨hb0, hb9⟩ := hB b (List.mem_cons_self _ _)
      have hab0 : 0 ≤ a * b := mul_nonneg ha0 hb0
      have hab : a * b ≤ 81 := by nlinarith
      simp only [List.length_cons] at hc
      push_cast at hc
      have hmul : real_t.mul (real_t.num (a : ℚ)) (real_t.num (b : ℚ))
          = real_t.num ((a * b : Int) : ℚ) := by
        simp [real_t.mul]
      have hadd : real_t.add (real_t.num (c : ℚ)) (real_t.num ((a * b : Int) : ℚ))
          = real_t.num ((c + a * b : Int) : ℚ) := by
        simp [real_t.add]
      simp only [List.map_cons, inner_product, List.zipWith_cons_cons, List.sum_cons]
      rw [hmul, real_t.round_intCast USE_DOUBLE (a * b) hab0 (by omega), hadd,
        real_t.round_intCast USE_DOUBLE (c + a * b) (by omega) (by omega),
        ih B (c + a * b) hlen (fun n hn => hA n (List.mem_cons_of_mem _ hn))
          (fun n hn => hB n (List.mem_cons_of_mem _ hn)) (by omega) (by omega), add_assoc]

theorem accumulate_int (USE_DOUBLE : Bool) (L : List Int) (c : Int) (hL : ∀ n ∈ L, 0 ≤ n)
    (hc0 : 0 ≤ c) (hc : c + L.sum < 2 ^ 24) :
    accumulate USE_DOUBLE (L.map (fun (n : Int) => real_t.num (n : ℚ))) (real_t.num (c : ℚ))
      = real_t.num ((c + L.sum : Int) : ℚ) := by
  induction L generalizing c with
  | nil => simp [accumulate]
  | cons a L ih =>
    have ha0 := hL a (List.mem_cons_self _ _)
    have hs0 : 0 ≤ L.sum := List.sum_nonneg (fun n hn => hL n (List.mem_cons_of_mem _ hn))
    simp only [List.sum_cons] at hc
    have hadd : real_t.add (real_t.num (c : ℚ)) (real_t.num (a : ℚ))
        = real_t.num ((c + a : Int) : ℚ) := by
      simp [real_t.add]
    simp only [List.map_cons, accumulate, List.sum_cons]
    rw [hadd, real_t.round_intCast USE_DOUBLE (c + a) (by omega) (by omega),
      ih (c + a) (fun n hn => hL n (List.mem_cons_of_mem _ hn)) (by omega) (by omega), add_assoc]

theorem sum_chunks (P : List Int) (n b : Nat) :
    ((List.range n).map (fun k => ((P.drop (k * b)).take b).sum)).sum = (P.take (n * b)).sum := by
  induction n with
  | zero => simp
  | succ n ih =>
    rw [List.range_succ, List.map_append, List.sum_append, ih, Nat.succ_mul, List.take_add,
      List.sum_append]
    simp

theorem partial_dot_products_int (USE_DOUBLE : Bool) (A B : List Int)
    (hlen : A.length = B.length) (hA : ∀ n ∈ A, 0 ≤ n ∧ n ≤ 9) (hB : ∀ n ∈ B, 0 ≤ n ∧ n ≤ 9) :
    partial_dot_products USE_DOUBLE 16 (A.map (fun (n : Int) => real_t.num (n : ℚ)))
        (B.map (fun (n : Int) => real_t.num (n : ℚ)))
      = ((List.range (A.length / 16)).map (fun k =>
          (((List.zipWith (· * ·) A B).drop (k * 16)).take 16).sum)).map
            (fun (n : Int) => real_t.num (n : ℚ)) := by
  unfold partial_dot_products host_dot_product
  rw [List.length_map, List.map_map]
  apply List.map_congr_left
  intro k _
  have h0 : real_t.num 0 = real_t.num ((0 : Int) : ℚ) := by simp
  rw [← List.map_drop, ← List.map_drop, ← List.map_take, ← List.map_take, h0,
    inner_product_int USE_DOUBLE _ _ 0 (by simp [hlen])
      (fun n hn => hA n (List.mem_of_mem_drop (List.mem_of_mem_take hn)))
      (fun n hn => hB n (List.mem_of_mem_drop (List.mem_of_mem_take hn))) (le_refl _)
      (by
        have : ((A.drop (k * 16)).take 16).length ≤ 16 := by
          rw [List.length_take]; omega
        omega)]
  simp [List.take_zipWith, List.drop_zipWith]


theorem accumulate_partial_dot_products (USE_DOUBLE : Bool) (A B : List Int)
    (hA : A.length = 256) (hB : B.length = 256) (hA9 : ∀ n ∈ A, 0 ≤ n ∧ n ≤ 9)
    (hB9 : ∀ n ∈ B, 0 ≤ n ∧ n ≤ 9) :
    (partial_dot_products USE_DOUBLE 16 (A.map (fun (n : Int) => real_t.num (n : ℚ)))
        (B.map (fun (n : Int) => real_t.num (n : ℚ)))).length = 16
    ∧ accumulate USE_DOUBLE
        (partial_dot_products USE_DOUBLE 16 (A.map (fun (n : Int) => real_t.num (n : ℚ)))
          (B.map (fun (n : Int) => real_t.num (n : ℚ)))) (real_t.num 0)
      = real_t.num (((List.zipWith (· * ·) A B).sum : Int) : ℚ)
    ∧ host_dot_product USE_DOUBLE (A.map (fun (n : Int) => real_t.num (n : ℚ)))
        (B.map (fun (n : Int) => real_t.num (n : ℚ)))
      = some (real_t.num (((List.zipWith (· * ·) A B).sum : Int) : ℚ)) := by
  have hlen : A.length = B.length := by omega
  have h0 : real_t.num 0 = real_t.num ((0 : Int) : ℚ) := by simp
  obtain ⟨hs0, hs⟩ := zipWith_mul_sum_bounds A B hA9 hB9
  have htake : (List.zipWith (· * ·) A B).take (16 * 16) = List.zipWith (· * ·) A B := by
    apply List.take_of_length_le
    simp [List.length_zipWith, hA, hB]
  refine ⟨?_, ?_, ?_⟩
  · simp [partial_dot_products, hA]
  · rw [partial_dot_products_int USE_DOUBLE A B hlen hA9 hB9, h0, accumulate_int, sum_chunks,
      hA, htake, zero_add]
    · intro n hn
      obtain ⟨k, _, rfl⟩ := List.mem_map.mp hn
      rw [List.drop_zipWith, List.take_zipWith]
      exact (zipWith_mul_sum_bounds _ _
        (fun n hn => hA9 n (List.mem_of_mem_drop (List.mem_of_mem_take hn)))
        (fun n hn => hB9 n (List.mem_of_mem_drop (List.mem_of_mem_take hn)))).1
    · exact le_refl _
    · rw [sum_chunks, hA, htake]
      rw [hA] at hs
      norm_num at hs ⊢
      omega
  · rw [host_dot_product, h0, inner_product_int USE_DOUBLE A B 0 hlen hA9 hB9 (le_refl _)
      (by rw [hA]; norm_num), zero_add]


theorem round_float_even (m : Int) (h0 : 0 ≤ m) (hm : m < 2 ^ 24) :
    real_t.round false (real_t.num ((2 * m : Int) : ℚ)) = real_t.num ((2 * m : Int) : ℚ) := by
  have h := round_to_scaled 24 m 1 (by rw [abs_of_nonneg h0]; exact hm)
  have he : ((2 * m : Int) : ℚ) = (m : ℚ) * 2 ^ (1 : Int) := by
    push_cast
    rw [zpow_one]
    ring
  rw [real_t.round, he]
  exact congrArg real_t.num h

theorem round_float_tie :
    real_t.round false (real_t.num 16777217) = real_t.num 16777216 :=
  congrArg real_t.num round_to_tie

theorem round_one (USE_DOUBLE : Bool) :
    real_t.round USE_DOUBLE (real_t.num 1) = real_t.num 1 := by
  simpa using real_t.round_intCast USE_DOUBLE 1 (by norm_num) (by norm_num)

theorem inner_product_absorbed (n : Nat) :
    inner_product false (List.replicate n (real_t.num 1)) (List.replicate n (real_t.num 1))
      (real_t.num 16777216) = some (real_t.num 16777216) := by
  induction n with
  | zero => rfl
  | succ n ih =>
    have hm : real_t.mul (real_t.num 1) (real_t.num 1) = real_t.num 1 := by simp [real_t.mul]
    have ha : real_t.add (real_t.num 16777216) (real_t.num 1) = real_t.num 16777217 := by
      simp only [real_t.add]
      norm_num
    rw [List.replicate_succ, inner_product, hm, round_one, ha, round_float_tie, ih]

theorem host_dot_product_absorbed (n : Nat) :
    host_dot_product false (real_t.num 16777216 :: List.replicate n (real_t.num 1))
      (List.replicate (n + 1) (real_t.num 1)) = some (real_t.num 16777216) := by
  have hm : real_t.mul (real_t.num 16777216) (real_t.num 1) = real_t.num 16777216 := by
    simp [real_t.mul]
  have hr : real_t.round false (real_t.num 16777216) = real_t.num 16777216 := by
    have h := round_float_even 8388608 (by norm_num) (by norm_num)
    norm_num at h
    exact h
  have ha : real_t.add (real_t.num 0) (real_t.num 16777216) = real_t.num 16777216 := by
    simp [real_t.add]
  rw [host_dot_product, List.replicate_succ, inner_product, hm, hr, ha, hr,
    inner_product_absorbed]

theorem host_dot_product_replicate (USE_DOUBLE : Bool) (n : Nat) (hn : 81 * n < 2 ^ 24) :
    host_dot_product USE_DOUBLE (List.replicate n (real_t.num 1))
      (List.replicate n (real_t.num 1)) = some (real_t.num (n : ℚ)) := by
  have h0 : real_t.num 0 = real_t.num ((0 : Int) : ℚ) := by simp
  have h := inner_product_int USE_DOUBLE (List.replicate n 1) (List.replicate n 1) 0 rfl
    (fun k hk => by rw [List.eq_of_mem_replicate hk]; norm_num)
    (fun k hk => by rw [List.eq_of_mem_replicate hk]; norm_num) (le_refl _)
    (by rw [List.length_replicate]; omega)
  simp only [List.map_replicate, List.zipWith_replicate, List.sum_replicate, Nat.min_self,
    Int.cast_one, Int.cast_zero] at h
  rw [host_dot_product, h]
  simp

theorem partial_dot_products_absorbed :
    partial_dot_products false 16 (real_t.num 16777216 :: List.replicate 255 (real_t.num 1))
        (List.replicate 256 (real_t.num 1))
      = real_t.num 16777216 :: List.replicate 15 (real_t.num 16) := by
  have hlen : (real_t.num 16777216 :: List.replicate 255 (real_t.num 1)).length / 16 = 16 := by
    rw [List.length_cons, List.length_replicate]
  have hrep : List.replicate 15 (real_t.num 16)
      = (List.range 15).map (fun _ => real_t.num 16) := by
    apply List.ext_getElem
    · simp only [List.length_map, List.length_range, List.length_replicate]
    · intro k h1 h2
      simp only [List.getElem_map, List.getElem_replicate]
  unfold partial_dot_products
  rw [hlen, List.range_succ_eq_map, List.map_cons, List.map_map, hrep]
  refine congrArg₂ List.cons ?_ ?_
  · have h := host_dot_product_absorbed 15
    have h1 : List.take 16 (List.drop (0 * 16)
        (real_t.num 16777216 :: List.replicate 255 (real_t.num 1)))
        = real_t.num 16777216 :: List.replicate 15 (real_t.num 1) := by
      simp only [Nat.zero_mul, List.drop_zero, List.take_succ_cons, List.take_replicate]
      rfl
    have h2 : List.take 16 (List.drop (0 * 16) (List.replicate 256 (real_t.num 1)))
        = List.replicate (15 + 1) (real_t.num 1) := by
      simp only [Nat.zero_mul, List.drop_zero, List.take_replicate]
      rfl
    rw [h1, h2, h]
  · apply List.map_congr_left
    intro k hk
    have hk15 : k < 15 := List.mem_range.mp hk
    have h1 : List.take 16 (List.drop ((k + 1) * 16)
        (real_t.num 16777216 :: List.replicate 255 (real_t.num 1)))
        = List.replicate 16 (real_t.num 1) := by
      have e : (k + 1) * 16 = (k * 16 + 15) + 1 := by ring
      rw [e, List.drop_succ_cons, List.drop_replicate, List.take_replicate]
      congr 1
      omega
    have h2 : List.take 16 (List.drop ((k + 1) * 16) (List.replicate 256 (real_t.num 1)))
        = List.replicate 16 (real_t.num 1) := by
      rw [List.drop_replicate, List.take_replicate]
      congr 1
      omega
    have h := host_dot_product_replicate false 16 (by norm_num)
    simp only [Function.comp, Nat.succ_eq_add_one, h1, h2, h]
    norm_num

theorem accumulate_sixteens (n : Nat) (m : Int) (h0 : 0 ≤ m) (hm : m + 8 * n < 2 ^ 24) :
    accumulate false (List.replicate n (real_t.num 16)) (real_t.num ((2 * m : Int) : ℚ))
      = real_t.num ((2 * (m + 8 * n) : Int) : ℚ) := by
  induction n generalizing m with
  | zero => simp [accumulate]
  | succ n ih =>
    push_cast at hm
    have ha : real_t.add (real_t.num ((2 * m : Int) : ℚ)) (real_t.num 16)
        = real_t.num ((2 * (m + 8) : Int) : ℚ) := by
      simp only [real_t.add]
      congr 1
      push_cast
      ring
    rw [List.replicate_succ, accumulate, ha, round_float_even (m + 8) (by omega) (by omega),
      ih (m + 8) (by omega) (by omega)]
    congr 1
    push_cast
    ring

theorem accumulate_absorbed :
    accumulate false (real_t.num 16777216 :: List.replicate 15 (real_t.num 16)) (real_t.num 0)
      = real_t.num 16777456 := by
  have ha : real_t.add (real_t.num 0) (real_t.num 16777216)
      = real_t.num ((2 * 8388608 : Int) : ℚ) := by
    simp only [real_t.add]
    norm_num
  rw [accumulate, ha, round_float_even 8388608 (by norm_num) (by norm_num),
    accumulate_sixteens 15 8388608 (by norm_num) (by norm_num)]
  norm_num

theorem check_result_absorbed :
    check_result (real_t.num 16777216) (real_t.num 16777456) (EPS false) = false := by
  simp only [check_result, real_t.sub, real_t.fabs, EPS, real_t.gt]
  norm_num

theorem host_dot_product_ones (USE_DOUBLE : Bool) :
    host_dot_product USE_DOUBLE (List.replicate 256 (real_t.num 1))
        (List.replicate 256 (real_t.num 1)) = some (real_t.num 256) := by
  have h := host_dot_product_replicate USE_DOUBLE 256 (by norm_num)
  rw [h]
  norm_num

theorem partial_dot_products_ones (USE_DOUBLE : Bool) :
    partial_dot_products USE_DOUBLE 16 (List.replicate 256 (real_t.num 1))
        (List.replicate 256 (real_t.num 1)) = List.replicate 16 (real_t.num 16) := by
  have hlen : (List.replicate 256 (real_t.num 1)).length / 16 = 16 := by
    rw [List.length_replicate]
  have hrep : List.replicate 16 (real_t.num 16)
      = (List.range 16).map (fun _ => real_t.num 16) := by
    apply List.ext_getElem
    · simp only [List.length_map, List.length_range, List.length_replicate]
    · intro k h1 h2
      simp only [List.getElem_map, List.getElem_replicate]
  unfold partial_dot_products
  rw [hlen, hrep]
  apply List.map_congr_left
  intro k hk
  have hk16 : k < 16 := List.mem_range.mp hk
  have h1 : List.take 16 (List.drop (k * 16) (List.replicate 256 (real_t.num 1)))
      = List.replicate 16 (real_t.num 1) := by
    rw [List.drop_replicate, List.take_replicate]
    congr 1
    omega
  have h := host_dot_product_replicate USE_DOUBLE 16 (by norm_num)
  simp only [h1, h]
  norm_num

theorem accumulate_ones (USE_DOUBLE : Bool) :
    accumulate USE_DOUBLE (List.replicate 16 (real_t.num 16)) (real_t.num 0)
      = real_t.num 256 := by
  have h0 : real_t.num 0 = real_t.num ((0 : Int) : ℚ) := by simp
  have h := accumulate_int USE_DOUBLE (List.replicate 16 16) 0
    (fun k hk => by rw [List.eq_of_mem_replicate hk]; norm_num) (le_refl _)
    (by rw [List.sum_replicate]; norm_num)
  simp only [List.map_replicate, List.sum_replicate] at h
  norm_num at h
  exact h

end DotProduct

/-- C11, as amended. In `create_clenv`, once the kernel file is read and the program is
created, with a build-log query that succeeds and reports the size of the log plus its
terminator: after a failing build the three calls `clCreateProgramWithSource`,
`clBuildProgram`, `clGetProgramBuildInfo` are the only ones issued, the log is printed
exactly when it is not empty, the build error is printed after it and the process
exits with `EXIT_FAILURE` without `clCreateKernel`; after a successful build the log is
printed exactly when it is not empty and the run continues with kernel creation, whose
first call is `clCreateKernel` for a named kernel. -/
theorem create_clenv_build_log (rt : Runtime) (context : cl_context) (deviceID : cl_device_id)
    (kernelName : Option String) (P buildOptions clSourcePath F : String) (s : Log)
    (program : cl_program) (create build : Call) (b : cl_int)
    (hfile : rt.fileText clSourcePath = some F)
    (hprogram : program = ⟨context, P ++ "\n" ++ F⟩)
    (hcreate : create
      = Call.clCreateProgramWithSource context (P ++ "\n" ++ F) (P ++ "\n" ++ F).length)
    (hbuild : build = Call.clBuildProgram program deviceID
      (if buildOptions.length ≠ 0 then some buildOptions else none))
    (hsrc : rt.status s.calls create = CL_SUCCESS)
    (hb : rt.status (s.calls ++ [create]) build = b)
    (hinfo : rt.status (s.calls ++ [create, build])
      (Call.clGetProgramBuildInfo program deviceID) = CL_SUCCESS)
    (hlen : rt.buildLogSize program = (rt.buildLog program).length + 1) :
    (b ≠ CL_SUCCESS →
      create_clenv.program context deviceID kernelName P buildOptions (some clSourcePath) rt s
        = (⟨s.calls ++ [create, build, Call.clGetProgramBuildInfo program deviceID],
            s.printed
              ++ (if rt.buildLog program ≠ ""
                  then [Message.build_output (rt.buildLog program)] else [])
              ++ [Message.error b "clBuildProgram"]⟩,
           Outcome.exit EXIT_FAILURE))
    ∧ (b = CL_SUCCESS →
      create_clenv.program context deviceID kernelName P buildOptions (some clSourcePath) rt s
        = (create_clenv.kernel program kernelName >>= fun kernel =>
            (pure (some program, kernel) : CL (Option cl_program × Option cl_kernel))) rt
          ⟨s.calls ++ [create, build, Call.clGetProgramBuildInfo program deviceID],
            s.printed
              ++ (if rt.buildLog program ≠ ""
                  then [Message.build_output (rt.buildLog program)] else [])⟩)
    ∧ (b = CL_SUCCESS → ∀ name, kernelName = some name →
      (create_clenv.program context deviceID kernelName P buildOptions (some clSourcePath)
          rt s).1.calls
        = s.calls ++ [create, build, Call.clGetProgramBuildInfo program deviceID,
            Call.clCreateKernel program name]) := by
  subst hprogram hcreate hbuild
  have hlog : (1 < rt.buildLogSize ⟨context, P ++ "\n" ++ F⟩)
      ↔ rt.buildLog ⟨context, P ++ "\n" ++ F⟩ ≠ "" := by
    rw [hlen]
    constructor
    · intro h he
      rw [he] at h
      exact absurd h (by decide)
    · intro h
      have : (rt.buildLog ⟨context, P ++ "\n" ++ F⟩).length ≠ 0 := by
        intro h0
        apply h
        apply String.ext
        exact List.eq_nil_of_length_eq_zero h0
      omega
  refine ⟨?_, ?_, ?_⟩
  · intro hne
    subst hb
    simp only [String.length_append] at hsrc hinfo hne ⊢
    by_cases hopt : buildOptions.length = 0 <;>
    by_cases hl : rt.buildLog ⟨context, P ++ "\n" ++ F⟩ = "" <;>
    simp only [hopt, ne_eq, not_true_eq_false, not_false_eq_true, if_true, if_false] at hinfo hne <;>
    simp [create_clenv.program, load_text, CL.bind_eq, CL.pure_eq, CL.call, CL.ask, CL.print,
      CL.exit, check_cl_error_success, check_cl_error_failure, hfile, hopt, hl, hlog, hsrc,
      hinfo, hne]
  · intro he
    subst hb
    simp only [String.length_append] at hsrc hinfo he ⊢
    by_cases hopt : buildOptions.length = 0 <;>
    by_cases hl : rt.buildLog ⟨context, P ++ "\n" ++ F⟩ = "" <;>
    simp only [hopt, ne_eq, not_true_eq_false, not_false_eq_true, if_true, if_false] at hinfo he <;>
    simp [create_clenv.program, load_text, CL.bind_eq, CL.pure_eq, CL.call, CL.ask, CL.print,
      CL.exit, check_cl_error_success, hfile, hopt, hl, hlog, hsrc, hinfo, he]
  · intro he name hname
    subst hb hname
    simp only [String.length_append] at hsrc hinfo he ⊢
    by_cases hopt : buildOptions.length = 0 <;>
    by_cases hl : rt.buildLog ⟨context, P ++ "\n" ++ F⟩ = "" <;>
    simp only [hopt, ne_eq, not_true_eq_false, not_false_eq_true, if_true, if_false] at hinfo he <;>
    simp only [create_clenv.program, create_clenv.kernel, load_text, CL.bind_eq, CL.pure_eq,
      CL.call, CL.ask, CL.print, CL.exit, check_cl_error_success, hfile, hopt, hl, hlog, hsrc,
      hinfo, he, check_cl_error, CL.ite_eq, String.length_append, List.append_assoc,
      List.singleton_append, List.cons_append, List.nil_append, ne_eq, not_true_eq_false,
      not_false_eq_true, if_true, if_false, gt_iff_lt] <;>
    split_ifs <;> simp

/-- C11, witness: a build that fails with the status -11 and the log "error: x" prints the
log, then the build error, and exits. -/
theorem create_clenv_build_log_witness :
    create_clenv.program ⟨8, 20⟩ 20 (some "k") "P" "" (some "kernel.cl") Example.failedBuild
        Log.empty
      = (⟨[Call.clCreateProgramWithSource ⟨8, 20⟩ "P\nF" 3,
            Call.clBuildProgram ⟨⟨8, 20⟩, "P\nF"⟩ 20 none,
            Call.clGetProgramBuildInfo ⟨⟨8, 20⟩, "P\nF"⟩ 20],
          [Message.build_output "error: x", Message.error (-11) "clBuildProgram"]⟩,
         Outcome.exit EXIT_FAILURE) :=
  (create_clenv_build_log Example.failedBuild ⟨8, 20⟩ 20 (some "k") "P" "" "kernel.cl" "F"
    Log.empty ⟨⟨8, 20⟩, "P\nF"⟩ (Call.clCreateProgramWithSource ⟨8, 20⟩ "P\nF" 3)
    (Call.clBuildProgram ⟨⟨8, 20⟩, "P\nF"⟩ 20 none) (-11)
    rfl rfl rfl rfl rfl rfl rfl rfl).1 (by decide)

/-- C11, as stated, fails: a failing build that leaves an empty log prints the build
error alone, no build output before it; and when the query of the log itself fails
after a failing build, neither the log nor the build error is printed, the error of
the query is. -/
theorem create_clenv_build_log_counterexample :
    (Example.failingOn (fun c => match c with
        | Call.clBuildProgram _ _ _ => true
        | _ => false)).buildLog ⟨⟨8, 20⟩, "P\nF"⟩ = ""
    ∧ create_clenv.program ⟨8, 20⟩ 20 (some "k") "P" "" (some "kernel.cl")
        (Example.failingOn (fun c => match c with
          | Call.clBuildProgram _ _ _ => true
          | _ => false)) Log.empty
      = (⟨[Call.clCreateProgramWithSource ⟨8, 20⟩ "P\nF" 3,
            Call.clBuildProgram ⟨⟨8, 20⟩, "P\nF"⟩ 20 none,
            Call.clGetProgramBuildInfo ⟨⟨8, 20⟩, "P\nF"⟩ 20],
          [Message.error (-5) "clBuildProgram"]⟩,
         Outcome.exit EXIT_FAILURE)
    ∧ create_clenv.program ⟨8, 20⟩ 20 (some "k") "P" "" (some "kernel.cl")
        { Example.failedBuild with status := fun _ c => match c with
            | Call.clBuildProgram _ _ _ => -11
            | Call.clGetProgramBuildInfo _ _ => -30
            | _ => CL_SUCCESS } Log.empty
      = (⟨[Call.clCreateProgramWithSource ⟨8, 20⟩ "P\nF" 3,
            Call.clBuildProgram ⟨⟨8, 20⟩, "P\nF"⟩ 20 none,
            Call.clGetProgramBuildInfo ⟨⟨8, 20⟩, "P\nF"⟩ 20],
          [Message.error (-30) "clBuildProgramInfo"]⟩,
         Outcome.exit EXIT_FAILURE) := by
  refine ⟨by decide, by decide, by decide⟩

/-- C13. With fewer than 6 arguments the dot-product driver, and with fewer than 9
arguments the convolution driver, prints its usage text and ends with
`exit(EXIT_FAILURE)`, a non-zero status, without a single device call, in every
runtime; with at least that many arguments the usage branch is not taken: the run is
the one of the code after it. -/
theorem main_usage (rt : Runtime) (USE_DOUBLE WRITE_TO_IMAGE : Bool) (argv : List String)
    (V1 V2 in_ : List real_t) (beyond : Nat → real_t) :
    (argv.length < 6 →
      (DotProduct.main USE_DOUBLE argv V1 V2).run rt
        = (⟨[], [Message.dot_product_usage (argv.headD "")]⟩, Outcome.exit EXIT_FAILURE))
    ∧ (argv.length < 9 →
      (Convolution.main USE_DOUBLE WRITE_TO_IMAGE argv in_ beyond).run rt
        = (⟨[], [Message.convolution_usage (argv.headD "")]⟩, Outcome.exit EXIT_FAILURE))
    ∧ EXIT_FAILURE ≠ 0
    ∧ (6 ≤ argv.length →
      DotProduct.main USE_DOUBLE argv V1 V2 = DotProduct.main.body USE_DOUBLE argv V1 V2)
    ∧ (9 ≤ argv.length →
      Convolution.main USE_DOUBLE WRITE_TO_IMAGE argv in_ beyond
        = (Convolution.main.mode USE_DOUBLE argv >>= fun image =>
            Convolution.main.run USE_DOUBLE WRITE_TO_IMAGE image argv in_ beyond)) := by
  refine ⟨?_, ?_, by decide, ?_, ?_⟩
  · intro h
    simp [DotProduct.main, CL.run, CL.bind_eq, CL.print, CL.exit, h, Log.empty]
  · intro h
    simp [Convolution.main, CL.run, CL.bind_eq, CL.print, CL.exit, h, Log.empty]
  · intro h
    funext rt s
    simp [DotProduct.main, CL.bind_eq, CL.pure_eq, Nat.not_lt.mpr h]
  · intro h
    funext rt s
    simp [Convolution.main, CL.bind_eq, CL.pure_eq, Nat.not_lt.mpr h]

/-- C13, witness: the dot-product driver started with its name and two arguments prints
the usage text and exits with `EXIT_FAILURE`. -/
theorem main_usage_witness :
    (DotProduct.main false ["dot", "A", "gpu"] [] []).run Example.runtime
      = (⟨[], [Message.dot_product_usage "dot"]⟩, Outcome.exit EXIT_FAILURE) :=
  (main_usage Example.runtime false false ["dot", "A", "gpu"] [] [] [] (fun _ => real_t.nan)).1
    (by decide)

theorem Convolution.configureLaunch_returns (SIZE BLOCK_SIZE : Int) (rt : Runtime) (s : Log)
    (hS : 2 ≤ SIZE) (hS2 : SIZE ≤ INT_MAX) (hB : 1 ≤ BLOCK_SIZE) (hB2 : BLOCK_SIZE ≤ INT_MAX)
    (hdvd : BLOCK_SIZE ∣ SIZE - 2) :
    Convolution.main.configureLaunch SIZE BLOCK_SIZE rt s
      = (s, Outcome.ret ⟨[(SIZE - 2).toNat, (SIZE - 2).toNat],
          [BLOCK_SIZE.toNat, BLOCK_SIZE.toNat]⟩) := by
  have h2 : (2 : Int) * Int.tdiv Convolution.FILTER_SIZE 2 = 2 := by decide
  simp only [INT_MAX] at hS2 hB2
  have hint : isInt (SIZE - 2) = true := by
    simp only [isInt, INT_MIN, INT_MAX, Bool.and_eq_true, decide_eq_true_eq]
    omega
  have hB0 : BLOCK_SIZE ≠ 0 := by omega
  have hmin : ¬ (SIZE - 2 = INT_MIN ∧ BLOCK_SIZE = -1) := by omega
  have hm : Int.tmod (SIZE - 2) BLOCK_SIZE = 0 := Int.tmod_eq_zero_of_dvd hdvd
  have e1 : size_t_of_int (SIZE - 2) = (SIZE - 2).toNat := by
    simp only [size_t_of_int, SIZE_T_RANGE]
    rw [Int.emod_eq_of_lt (by omega) (by omega)]
  have e2 : size_t_of_int BLOCK_SIZE = BLOCK_SIZE.toNat := by
    simp only [size_t_of_int, SIZE_T_RANGE]
    rw [Int.emod_eq_of_lt (by omega) (by omega)]
  simp [Convolution.main.configureLaunch, CL.bind_eq, CL.pure_eq, h2, hint, hB0, hmin, hm, e1,
    e2]

set_option maxHeartbeats 1600000 in
theorem Convolution.main_run_success (rt : Runtime) (USE_DOUBLE WRITE_TO_IMAGE image : Bool)
    (argv : List String) (in_ : List real_t) (beyond : Nat → real_t)
    (platformName deviceTypeName deviceNum clSourcePath kernelName size block F : String)
    (platformID : cl_platform_id) (deviceType : cl_device_type) (deviceID : cl_device_id)
    (refOut devOut : List real_t) (verdict : Bool)
    (hs : ∀ h c, rt.status h c = CL_SUCCESS)
    (h1 : argv[1]? = some platformName) (h2 : argv[2]? = some deviceTypeName)
    (h3 : argv[3]? = some deviceNum) (h4 : argv[4]? = some clSourcePath)
    (h5 : argv[5]? = some kernelName) (h6 : argv[6]? = some size)
    (h7 : argv[7]? = some block)
    (hS : 2 ≤ atoi size) (hS2 : atoi size ≤ INT_MAX) (hB : 1 ≤ atoi block)
    (hB2 : atoi block ≤ INT_MAX) (hdvd : atoi block ∣ atoi size - 2)
    (hsize : isInt (atoi size * atoi size) = true)
    (hfind : rt.platformIDs.find? (fun p => decide (platformName = rt.platformName p))
      = some platformID)
    (htype : create_cl_context.deviceType deviceTypeName = some deviceType)
    (hge : 0 ≤ atoi deviceNum) (hnum : isInt (atoi deviceNum) = true)
    (hdev : (rt.deviceIDs platformID deviceType)[(atoi deviceNum).toNat]? = some deviceID)
    (hfile : rt.fileText clSourcePath = some F)
    (hhost : Convolution.host_apply_stencil in_ (atoi size)
      (Convolution.create_filter USE_DOUBLE beyond) Convolution.FILTER_SIZE
      (List.replicate (atoi size * atoi size).toNat (real_t.num 0)) = some refOut)
    (hread : ∀ h, rt.readBack h = devOut)
    (hcheck : Convolution.check_result devOut refOut (EPS USE_DOUBLE) = some verdict) :
    ∃ (pre : List Call) (printed0 : List Message) (context : cl_context)
      (kernel : cl_kernel) (queue : cl_command_queue),
      context = ⟨platformID, deviceID⟩ ∧ queue = ⟨context, deviceID, true⟩
      ∧ kernel.kernel_name = kernelName ∧ kernel.program.context = context
      ∧ (∀ c ∈ pre, (∀ m, c ≠ Call.clReleaseMemObject m)
          ∧ (∀ x f n h, c ≠ Call.clCreateBuffer x f n h)
          ∧ (∀ x f w h d, c ≠ Call.clCreateImage2D x f w h d)
          ∧ (∀ x, c ≠ Call.clReleaseContext x))
      ∧ (∀ m ∈ printed0, ∃ b, m = Message.build_output b)
      ∧ ∃ ev : cl_event,
      ((Convolution.main.run USE_DOUBLE WRITE_TO_IMAGE image argv in_ beyond).run rt).1.calls
        = pre ++
          (if image then
            [(if WRITE_TO_IMAGE then
                Call.clCreateImage2D (some context)
                  [cl_mem_flag.CL_MEM_WRITE_ONLY, cl_mem_flag.CL_MEM_COPY_HOST_PTR]
                  (size_t_of_int (atoi size)) (size_t_of_int (atoi size))
                  (some (List.replicate (atoi size * atoi size).toNat (real_t.num 0)))
              else
                Call.clCreateBuffer (some context)
                  [cl_mem_flag.CL_MEM_WRITE_ONLY, cl_mem_flag.CL_MEM_COPY_HOST_PTR]
                  (size_t_mul (size_t_of_int (atoi size * atoi size))
                    (sizeof_real_t USE_DOUBLE))
                  (some (List.replicate (atoi size * atoi size).toNat (real_t.num 0)))),
              Call.clCreateImage2D (some context)
                [cl_mem_flag.CL_MEM_READ_ONLY, cl_mem_flag.CL_MEM_COPY_HOST_PTR]
                (size_t_of_int (atoi size)) (size_t_of_int (atoi size)) (some in_),
              Call.clCreateImage2D (some context)
                [cl_mem_flag.CL_MEM_READ_ONLY, cl_mem_flag.CL_MEM_COPY_HOST_PTR]
                (size_t_of_int Convolution.FILTER_SIZE) (size_t_of_int Convolution.FILTER_SIZE)
                (some (Convolution.create_filter USE_DOUBLE beyond)),
              Call.clSetKernelArg (some kernel) 0 (KernelArg.mem (pre.length + 1)),
              Call.clSetKernelArg (some kernel) 1 (KernelArg.mem (pre.length + 2)),
              Call.clSetKernelArg (some kernel) 2 (KernelArg.mem pre.length),
              Call.clFinish queue,
              Call.clEnqueueNDRangeKernel queue kernel 2
                [(atoi size - 2).toNat, (atoi size - 2).toNat]
                [(atoi block).toNat, (atoi block).toNat],
              Call.clFinish queue,
              Call.clWaitForEvents ev,
              Call.clGetEventProfilingInfo ev cl_profiling_info.CL_PROFILING_COMMAND_QUEUED,
              Call.clGetEventProfilingInfo ev cl_profiling_info.CL_PROFILING_COMMAND_END,
              (if WRITE_TO_IMAGE then
                Call.clEnqueueReadImage (some queue) pre.length
                  [size_t_of_int (atoi size), size_t_of_int (atoi size), 1]
              else
                Call.clEnqueueReadBuffer (some queue) pre.length
                  (size_t_mul (size_t_of_int (atoi size * atoi size))
                    (sizeof_real_t USE_DOUBLE))),
              Call.clReleaseMemObject pre.length,
              Call.clReleaseMemObject (pre.length + 1),
              Call.clReleaseMemObject (pre.length + 2)]
          else
            [Call.clCreateBuffer (some context)
                [cl_mem_flag.CL_MEM_WRITE_ONLY, cl_mem_flag.CL_MEM_COPY_HOST_PTR]
                (size_t_mul (size_t_of_int (atoi size * atoi size)) (sizeof_real_t USE_DOUBLE))
                (some (List.replicate (atoi size * atoi size).toNat (real_t.num 0))),
              Call.clCreateBuffer (some context)
                [cl_mem_flag.CL_MEM_READ_ONLY, cl_mem_flag.CL_MEM_COPY_HOST_PTR]
                (size_t_mul (size_t_of_int (atoi size * atoi size)) (sizeof_real_t USE_DOUBLE))
                (some in_),
              Call.clCreateBuffer (some context)
                [cl_mem_flag.CL_MEM_READ_ONLY, cl_mem_flag.CL_MEM_COPY_HOST_PTR]
                (9 * sizeof_real_t USE_DOUBLE)
                (some (Convolution.create_filter USE_DOUBLE beyond)),
              Call.clSetKernelArg (some kernel) 0 (KernelArg.mem (pre.length + 1)),
              Call.clSetKernelArg (some kernel) 1 (KernelArg.int (atoi size)),
              Call.clSetKernelArg (some kernel) 2 (KernelArg.mem (pre.length + 2)),
              Call.clSetKernelArg (some kernel) 3 (KernelArg.int Convolution.FILTER_SIZE),
              Call.clSetKernelArg (some kernel) 4 (KernelArg.mem pre.length),
              Call.clFinish queue,
              Call.clEnqueueNDRangeKernel queue kernel 2
                [(atoi size - 2).toNat, (atoi size - 2).toNat]
                [(atoi block).toNat, (atoi block).toNat],
              Call.clFinish queue,
              Call.clWaitForEvents ev,
              Call.clGetEventProfilingInfo ev cl_profiling_info.CL_PROFILING_COMMAND_QUEUED,
              Call.clGetEventProfilingInfo ev cl_profiling_info.CL_PROFILING_COMMAND_END,
              Call.clEnqueueReadBuffer (some queue) pre.length
                (size_t_mul (size_t_of_int (atoi size * atoi size)) (sizeof_real_t USE_DOUBLE)),
              Call.clReleaseMemObject (pre.length + 1),
              Call.clReleaseMemObject (pre.length + 2),
              Call.clReleaseMemObject pre.length])
          ++ [Call.clReleaseCommandQueue (some queue),
              Call.clReleaseKernel (some kernel),
              Call.clReleaseProgram (some kernel.program),
              Call.clReleaseContext (some context)]
      ∧ ((Convolution.main.run USE_DOUBLE WRITE_TO_IMAGE image argv in_ beyond).run rt).1.printed
        = printed0 ++
          (if verdict then
            [Message.elapsed_time (elapsed_ms
                (rt.profilingInfo ev cl_profiling_info.CL_PROFILING_COMMAND_QUEUED)
                (rt.profilingInfo ev cl_profiling_info.CL_PROFILING_COMMAND_END)),
              Message.passed]
          else [Message.failed])
      ∧ ((Convolution.main.run USE_DOUBLE WRITE_TO_IMAGE image argv in_ beyond).run rt).2
        = Outcome.ret 0 := by
  have hgeo := fun s => Convolution.configureLaunch_returns (atoi size) (atoi block) rt s hS hS2
    hB hB2 hdvd
  have hfs : size_t_of_int (int_of_size_t (size_t_mul
      (size_t_mul (sizeof_real_t USE_DOUBLE) (size_t_of_int Convolution.FILTER_SIZE))
      (size_t_of_int Convolution.FILTER_SIZE))) = 9 * sizeof_real_t USE_DOUBLE := by
    cases USE_DOUBLE <;> decide
  obtain ⟨pre, printed0, hclenv, hpre, hprinted⟩ := create_clenv_returns rt platformName
    deviceTypeName (atoi deviceNum) true clSourcePath kernelName ""
    F (if WRITE_TO_IMAGE then String.join (argv.drop 9) ++ " -DWRITE_TO_IMAGE"
      else String.join (argv.drop 9))
    platformID deviceType deviceID hs hfind htype hge hnum hdev hfile
  refine ⟨pre, printed0, ⟨platformID, deviceID⟩, ⟨⟨⟨platformID, deviceID⟩, "" ++ "\n" ++ F⟩,
    kernelName⟩, ⟨⟨platformID, deviceID⟩, deviceID, true⟩, rfl, rfl, rfl, rfl, hpre, hprinted,
    ?_⟩
  cases image <;> cases WRITE_TO_IMAGE <;> cases verdict <;>
  simp only [Bool.false_eq_true, if_false, if_true] at hclenv <;>
  simp only [Convolution.main.run, arg, h1, h2, h3, h4, h5, h6, h7, hgeo, hclenv, hsize,
    hhost, hread, hcheck, CL.run, CL.bind_eq, CL.pure_eq, CL.call, CL.ask, CL.history,
    CL.print, hs, check_cl_error_success, release_clenv, CL.ite_eq, hfs,
    Convolution.device_apply_stencil, Convolution.device_apply_stencil_image,
    timeEnqueueNDRangeKernel_success rt _ _ _ _ _ _ hs, if_true, if_false,
    Bool.false_eq_true, Bool.true_eq_false, List.length_append, List.length_cons,
    List.length_nil, List.append_assoc, List.cons_append, List.nil_append] <;>
  simp

theorem mem_intRange (lo hi x : Int) : x ∈ intRange lo hi ↔ lo ≤ x ∧ x < hi := by
  unfold intRange
  constructor
  · intro h
    obtain ⟨k, hk, rfl⟩ := List.mem_map.mp h
    have hk2 := List.mem_range.mp hk
    omega
  · rintro ⟨h1, h2⟩
    apply List.mem_map.mpr
    exact ⟨(x - lo).toNat, List.mem_range.mpr (by omega), by omega⟩

theorem vec_get_replicate (n : Nat) (a : real_t) (i : Int) (h0 : 0 ≤ i) (h1 : i < n) :
    vec_get (List.replicate n a) i = some a := by
  have : i.toNat < n := by omega
  simp [vec_get, Int.not_lt.mpr h0, List.getElem?_replicate, this]

theorem vec_get_eq_getElem? (v : List real_t) (i : Int) (h0 : 0 ≤ i) :
    vec_get v i = v[i.toNat]? := by
  simp [vec_get, Int.not_lt.mpr h0]

namespace Convolution

theorem create_filter_get (USE_DOUBLE : Bool) (beyond : Nat → real_t) :
    vec_get (create_filter USE_DOUBLE beyond) 0 = some (real_t.num 1)
    ∧ vec_get (create_filter USE_DOUBLE beyond) 1 = some (real_t.num 1)
    ∧ vec_get (create_filter USE_DOUBLE beyond) 2 = some (real_t.num 1)
    ∧ vec_get (create_filter USE_DOUBLE beyond) 3 = some (real_t.num 1)
    ∧ vec_get (create_filter USE_DOUBLE beyond) 4 = some (real_t.num 0)
    ∧ vec_get (create_filter USE_DOUBLE beyond) 5 = some (real_t.num 1)
    ∧ vec_get (create_filter USE_DOUBLE beyond) 6 = some (real_t.num 1)
    ∧ vec_get (create_filter USE_DOUBLE beyond) 7 = some (real_t.num 1)
    ∧ vec_get (create_filter USE_DOUBLE beyond) 8 = some (real_t.num 1) := by
  cases USE_DOUBLE <;> refine ⟨rfl, rfl, rfl, rfl, rfl, rfl, rfl, rfl, rfl⟩

theorem grid_index_bounds (N r c : Int) (hr0 : 0 ≤ r) (hr : r < N) (hc0 : 0 ≤ c) (hc : c < N) :
    0 ≤ r * N + c ∧ r * N + c < N * N := by
  constructor
  · have : 0 ≤ r * N := Int.mul_nonneg hr0 (by omega)
    omega
  · have h1 : (r + 1) * N ≤ N * N := Int.mul_le_mul_of_nonneg_right (by omega) (by omega)
    have h2 : (r + 1) * N = r * N + N := by ring
    omega

theorem host_apply_stencil_cell (USE_DOUBLE : Bool) (beyond : Nat → real_t) (N : Int) (v : ℚ)
    (x y : Int) (hx1 : 1 ≤ x) (hx2 : x ≤ N - 2) (hy1 : 1 ≤ y) (hy2 : y ≤ N - 2) :
    host_apply_stencil.fy_loop (List.replicate (N * N).toNat (real_t.num v)) N
        (create_filter USE_DOUBLE beyond) 3 y x
        (intRange (Int.tdiv (-3) 2) (Int.tdiv 3 2 + 1)) (real_t.num 0)
      = some (real_t.num (8 * v)) := by
  have hr : intRange (Int.tdiv (-3) 2) (Int.tdiv 3 2 + 1) = [-1, 0, 1] := by decide
  have hin : ∀ fy fx : Int, -1 ≤ fy → fy ≤ 1 → -1 ≤ fx → fx ≤ 1 →
      vec_get (List.replicate (N * N).toNat (real_t.num v)) ((y + fy) * N + x + fx)
        = some (real_t.num v) := by
    intro fy fx h1 h2 h3 h4
    have hb := grid_index_bounds N (y + fy) (x + fx) (by omega) (by omega) (by omega) (by omega)
    rw [add_assoc]
    exact vec_get_replicate _ _ _ hb.1 (by omega)
  obtain ⟨f0, f1, f2, f3, f4, f5, f6, f7, f8⟩ := create_filter_get USE_DOUBLE beyond
  have e0 : (Int.tdiv 3 2 + -1) * 3 + Int.tdiv 3 2 + -1 = 0 := by decide
  have e1 : (Int.tdiv 3 2 + -1) * 3 + Int.tdiv 3 2 + 0 = 1 := by decide
  have e2 : (Int.tdiv 3 2 + -1) * 3 + Int.tdiv 3 2 + 1 = 2 := by decide
  have e3 : (Int.tdiv 3 2 + 0) * 3 + Int.tdiv 3 2 + -1 = 3 := by decide
  have e4 : (Int.tdiv 3 2 + 0) * 3 + Int.tdiv 3 2 + 0 = 4 := by decide
  have e5 : (Int.tdiv 3 2 + 0) * 3 + Int.tdiv 3 2 + 1 = 5 := by decide
  have e6 : (Int.tdiv 3 2 + 1) * 3 + Int.tdiv 3 2 + -1 = 6 := by decide
  have e7 : (Int.tdiv 3 2 + 1) * 3 + Int.tdiv 3 2 + 0 = 7 := by decide
  have e8 : (Int.tdiv 3 2 + 1) * 3 + Int.tdiv 3 2 + 1 = 8 := by decide
  rw [hr]
  simp only [host_apply_stencil.fy_loop]
  simp only [hr]
  simp only [host_apply_stencil.fx_loop,
    hin (-1) (-1) (by decide) (by decide) (by decide) (by decide),
    hin (-1) 0 (by decide) (by decide) (by decide) (by decide),
    hin (-1) 1 (by decide) (by decide) (by decide) (by decide),
    hin 0 (-1) (by decide) (by decide) (by decide) (by decide),
    hin 0 0 (by decide) (by decide) (by decide) (by decide),
    hin 0 1 (by decide) (by decide) (by decide) (by decide),
    hin 1 (-1) (by decide) (by decide) (by decide) (by decide),
    hin 1 0 (by decide) (by decide) (by decide) (by decide),
    hin 1 1 (by decide) (by decide) (by decide) (by decide),
    e0, e1, e2, e3, e4, e5, e6, e7, e8, f0, f1, f2, f3, f4, f5, f6, f7, f8,
    real_t.add, real_t.mul]
  congr 2
  ring

theorem vec_set_get (out : List real_t) (i : Int) (a : real_t) (h0 : 0 ≤ i)
    (h1 : i.toNat < out.length) :
    ∃ out1, vec_set out i a = some out1 ∧ out1.length = out.length
      ∧ out1[i.toNat]? = some a
      ∧ (∀ j : Nat, out[j]? = some a → out1[j]? = some a) := by
  refine ⟨out.set i.toNat a, by simp [vec_set, h0, h1], by simp, by simp [h1], ?_⟩
  intro j hj
  by_cases hij : i.toNat = j
  · subst hij
    simp [h1]
  · rw [List.getElem?_set_ne hij]
    exact hj

theorem host_apply_stencil_x_loop_constant (USE_DOUBLE : Bool) (beyond : Nat → real_t) (N : Int)
    (v : ℚ) (y : Int) (hy1 : 1 ≤ y) (hy2 : y ≤ N - 2) (xs : List Int)
    (hxs : ∀ x ∈ xs, 1 ≤ x ∧ x ≤ N - 2) (out : List real_t)
    (hlen : out.length = (N * N).toNat) :
    ∃ out1, host_apply_stencil.x_loop (List.replicate (N * N).toNat (real_t.num v)) N
        (create_filter USE_DOUBLE beyond) 3 y xs out = some out1
      ∧ out1.length = out.length
      ∧ (∀ j : Nat, out[j]? = some (real_t.num (8 * v / 9)) → out1[j]? = some (real_t.num (8 * v / 9)))
      ∧ (∀ x ∈ xs, out1[(y * N + x).toNat]? = some (real_t.num (8 * v / 9))) := by
  induction xs generalizing out with
  | nil => exact ⟨out, rfl, rfl, fun _ h => h, by simp⟩
  | cons x rest ih =>
    obtain ⟨hx1, hx2⟩ := hxs x (List.mem_cons_self _ _)
    have hb := grid_index_bounds N y x (by omega) (by omega) (by omega) (by omega)
    have hdiv : real_t.div (real_t.num (8 * v)) (real_t.num (((3 * 3 : Int)) : ℚ))
        = real_t.num (8 * v / 9) := by
      simp only [real_t.div]
      norm_num
    obtain ⟨out1, hset, hlen1, hget1, hkeep1⟩ := vec_set_get out (y * N + x)
      (real_t.num (8 * v / 9)) hb.1 (by omega)
    obtain ⟨out2, hrun, hlen2, hkeep2, hget2⟩ := ih
      (fun x hx => hxs x (List.mem_cons_of_mem _ hx)) out1 (by omega)
    refine ⟨out2, ?_, by omega, fun j hj => hkeep2 j (hkeep1 j hj), ?_⟩
    · simp only [host_apply_stencil.x_loop,
        host_apply_stencil_cell USE_DOUBLE beyond N v x y hx1 hx2 hy1 hy2, hdiv, hset, hrun]
    · intro x1 hx1
      rcases List.mem_cons.mp hx1 with rfl | hmem
      · exact hkeep2 _ hget1
      · exact hget2 x1 hmem

theorem host_apply_stencil_y_loop_constant (USE_DOUBLE : Bool) (beyond : Nat → real_t) (N : Int)
    (v : ℚ) (ys : List Int) (hys : ∀ y ∈ ys, 1 ≤ y ∧ y ≤ N - 2) (out : List real_t)
    (hlen : out.length = (N * N).toNat) :
    ∃ out1, host_apply_stencil.y_loop (List.replicate (N * N).toNat (real_t.num v)) N
        (create_filter USE_DOUBLE beyond) 3 ys out = some out1
      ∧ out1.length = out.length
      ∧ (∀ j : Nat, out[j]? = some (real_t.num (8 * v / 9)) → out1[j]? = some (real_t.num (8 * v / 9)))
      ∧ (∀ y ∈ ys, ∀ x, 1 ≤ x → x ≤ N - 2 →
          out1[(y * N + x).toNat]? = some (real_t.num (8 * v / 9))) := by
  induction ys generalizing out with
  | nil => exact ⟨out, rfl, rfl, fun _ h => h, by simp⟩
  | cons y rest ih =>
    obtain ⟨hy1, hy2⟩ := hys y (List.mem_cons_self _ _)
    have ht : Int.tdiv 3 2 = 1 := by decide
    obtain ⟨out1, hrow, hlen1, hkeep1, hget1⟩ := host_apply_stencil_x_loop_constant USE_DOUBLE
      beyond N v y hy1 hy2 (intRange 1 (N - 1))
      (fun x hx => by have := (mem_intRange 1 (N - 1) x).mp hx; omega) out hlen
    obtain ⟨out2, hrun, hlen2, hkeep2, hget2⟩ := ih
      (fun y hy => hys y (List.mem_cons_of_mem _ hy)) out1 (by omega)
    refine ⟨out2, ?_, by omega, fun j hj => hkeep2 j (hkeep1 j hj), ?_⟩
    · simp only [host_apply_stencil.y_loop, ht, hrow, hrun]
    · intro y1 hy1 x hx1 hx2
      rcases List.mem_cons.mp hy1 with rfl | hmem
      · exact hkeep2 _ (hget1 x ((mem_intRange 1 (N - 1) x).mpr (by omega)))
      · exact hget2 y1 hmem x hx1 hx2

theorem host_apply_stencil_constant (USE_DOUBLE : Bool) (beyond : Nat → real_t) (N : Int)
    (v : ℚ) (out : List real_t) (hlen : out.length = (N * N).toNat) :
    ∃ out1, host_apply_stencil (List.replicate (N * N).toNat (real_t.num v)) N
        (create_filter USE_DOUBLE beyond) 3 out = some out1
      ∧ out1.length = out.length
      ∧ (∀ x y, 1 ≤ x → x ≤ N - 2 → 1 ≤ y → y ≤ N - 2 →
          vec_get out1 (y * N + x) = some (real_t.num (8 * v / 9))) := by
  have ht : Int.tdiv 3 2 = 1 := by decide
  obtain ⟨out1, hrun, hlen1, _, hget⟩ := host_apply_stencil_y_loop_constant USE_DOUBLE beyond N v
    (intRange 1 (N - 1)) (fun y hy => by have := (mem_intRange 1 (N - 1) y).mp hy; omega) out hlen
  refine ⟨out1, ?_, hlen1, ?_⟩
  · simp only [host_apply_stencil, ht, hrun]
  · intro x y hx1 hx2 hy1 hy2
    have hb := grid_index_bounds N y x (by omega) (by omega) (by omega) (by omega)
    rw [vec_get_eq_getElem? _ _ hb.1]
    exact hget y ((mem_intRange 1 (N - 1) y).mpr (by omega)) x hx1 hx2

end Convolution

/-- C12. In a double-precision build of the convolution driver, every invocation with at
least the eight required arguments and argument 8 equal to "image" prints that the
combination is not supported and ends with `exit(EXIT_FAILURE)`, a non-zero status,
without a single device call, in every runtime. In a single-precision build the same
invocation is not rejected: the run is the one of the driver with the image flag set,
and when every call succeeds and the remaining arguments are valid it creates the
input grid and the filter as images and returns 0. -/
theorem image_mode_double_rejected (rt : Runtime) (WRITE_TO_IMAGE : Bool) (argv : List String)
    (in_ : List real_t) (beyond : Nat → real_t)
    (h9 : 9 ≤ argv.length) (h8 : argv[8]? = some "image") :
    (Convolution.main true WRITE_TO_IMAGE argv in_ beyond).run rt
      = (⟨[], [Message.double_not_supported]⟩, Outcome.exit EXIT_FAILURE)
    ∧ EXIT_FAILURE ≠ 0
    ∧ Convolution.main false WRITE_TO_IMAGE argv in_ beyond
      = Convolution.main.run false WRITE_TO_IMAGE true argv in_ beyond
    ∧ (∀ (platformName deviceTypeName deviceNum clSourcePath kernelName size block F : String)
        (platformID : cl_platform_id) (deviceType : cl_device_type) (deviceID : cl_device_id)
        (refOut devOut : List real_t) (verdict : Bool),
        (∀ h c, rt.status h c = CL_SUCCESS) →
        argv[1]? = some platformName → argv[2]? = some deviceTypeName →
        argv[3]? = some deviceNum → argv[4]? = some clSourcePath →
        argv[5]? = some kernelName → argv[6]? = some size → argv[7]? = some block →
        2 ≤ atoi size → atoi size ≤ INT_MAX → 1 ≤ atoi block → atoi block ≤ INT_MAX →
        atoi block ∣ atoi size - 2 → isInt (atoi size * atoi size) = true →
        rt.platformIDs.find? (fun p => decide (platformName = rt.platformName p))
          = some platformID →
        create_cl_context.deviceType deviceTypeName = some deviceType →
        0 ≤ atoi deviceNum → isInt (atoi deviceNum) = true →
        (rt.deviceIDs platformID deviceType)[(atoi deviceNum).toNat]? = some deviceID →
        rt.fileText clSourcePath = some F →
        Convolution.host_apply_stencil in_ (atoi size)
          (Convolution.create_filter false beyond) Convolution.FILTER_SIZE
          (List.replicate (atoi size * atoi size).toNat (real_t.num 0)) = some refOut →
        (∀ h, rt.readBack h = devOut) →
        Convolution.check_result devOut refOut (EPS false) = some verdict →
        Call.clCreateImage2D (some ⟨platformID, deviceID⟩)
            [cl_mem_flag.CL_MEM_READ_ONLY, cl_mem_flag.CL_MEM_COPY_HOST_PTR]
            (size_t_of_int (atoi size)) (size_t_of_int (atoi size)) (some in_)
          ∈ ((Convolution.main false WRITE_TO_IMAGE argv in_ beyond).run rt).1.calls
        ∧ Call.clCreateImage2D (some ⟨platformID, deviceID⟩)
            [cl_mem_flag.CL_MEM_READ_ONLY, cl_mem_flag.CL_MEM_COPY_HOST_PTR]
            (size_t_of_int Convolution.FILTER_SIZE) (size_t_of_int Convolution.FILTER_SIZE)
            (some (Convolution.create_filter false beyond))
          ∈ ((Convolution.main false WRITE_TO_IMAGE argv in_ beyond).run rt).1.calls
        ∧ ((Convolution.main false WRITE_TO_IMAGE argv in_ beyond).run rt).2
          = Outcome.ret 0) := by
  have hlt : ¬ argv.length < 9 := by omega
  have hmain : Convolution.main false WRITE_TO_IMAGE argv in_ beyond
      = Convolution.main.run false WRITE_TO_IMAGE true argv in_ beyond := by
    funext rt s
    simp [Convolution.main, Convolution.main.mode, arg, h8, hlt, CL.bind_eq, CL.pure_eq]
  refine ⟨?_, by decide, hmain, ?_⟩
  · simp [Convolution.main, Convolution.main.mode, arg, h8, hlt, CL.run, CL.bind_eq,
      CL.pure_eq, CL.print, CL.exit, Log.empty]
  · intro platformName deviceTypeName deviceNum clSourcePath kernelName size block F
      platformID deviceType deviceID refOut devOut verdict hs h1 h2 h3 h4 h5 h6 h7 hS hS2 hB
      hB2 hdvd hsize hfind htype hge hnum hdev hfile hhost hread hcheck
    obtain ⟨pre, printed0, context, kernel, queue, rfl, rfl, _, _, _, _, ev, hcalls, _, hret⟩ :=
      Convolution.main_run_success rt false WRITE_TO_IMAGE true argv in_ beyond platformName
        deviceTypeName deviceNum clSourcePath kernelName size block F platformID deviceType
        deviceID refOut devOut verdict hs h1 h2 h3 h4 h5 h6 h7 hS hS2 hB hB2 hdvd hsize hfind
        htype hge hnum hdev hfile hhost hread hcheck
    rw [hmain]
    refine ⟨?_, ?_, hret⟩
    · rw [hcalls]
      simp
    · rw [hcalls]
      simp

/-- C12, witness: the invocation `conv B gpu 0 kernel.cl k 3 1 image` on the 3 x 3 grid of
ones is rejected by the double-precision build and creates the grid as an image in the
single-precision build. -/
theorem image_mode_double_rejected_witness :
    (Convolution.main true false ["conv", "B", "gpu", "0", "kernel.cl", "k", "3", "1", "image"]
        (List.replicate 9 (real_t.num 1)) (fun _ => real_t.nan)).run
        (Example.reading (List.replicate 9 (real_t.num 0)))
      = (⟨[], [Message.double_not_supported]⟩, Outcome.exit EXIT_FAILURE)
    ∧ Call.clCreateImage2D (some ⟨8, 20⟩)
        [cl_mem_flag.CL_MEM_READ_ONLY, cl_mem_flag.CL_MEM_COPY_HOST_PTR] 3 3
        (some (List.replicate 9 (real_t.num 1)))
      ∈ ((Convolution.main false false
          ["conv", "B", "gpu", "0", "kernel.cl", "k", "3", "1", "image"]
          (List.replicate 9 (real_t.num 1)) (fun _ => real_t.nan)).run
          (Example.reading (List.replicate 9 (real_t.num 0)))).1.calls := by
  obtain ⟨refOut, hhost, hlen, _⟩ := Convolution.host_apply_stencil_constant false
    (fun _ => real_t.nan) 3 1 (List.replicate 9 (real_t.num 0)) (by decide)
  obtain ⟨verdict, hcheck⟩ := Convolution.check_result.loop_some
    (List.replicate 9 (real_t.num 0)) refOut (EPS false) (by rw [hlen]) 9 0 (by decide)
  have h := image_mode_double_rejected (Example.reading (List.replicate 9 (real_t.num 0))) false
    ["conv", "B", "gpu", "0", "kernel.cl", "k", "3", "1", "image"]
    (List.replicate 9 (real_t.num 1)) (fun _ => real_t.nan) (by decide) (by decide)
  exact ⟨h.1, (h.2.2.2 "B" "gpu" "0" "kernel.cl" "k" "3" "1" "F" 8
    cl_device_type.CL_DEVICE_TYPE_GPU 20 refOut (List.replicate 9 (real_t.num 0)) verdict
    (fun _ _ => rfl) (by decide) (by decide) (by decide) (by decide) (by decide) (by decide)
    (by decide) (by decide) (by decide) (by decide) (by decide) (by decide) (by decide)
    (by decide) (by decide) (by decide) (by decide) (by decide) rfl hhost (fun _ => rfl)
    hcheck).1⟩

theorem DotProduct.main_printed (rt : Runtime) (USE_DOUBLE : Bool) (argv : List String)
    (V1 V2 : List real_t) (hostDot : real_t) (partialDot : List real_t)
    (platformName deviceTypeName deviceNum clSourcePath kernelName F : String)
    (platformID : cl_platform_id) (deviceType : cl_device_type) (deviceID : cl_device_id)
    (hs : ∀ h c, rt.status h c = CL_SUCCESS)
    (hargc : 6 ≤ argv.length)
    (h1 : argv[1]? = some platformName) (h2 : argv[2]? = some deviceTypeName)
    (h3 : argv[3]? = some deviceNum) (h4 : argv[4]? = some clSourcePath)
    (h5 : argv[5]? = some kernelName)
    (hfind : rt.platformIDs.find? (fun p => decide (platformName = rt.platformName p))
      = some platformID)
    (htype : create_cl_context.deviceType deviceTypeName = some deviceType)
    (hge : 0 ≤ atoi deviceNum) (hnum : isInt (atoi deviceNum) = true)
    (hdev : (rt.deviceIDs platformID deviceType)[(atoi deviceNum).toNat]? = some deviceID)
    (hfile : rt.fileText clSourcePath = some F)
    (hhost : DotProduct.host_dot_product USE_DOUBLE V1 V2 = some hostDot)
    (hread : ∀ h, rt.readBack h = partialDot) :
    ∃ (printed0 : List Message),
      ((DotProduct.main USE_DOUBLE argv V1 V2).run rt).1.printed
        = printed0 ++
          [Message.dot_values (DotProduct.accumulate USE_DOUBLE partialDot (real_t.num 0))
              hostDot,
            if DotProduct.check_result hostDot
                (DotProduct.accumulate USE_DOUBLE partialDot (real_t.num 0)) (EPS USE_DOUBLE)
              then Message.passed else Message.failed]
      ∧ (∀ m ∈ printed0, ∃ b, m = Message.build_output b)
      ∧ ((DotProduct.main USE_DOUBLE argv V1 V2).run rt).2 = Outcome.ret 0 := by
  obtain ⟨pre, printed, hclenv, _, hprinted⟩ := create_clenv_returns rt platformName
    deviceTypeName (atoi deviceNum) false clSourcePath kernelName
    ("#define BLOCK_SIZE 16\n" ++ (if USE_DOUBLE then "#define DOUBLE\n" else "")) F ""
    platformID deviceType deviceID hs hfind htype hge hnum hdev hfile
  have hlt : ¬ argv.length < 6 := by omega
  refine ⟨printed, ?_, hprinted, ?_⟩ <;>
  simp only [DotProduct.main, DotProduct.main.body, arg, h1, h2, h3, h4, h5, hlt, hclenv,
    hhost, hread, CL.run, CL.bind_eq, CL.pure_eq, CL.call, CL.ask, CL.history, CL.print, hs,
    check_cl_error_success, release_clenv, CL.ite_eq, if_false] <;>
  generalize DotProduct.check_result hostDot _ (EPS USE_DOUBLE) = verdict <;>
  cases verdict <;> simp

theorem Example.reading_readBack (data : List real_t) (h : List Call) :
    (Example.reading data).readBack h = data := rfl

theorem EPS_nonneg (USE_DOUBLE : Bool) : real_t.le (real_t.num 0) (EPS USE_DOUBLE) = true := by
  cases USE_DOUBLE <;> simp [EPS, real_t.le]

/-- C17, as stated, fails for integer-valued vectors with a large entry. In the
single-precision build with `V1 = (2^24, 1, ..., 1)` and `V2` all ones, every addition
of 1 to 16777216 is rounded back to 16777216, so the host dot product is 16777216; the
16 partial dot products are 16777216 and fifteen times 16, and their accumulation is
16777456. `check_result` rejects the two values, and the run `dot B gpu 0 kernel.cl k`
on a device that delivers these partial sums prints the two values and then FAILED. -/
theorem dot_product_rounding_counterexample :
    DotProduct.host_dot_product false
        ((16777216 :: List.replicate 255 (1 : Int)).map (fun (n : Int) => real_t.num (n : ℚ)))
        ((List.replicate 256 (1 : Int)).map (fun (n : Int) => real_t.num (n : ℚ)))
      = some (real_t.num 16777216)
    ∧ DotProduct.partial_dot_products false 16
        ((16777216 :: List.replicate 255 (1 : Int)).map (fun (n : Int) => real_t.num (n : ℚ)))
        ((List.replicate 256 (1 : Int)).map (fun (n : Int) => real_t.num (n : ℚ)))
      = real_t.num 16777216 :: List.replicate 15 (real_t.num 16)
    ∧ DotProduct.accumulate false
        (DotProduct.partial_dot_products false 16
          ((16777216 :: List.replicate 255 (1 : Int)).map
            (fun (n : Int) => real_t.num (n : ℚ)))
          ((List.replicate 256 (1 : Int)).map (fun (n : Int) => real_t.num (n : ℚ))))
        (real_t.num 0)
      = real_t.num 16777456
    ∧ DotProduct.check_result (real_t.num 16777216) (real_t.num 16777456) (EPS false) = false
    ∧ ∃ printed0 : List Message,
        ((DotProduct.main false ["dot", "B", "gpu", "0", "kernel.cl", "k"]
            ((16777216 :: List.replicate 255 (1 : Int)).map
              (fun (n : Int) => real_t.num (n : ℚ)))
            ((List.replicate 256 (1 : Int)).map (fun (n : Int) => real_t.num (n : ℚ)))).run
          (Example.reading (DotProduct.partial_dot_products false 16
            ((16777216 :: List.replicate 255 (1 : Int)).map
              (fun (n : Int) => real_t.num (n : ℚ)))
            ((List.replicate 256 (1 : Int)).map
              (fun (n : Int) => real_t.num (n : ℚ)))))).1.printed
          = printed0 ++
            [Message.dot_values (real_t.num 16777456) (real_t.num 16777216),
              Message.failed] := by
  have hV1 : (16777216 :: List.replicate 255 (1 : Int)).map (fun (n : Int) => real_t.num (n : ℚ))
      = real_t.num 16777216 :: List.replicate 255 (real_t.num 1) := by
    simp only [List.map_cons, List.map_replicate, Int.cast_ofNat, Int.cast_one]
  have hV2 : (List.replicate 256 (1 : Int)).map (fun (n : Int) => real_t.num (n : ℚ))
      = List.replicate 256 (real_t.num 1) := by
    simp only [List.map_replicate, Int.cast_one]
  rw [hV1, hV2, DotProduct.partial_dot_products_absorbed]
  refine ⟨DotProduct.host_dot_product_absorbed 255, rfl, DotProduct.accumulate_absorbed,
    DotProduct.check_result_absorbed, ?_⟩
  obtain ⟨printed0, hprinted, _, _⟩ := DotProduct.main_printed
    (Example.reading (real_t.num 16777216 :: List.replicate 15 (real_t.num 16))) false
    ["dot", "B", "gpu", "0", "kernel.cl", "k"]
    (real_t.num 16777216 :: List.replicate 255 (real_t.num 1))
    (List.replicate 256 (real_t.num 1)) (real_t.num 16777216)
    (real_t.num 16777216 :: List.replicate 15 (real_t.num 16))
    "B" "gpu" "0" "kernel.cl" "k" "F" 8 cl_device_type.CL_DEVICE_TYPE_GPU 20
    (fun _ _ => rfl) (by decide) (by decide) (by decide) (by decide) (by decide) (by decide)
    (by decide) (by decide) (by decide) (by decide) (by decide) (by decide)
    (DotProduct.host_dot_product_absorbed 255) (fun h => Example.reading_readBack _ h)
  rw [DotProduct.accumulate_absorbed, DotProduct.check_result_absorbed,
    if_neg Bool.false_ne_true] at hprinted
  exact ⟨printed0, hprinted⟩

/-- C17, as amended. With the kernel taken from the specification and every operation on
`real_t` rounded to nearest: for vectors `V1`, `V2` of 256 elements with integer entries
from 0 to 9, as `create_vector` produces them, the device returns 16 partial dot
products, their accumulation from 0 is the host dot product of `V1` and `V2`, which is
the exact sum of the products, `check_result` accepts the two values for the tolerance
of either build, and a run of the driver in which every call succeeds and the read-back
delivers these partial sums prints the two equal values and then PASSED and returns 0.
For `V1 = V2 =` all ones each of the 16 partial sums is 16 and both values are 256. -/
theorem dot_product_partial_sums (a b : List Int) (USE_DOUBLE : Bool) (ha : a.length = 256)
    (hb : b.length = 256) (ha9 : ∀ n ∈ a, 0 ≤ n ∧ n ≤ 9) (hb9 : ∀ n ∈ b, 0 ≤ n ∧ n ≤ 9) :
    (DotProduct.partial_dot_products USE_DOUBLE 16
        (a.map (fun (n : Int) => real_t.num (n : ℚ)))
        (b.map (fun (n : Int) => real_t.num (n : ℚ)))).length = 16
    ∧ DotProduct.accumulate USE_DOUBLE
        (DotProduct.partial_dot_products USE_DOUBLE 16
          (a.map (fun (n : Int) => real_t.num (n : ℚ)))
          (b.map (fun (n : Int) => real_t.num (n : ℚ)))) (real_t.num 0)
      = real_t.num (((List.zipWith (· * ·) a b).sum : Int) : ℚ)
    ∧ DotProduct.host_dot_product USE_DOUBLE (a.map (fun (n : Int) => real_t.num (n : ℚ)))
        (b.map (fun (n : Int) => real_t.num (n : ℚ)))
      = some (real_t.num (((List.zipWith (· * ·) a b).sum : Int) : ℚ))
    ∧ DotProduct.check_result (real_t.num (((List.zipWith (· * ·) a b).sum : Int) : ℚ))
        (real_t.num (((List.zipWith (· * ·) a b).sum : Int) : ℚ)) (EPS USE_DOUBLE) = true
    ∧ (∀ (rt : Runtime) (argv : List String)
        (platformName deviceTypeName deviceNum clSourcePath kernelName F : String)
        (platformID : cl_platform_id) (deviceType : cl_device_type) (deviceID : cl_device_id),
        (∀ h c, rt.status h c = CL_SUCCESS) → 6 ≤ argv.length →
        argv[1]? = some platformName → argv[2]? = some deviceTypeName →
        argv[3]? = some deviceNum → argv[4]? = some clSourcePath →
        argv[5]? = some kernelName →
        rt.platformIDs.find? (fun p => decide (platformName = rt.platformName p))
          = some platformID →
        create_cl_context.deviceType deviceTypeName = some deviceType →
        0 ≤ atoi deviceNum → isInt (atoi deviceNum) = true →
        (rt.deviceIDs platformID deviceType)[(atoi deviceNum).toNat]? = some deviceID →
        rt.fileText clSourcePath = some F →
        (∀ h, rt.readBack h
          = DotProduct.partial_dot_products USE_DOUBLE 16
              (a.map (fun (n : Int) => real_t.num (n : ℚ)))
              (b.map (fun (n : Int) => real_t.num (n : ℚ)))) →
        ∃ printed0 : List Message,
          ((DotProduct.main USE_DOUBLE argv (a.map (fun (n : Int) => real_t.num (n : ℚ)))
              (b.map (fun (n : Int) => real_t.num (n : ℚ)))).run rt).1.printed
            = printed0 ++
              [Message.dot_values (real_t.num (((List.zipWith (· * ·) a b).sum : Int) : ℚ))
                  (real_t.num (((List.zipWith (· * ·) a b).sum : Int) : ℚ)),
                Message.passed]
          ∧ (∀ m ∈ printed0, ∃ log, m = Message.build_output log)
          ∧ ((DotProduct.main USE_DOUBLE argv (a.map (fun (n : Int) => real_t.num (n : ℚ)))
              (b.map (fun (n : Int) => real_t.num (n : ℚ)))).run rt).2 = Outcome.ret 0)
    ∧ DotProduct.partial_dot_products USE_DOUBLE 16 (List.replicate 256 (real_t.num 1))
        (List.replicate 256 (real_t.num 1)) = List.replicate 16 (real_t.num 16)
    ∧ DotProduct.accumulate USE_DOUBLE (List.replicate 16 (real_t.num 16)) (real_t.num 0)
      = real_t.num 256
    ∧ DotProduct.host_dot_product USE_DOUBLE (List.replicate 256 (real_t.num 1))
        (List.replicate 256 (real_t.num 1)) = some (real_t.num 256) := by
  obtain ⟨hlen, hacc, hhost⟩ := DotProduct.accumulate_partial_dot_products USE_DOUBLE a b
    ha hb ha9 hb9
  have hcheck : DotProduct.check_result (real_t.num (((List.zipWith (· * ·) a b).sum : Int) : ℚ))
      (real_t.num (((List.zipWith (· * ·) a b).sum : Int) : ℚ)) (EPS USE_DOUBLE) = true := by
    simp [DotProduct.check_result, real_t.not_gt_self _ _ (EPS_nonneg USE_DOUBLE)]
  refine ⟨hlen, hacc, hhost, hcheck, ?_, DotProduct.partial_dot_products_ones USE_DOUBLE,
    DotProduct.accumulate_ones USE_DOUBLE, DotProduct.host_dot_product_ones USE_DOUBLE⟩
  intro rt argv platformName deviceTypeName deviceNum clSourcePath kernelName F platformID
    deviceType deviceID hs hargc h1 h2 h3 h4 h5 hfind htype hge hnum hdev hfile hread
  obtain ⟨printed0, hprinted, hbuild, hret⟩ := DotProduct.main_printed rt USE_DOUBLE argv _ _ _ _
    platformName deviceTypeName deviceNum clSourcePath kernelName F platformID deviceType
    deviceID hs hargc h1 h2 h3 h4 h5 hfind htype hge hnum hdev hfile hhost hread
  rw [hacc, hcheck] at hprinted
  exact ⟨printed0, by simpa using hprinted, hbuild, hret⟩

/-- C17, witness: for the vectors of 256 ones, whose entries lie between 0 and 9, the
device returns 16 partial dot products, accumulating them gives the host dot product,
and the run `dot B gpu 0 kernel.cl k` on a device that delivers them prints PASSED
last. -/
theorem dot_product_partial_sums_witness :
    (DotProduct.partial_dot_products false 16
        ((List.replicate 256 (1 : Int)).map (fun (n : Int) => real_t.num (n : ℚ)))
        ((List.replicate 256 (1 : Int)).map (fun (n : Int) => real_t.num (n : ℚ)))).length = 16
    ∧ DotProduct.accumulate false
        (DotProduct.partial_dot_products false 16
          ((List.replicate 256 (1 : Int)).map (fun (n : Int) => real_t.num (n : ℚ)))
          ((List.replicate 256 (1 : Int)).map (fun (n : Int) => real_t.num (n : ℚ))))
        (real_t.num 0)
      = real_t.num (((List.zipWith (· * ·) (List.replicate 256 (1 : Int))
          (List.replicate 256 (1 : Int))).sum : Int) : ℚ)
    ∧ ∃ printed0 : List Message,
        ((DotProduct.main false ["dot", "B", "gpu", "0", "kernel.cl", "k"]
            ((List.replicate 256 (1 : Int)).map (fun (n : Int) => real_t.num (n : ℚ)))
            ((List.replicate 256 (1 : Int)).map (fun (n : Int) => real_t.num (n : ℚ)))).run
          (Example.reading (DotProduct.partial_dot_products false 16
            ((List.replicate 256 (1 : Int)).map (fun (n : Int) => real_t.num (n : ℚ)))
            ((List.replicate 256 (1 : Int)).map
              (fun (n : Int) => real_t.num (n : ℚ)))))).1.printed
          = printed0 ++
            [Message.dot_values
                (real_t.num (((List.zipWith (· * ·) (List.replicate 256 (1 : Int))
                  (List.replicate 256 (1 : Int))).sum : Int) : ℚ))
                (real_t.num (((List.zipWith (· * ·) (List.replicate 256 (1 : Int))
                  (List.replicate 256 (1 : Int))).sum : Int) : ℚ)),
              Message.passed] :=
  ⟨(dot_product_partial_sums (List.replicate 256 1) (List.replicate 256 1) false
      (List.length_replicate _ _) (List.length_replicate _ _)
      (fun n hn => by rw [List.eq_of_mem_replicate hn]; decide)
      (fun n hn => by rw [List.eq_of_mem_replicate hn]; decide)).1,
    (dot_product_partial_sums (List.replicate 256 1) (List.replicate 256 1) false
      (List.length_replicate _ _) (List.length_replicate _ _)
      (fun n hn => by rw [List.eq_of_mem_replicate hn]; decide)
      (fun n hn => by rw [List.eq_of_mem_replicate hn]; decide)).2.1,
    ((dot_product_partial_sums (List.replicate 256 1) (List.replicate 256 1) false
      (List.length_replicate _ _) (List.length_replicate _ _)
      (fun n hn => by rw [List.eq_of_mem_replicate hn]; decide)
      (fun n hn => by rw [List.eq_of_mem_replicate hn]; decide)).2.2.2.2.1
      (Example.reading (DotProduct.partial_dot_products false 16
        ((List.replicate 256 (1 : Int)).map (fun (n : Int) => real_t.num (n : ℚ)))
        ((List.replicate 256 (1 : Int)).map (fun (n : Int) => real_t.num (n : ℚ)))))
      ["dot", "B", "gpu", "0", "kernel.cl", "k"] "B" "gpu" "0" "kernel.cl" "k" "F" 8
      cl_device_type.CL_DEVICE_TYPE_GPU 20 (fun _ _ => rfl) (by decide) (by decide) (by decide)
      (by decide) (by decide) (by decide) (by decide) (by decide) (by decide) (by decide)
      (by decide) (by decide) (fun h => Example.reading_readBack _ h)).imp
      (fun _ h => h.1)⟩

/-- C20, as stated, fails on the paths where a device call fails. In the run
`dot B gpu 0 kernel.cl k` of the dot-product driver with a failing `clSetKernelArg`,
the three buffers are created, the error is reported and the process exits with
`EXIT_FAILURE`: no `clReleaseMemObject` is issued. In both stencil device paths with a
failing `clSetKernelArg` the calls are the three creations and the failing call, and
the process exits with `EXIT_FAILURE`. -/
theorem release_on_failure_counterexample :
    ((DotProduct.main false ["dot", "B", "gpu", "0", "kernel.cl", "k"]
        (List.replicate 256 (real_t.num 1)) (List.replicate 256 (real_t.num 1))).run
        (Example.failingOn (fun c => match c with
          | Call.clSetKernelArg _ _ _ => true
          | _ => false))).2 = Outcome.exit EXIT_FAILURE
    ∧ (((DotProduct.main false ["dot", "B", "gpu", "0", "kernel.cl", "k"]
        (List.replicate 256 (real_t.num 1)) (List.replicate 256 (real_t.num 1))).run
        (Example.failingOn (fun c => match c with
          | Call.clSetKernelArg _ _ _ => true
          | _ => false))).1.calls.filter (fun c => match c with
            | Call.clCreateBuffer _ _ _ _ => true
            | _ => false)).length = 3
    ∧ ((DotProduct.main false ["dot", "B", "gpu", "0", "kernel.cl", "k"]
        (List.replicate 256 (real_t.num 1)) (List.replicate 256 (real_t.num 1))).run
        (Example.failingOn (fun c => match c with
          | Call.clSetKernelArg _ _ _ => true
          | _ => false))).1.calls.filter (fun c => match c with
            | Call.clReleaseMemObject _ => true
            | _ => false) = []
    ∧ ((DotProduct.main false ["dot", "B", "gpu", "0", "kernel.cl", "k"]
        (List.replicate 256 (real_t.num 1)) (List.replicate 256 (real_t.num 1))).run
        (Example.failingOn (fun c => match c with
          | Call.clSetKernelArg _ _ _ => true
          | _ => false))).1.printed = [Message.error (-5) "clSetKernelArg(V1)"]
    ∧ ((Convolution.device_apply_stencil false (List.replicate 9 (real_t.num 1)) 3
        (Convolution.create_filter false (fun _ => real_t.nan)) 3
        (List.replicate 9 (real_t.num 0)) Example.clenv [1, 1] [1, 1]).run
        (Example.failingOn (fun c => match c with
          | Call.clSetKernelArg _ _ _ => true
          | _ => false))).2 = Outcome.exit EXIT_FAILURE
    ∧ (((Convolution.device_apply_stencil false (List.replicate 9 (real_t.num 1)) 3
        (Convolution.create_filter false (fun _ => real_t.nan)) 3
        (List.replicate 9 (real_t.num 0)) Example.clenv [1, 1] [1, 1]).run
        (Example.failingOn (fun c => match c with
          | Call.clSetKernelArg _ _ _ => true
          | _ => false))).1.calls.map (fun c => match c with
            | Call.clCreateBuffer _ _ _ _ => "create"
            | Call.clReleaseMemObject _ => "release"
            | _ => "other")) = ["create", "create", "create", "other"]
    ∧ ((Convolution.device_apply_stencil_image false false (List.replicate 9 (real_t.num 1)) 3
        (Convolution.create_filter false (fun _ => real_t.nan)) 3
        (List.replicate 9 (real_t.num 0)) Example.clenv [1, 1] [1, 1]).run
        (Example.failingOn (fun c => match c with
          | Call.clSetKernelArg _ _ _ => true
          | _ => false))).2 = Outcome.exit EXIT_FAILURE
    ∧ (((Convolution.device_apply_stencil_image false false (List.replicate 9 (real_t.num 1)) 3
        (Convolution.create_filter false (fun _ => real_t.nan)) 3
        (List.replicate 9 (real_t.num 0)) Example.clenv [1, 1] [1, 1]).run
        (Example.failingOn (fun c => match c with
          | Call.clSetKernelArg _ _ _ => true
          | _ => false))).1.calls.map (fun c => match c with
            | Call.clCreateBuffer _ _ _ _ => "create"
            | Call.clCreateImage2D _ _ _ _ _ => "create"
            | Call.clReleaseMemObject _ => "release"
            | _ => "other")) = ["create", "create", "create", "other"] := by
  refine ⟨by decide, by decide, by decide, by decide, by decide, by decide, by decide,
    by decide⟩

/-- C20, as amended. When every call succeeds: a run of the dot-product driver with valid
arguments creates three buffers, whose handles are their positions in the log, uses
them, releases each of them once after the read-back, in the order `devV1`, `devV2`,
`partialReduction`, and only then releases the command queue, kernel, program and
context; no other call of the run creates or releases a memory object or releases the
context. The calls `device_apply_stencil` and `device_apply_stencil_image` add to the
log are the three creations, the kernel arguments, the timed launch, the read-back and
one release of each of the three objects, which are their last calls. -/
theorem memory_objects_released_once (rt : Runtime) (USE_DOUBLE WRITE_TO_IMAGE : Bool)
    (argv : List String) (V1 V2 : List real_t) (hostDot : real_t)
    (platformName deviceTypeName deviceNum clSourcePath kernelName F : String)
    (platformID : cl_platform_id) (deviceType : cl_device_type) (deviceID : cl_device_id)
    (in_ : List real_t) (size : Int) (filter : List real_t) (filterSize : Int)
    (out : List real_t) (clenv : CLEnv) (globalWorkSize localWorkSize : List Nat) (s : Log)
    (commandQueue : cl_command_queue) (kernel : cl_kernel)
    (hs : ∀ h c, rt.status h c = CL_SUCCESS)
    (hargc : 6 ≤ argv.length)
    (h1 : argv[1]? = some platformName) (h2 : argv[2]? = some deviceTypeName)
    (h3 : argv[3]? = some deviceNum) (h4 : argv[4]? = some clSourcePath)
    (h5 : argv[5]? = some kernelName)
    (hfind : rt.platformIDs.find? (fun p => decide (platformName = rt.platformName p))
      = some platformID)
    (htype : create_cl_context.deviceType deviceTypeName = some deviceType)
    (hge : 0 ≤ atoi deviceNum) (hnum : isInt (atoi deviceNum) = true)
    (hdev : (rt.deviceIDs platformID deviceType)[(atoi deviceNum).toNat]? = some deviceID)
    (hfile : rt.fileText clSourcePath = some F)
    (hhost : DotProduct.host_dot_product USE_DOUBLE V1 V2 = some hostDot)
    (hq : clenv.commandQueue = some commandQueue) (hk : clenv.kernel = some kernel)
    (hsize : isInt (size * size) = true) :
    (∃ (pre : List Call) (program : cl_program),
      ((DotProduct.main USE_DOUBLE argv V1 V2).run rt).1.calls
        = pre ++
            [Call.clCreateBuffer (some ⟨platformID, deviceID⟩) [cl_mem_flag.CL_MEM_WRITE_ONLY]
                (16 * sizeof_real_t USE_DOUBLE) none,
              Call.clCreateBuffer (some ⟨platformID, deviceID⟩)
                [cl_mem_flag.CL_MEM_READ_ONLY, cl_mem_flag.CL_MEM_COPY_HOST_PTR]
                (256 * sizeof_real_t USE_DOUBLE) (some V1),
              Call.clCreateBuffer (some ⟨platformID, deviceID⟩)
                [cl_mem_flag.CL_MEM_READ_ONLY, cl_mem_flag.CL_MEM_COPY_HOST_PTR]
                (256 * sizeof_real_t USE_DOUBLE) (some V2),
              Call.clSetKernelArg (some ⟨program, kernelName⟩) 0
                (KernelArg.mem (pre.length + 1)),
              Call.clSetKernelArg (some ⟨program, kernelName⟩) 1
                (KernelArg.mem (pre.length + 2)),
              Call.clSetKernelArg (some ⟨program, kernelName⟩) 2 (KernelArg.mem pre.length),
              Call.clEnqueueNDRangeKernel ⟨⟨platformID, deviceID⟩, deviceID, false⟩
                ⟨program, kernelName⟩ 1 [256] [16],
              Call.clEnqueueReadBuffer (some ⟨⟨platformID, deviceID⟩, deviceID, false⟩)
                pre.length (16 * sizeof_real_t USE_DOUBLE),
              Call.clReleaseMemObject (pre.length + 1),
              Call.clReleaseMemObject (pre.length + 2),
              Call.clReleaseMemObject pre.length,
              Call.clReleaseCommandQueue (some ⟨⟨platformID, deviceID⟩, deviceID, false⟩),
              Call.clReleaseKernel (some ⟨program, kernelName⟩),
              Call.clReleaseProgram (some program),
              Call.clReleaseContext (some ⟨platformID, deviceID⟩)]
      ∧ ((DotProduct.main USE_DOUBLE argv V1 V2).run rt).2 = Outcome.ret 0
      ∧ (∀ c ∈ pre, (∀ m, c ≠ Call.clReleaseMemObject m)
          ∧ (∀ x f n h, c ≠ Call.clCreateBuffer x f n h)
          ∧ (∀ x f w h d, c ≠ Call.clCreateImage2D x f w h d)
          ∧ (∀ x, c ≠ Call.clReleaseContext x)))
    ∧ (∃ n : Nat,
      ((DotProduct.main USE_DOUBLE argv V1 V2).run rt).1.calls.filter
          (fun c => match c with
            | Call.clReleaseMemObject _ => true
            | Call.clReleaseContext _ => true
            | _ => false)
        = [Call.clReleaseMemObject (n + 1), Call.clReleaseMemObject (n + 2),
            Call.clReleaseMemObject n, Call.clReleaseContext (some ⟨platformID, deviceID⟩)])
    ∧
    (∃ (BYTE_SIZE FILTER_BYTE_SIZE : Nat) (ev : cl_event) (timems : double)
      (out1 : List real_t),
      Convolution.device_apply_stencil USE_DOUBLE in_ size filter filterSize out clenv
          globalWorkSize localWorkSize rt s
        = (⟨s.calls ++
            [Call.clCreateBuffer clenv.context
                [cl_mem_flag.CL_MEM_WRITE_ONLY, cl_mem_flag.CL_MEM_COPY_HOST_PTR] BYTE_SIZE
                (some out),
              Call.clCreateBuffer clenv.context
                [cl_mem_flag.CL_MEM_READ_ONLY, cl_mem_flag.CL_MEM_COPY_HOST_PTR] BYTE_SIZE
                (some in_),
              Call.clCreateBuffer clenv.context
                [cl_mem_flag.CL_MEM_READ_ONLY, cl_mem_flag.CL_MEM_COPY_HOST_PTR]
                FILTER_BYTE_SIZE (some filter),
              Call.clSetKernelArg clenv.kernel 0 (KernelArg.mem (s.calls.length + 1)),
              Call.clSetKernelArg clenv.kernel 1 (KernelArg.int size),
              Call.clSetKernelArg clenv.kernel 2 (KernelArg.mem (s.calls.length + 2)),
              Call.clSetKernelArg clenv.kernel 3 (KernelArg.int filterSize),
              Call.clSetKernelArg clenv.kernel 4 (KernelArg.mem s.calls.length),
              Call.clFinish commandQueue,
              Call.clEnqueueNDRangeKernel commandQueue kernel 2 globalWorkSize localWorkSize,
              Call.clFinish commandQueue,
              Call.clWaitForEvents ev,
              Call.clGetEventProfilingInfo ev cl_profiling_info.CL_PROFILING_COMMAND_QUEUED,
              Call.clGetEventProfilingInfo ev cl_profiling_info.CL_PROFILING_COMMAND_END,
              Call.clEnqueueReadBuffer clenv.commandQueue s.calls.length BYTE_SIZE,
              Call.clReleaseMemObject (s.calls.length + 1),
              Call.clReleaseMemObject (s.calls.length + 2),
              Call.clReleaseMemObject s.calls.length], s.printed⟩,
          Outcome.ret (timems, out1)))
    ∧
    (∃ (BYTE_SIZE : Nat) (ev : cl_event) (timems : double) (out1 : List real_t),
      Convolution.device_apply_stencil_image USE_DOUBLE WRITE_TO_IMAGE in_ size filter
          filterSize out clenv globalWorkSize localWorkSize rt s
        = (⟨s.calls ++
            [(if WRITE_TO_IMAGE then
                Call.clCreateImage2D clenv.context
                  [cl_mem_flag.CL_MEM_WRITE_ONLY, cl_mem_flag.CL_MEM_COPY_HOST_PTR]
                  (size_t_of_int size) (size_t_of_int size) (some out)
              else
                Call.clCreateBuffer clenv.context
                  [cl_mem_flag.CL_MEM_WRITE_ONLY, cl_mem_flag.CL_MEM_COPY_HOST_PTR] BYTE_SIZE
                  (some out)),
              Call.clCreateImage2D clenv.context
                [cl_mem_flag.CL_MEM_READ_ONLY, cl_mem_flag.CL_MEM_COPY_HOST_PTR]
                (size_t_of_int size) (size_t_of_int size) (some in_),
              Call.clCreateImage2D clenv.context
                [cl_mem_flag.CL_MEM_READ_ONLY, cl_mem_flag.CL_MEM_COPY_HOST_PTR]
                (size_t_of_int filterSize) (size_t_of_int filterSize) (some filter),
              Call.clSetKernelArg clenv.kernel 0 (KernelArg.mem (s.calls.length + 1)),
              Call.clSetKernelArg clenv.kernel 1 (KernelArg.mem (s.calls.length + 2)),
              Call.clSetKernelArg clenv.kernel 2 (KernelArg.mem s.calls.length),
              Call.clFinish commandQueue,
              Call.clEnqueueNDRangeKernel commandQueue kernel 2 globalWorkSize localWorkSize,
              Call.clFinish commandQueue,
              Call.clWaitForEvents ev,
              Call.clGetEventProfilingInfo ev cl_profiling_info.CL_PROFILING_COMMAND_QUEUED,
              Call.clGetEventProfilingInfo ev cl_profiling_info.CL_PROFILING_COMMAND_END,
              (if WRITE_TO_IMAGE then
                Call.clEnqueueReadImage clenv.commandQueue s.calls.length
                  [size_t_of_int size, size_t_of_int size, 1]
              else
                Call.clEnqueueReadBuffer clenv.commandQueue s.calls.length BYTE_SIZE),
              Call.clReleaseMemObject s.calls.length,
              Call.clReleaseMemObject (s.calls.length + 1),
              Call.clReleaseMemObject (s.calls.length + 2)], s.printed⟩,
          Outcome.ret (timems, out1))) := by
  have hdot := DotProduct.main_success rt USE_DOUBLE argv V1 V2 hostDot platformName
    deviceTypeName deviceNum clSourcePath kernelName F platformID deviceType deviceID hs hargc
    h1 h2 h3 h4 h5 hfind htype hge hnum hdev hfile hhost
  refine ⟨hdot, ?_,
    device_apply_stencil_success rt USE_DOUBLE in_ size filter filterSize out clenv
      globalWorkSize localWorkSize s commandQueue kernel hs hq hk hsize,
    device_apply_stencil_image_success rt USE_DOUBLE WRITE_TO_IMAGE in_ size filter filterSize
      out clenv globalWorkSize localWorkSize s commandQueue kernel hs hq hk hsize⟩
  obtain ⟨pre, program, hcalls, _, hpre⟩ := hdot
  refine ⟨pre.length, ?_⟩
  have hnil : pre.filter (fun c => match c with
      | Call.clReleaseMemObject _ => true
      | Call.clReleaseContext _ => true
      | _ => false) = [] := by
    apply List.filter_eq_nil_iff.mpr
    intro c hc
    obtain ⟨hr, _, _, hx⟩ := hpre c hc
    cases c <;> simp
    · exact hx _ rfl
    · exact hr _ rfl
  rw [hcalls, List.filter_append, hnil]
  rfl

/-- C20, witness: in the run `dot B gpu 0 kernel.cl k` on vectors of ones, with every
call succeeding, the three buffers are released once each and then the context. -/
theorem memory_objects_released_once_witness :
    ∃ n : Nat,
      ((DotProduct.main false ["dot", "B", "gpu", "0", "kernel.cl", "k"]
          (List.replicate 256 (real_t.num 1)) (List.replicate 256 (real_t.num 1))).run
          Example.runtime).1.calls.filter
          (fun c => match c with
            | Call.clReleaseMemObject _ => true
            | Call.clReleaseContext _ => true
            | _ => false)
        = [Call.clReleaseMemObject (n + 1), Call.clReleaseMemObject (n + 2),
            Call.clReleaseMemObject n, Call.clReleaseContext (some ⟨8, 20⟩)] :=
  (memory_objects_released_once Example.runtime false false
    ["dot", "B", "gpu", "0", "kernel.cl", "k"]
    (List.replicate 256 (real_t.num 1)) (List.replicate 256 (real_t.num 1)) (real_t.num 256)
    "B" "gpu" "0" "kernel.cl" "k" "F" 8 cl_device_type.CL_DEVICE_TYPE_GPU 20
    (List.replicate 9 (real_t.num 1)) 3 (Convolution.create_filter false (fun _ => real_t.nan))
    3 (List.replicate 9 (real_t.num 0)) Example.clenv [1, 1] [1, 1] Log.empty
    ⟨⟨8, 20⟩, 20, true⟩ ⟨⟨⟨8, 20⟩, "F"⟩, "k"⟩
    (fun _ _ => rfl) (by decide) (by decide) (by decide) (by decide) (by decide) (by decide)
    (by decide) (by decide) (by decide) (by decide) (by decide) (by decide)
    (DotProduct.host_dot_product_ones false) rfl rfl (by decide)).2.1

/-- C22, the divergence. In either build `create_filter` returns `9 * sizeof(real_t)`
elements, 36 in single and 72 in double precision, not 9: the nine values of the
array `f` in row-major order followed by what lies behind the array in memory. The
byte size of the returned vector is therefore not the `sizeof(real_t) * 3 * 3` bytes
the device paths copy. -/
theorem create_filter_reads_beyond (USE_DOUBLE : Bool) (beyond : Nat → real_t) :
    Convolution.create_filter USE_DOUBLE beyond
      = [real_t.num 1, real_t.num 1, real_t.num 1,
         real_t.num 1, real_t.num 0, real_t.num 1,
         real_t.num 1, real_t.num 1, real_t.num 1]
        ++ (List.range' 9 (9 * sizeof_real_t USE_DOUBLE - 9)).map beyond
    ∧ (Convolution.create_filter USE_DOUBLE beyond).length = 9 * sizeof_real_t USE_DOUBLE
    ∧ (Convolution.create_filter false beyond).length = 36
    ∧ (Convolution.create_filter true beyond).length = 72
    ∧ (Convolution.create_filter USE_DOUBLE beyond).length ≠ 9
    ∧ sizeof_real_t USE_DOUBLE * (Convolution.create_filter USE_DOUBLE beyond).length
      ≠ sizeof_real_t USE_DOUBLE * 3 * 3 := by
  have h4 : (Convolution.create_filter false beyond).length = 36 := rfl
  have h8 : (Convolution.create_filter true beyond).length = 72 := rfl
  cases USE_DOUBLE
  · refine ⟨rfl, rfl, rfl, rfl, ?_, ?_⟩ <;> rw [h4] <;> decide
  · refine ⟨rfl, rfl, rfl, rfl, ?_, ?_⟩ <;> rw [h8] <;> decide

/-- C23, failing inputs. `BLOCK_SIZE = 0` makes the divisibility check of the convolution
driver take a remainder by zero. The check accepts `SIZE = 2`, `BLOCK_SIZE = 1` with a
global work size of 0, below the local work size; `SIZE = 1`, `BLOCK_SIZE = 1` with the
global work size 2^64 - 1 for `SIZE - 2 = -1`; and `SIZE = 3`, `BLOCK_SIZE = -1` with
the local work size 2^64 - 1 for `BLOCK_SIZE = -1`. -/
theorem configureLaunch_accepts_unchecked :
    (Convolution.main.configureLaunch 3 0).run Example.runtime = (Log.empty, Outcome.undefined)
    ∧ (Convolution.main.configureLaunch 2 1).run Example.runtime
      = (Log.empty, Outcome.ret ⟨[0, 0], [1, 1]⟩)
    ∧ ¬ ((2 : Int) ≥ 3) ∧ ¬ ((0 : Nat) ≥ 1)
    ∧ (Convolution.main.configureLaunch 1 1).run Example.runtime
      = (Log.empty, Outcome.ret ⟨[18446744073709551615, 18446744073709551615], [1, 1]⟩)
    ∧ ¬ ((1 : Int) ≥ 3) ∧ ((18446744073709551615 : Nat) : Int) ≠ 1 - 2
    ∧ (Convolution.main.configureLaunch 3 (-1)).run Example.runtime
      = (Log.empty, Outcome.ret ⟨[1, 1], [18446744073709551615, 18446744073709551615]⟩)
    ∧ ¬ ((-1 : Int) > 0) ∧ ((18446744073709551615 : Nat) : Int) ≠ -1
    ∧ ¬ ((1 : Nat) ≥ 18446744073709551615) := by
  refine ⟨by decide, by decide, by decide, by decide, by decide, by decide, by decide,
    by decide, by decide, by decide, by decide⟩

theorem Convolution.main_eq_run (USE_DOUBLE WRITE_TO_IMAGE : Bool) (argv : List String)
    (in_ : List real_t) (beyond : Nat → real_t) (mode : String)
    (h9 : 9 ≤ argv.length) (h8 : argv[8]? = some mode)
    (hmode : ¬ (USE_DOUBLE = true ∧ mode = "image")) :
    Convolution.main USE_DOUBLE WRITE_TO_IMAGE argv in_ beyond
      = Convolution.main.run USE_DOUBLE WRITE_TO_IMAGE (decide (mode = "image")) argv in_
          beyond := by
  have hlt : ¬ argv.length < 9 := by omega
  funext rt s
  by_cases hm : mode = "image"
  · have hU : USE_DOUBLE = false := by
      cases USE_DOUBLE
      · rfl
      · exact absurd ⟨rfl, hm⟩ hmode
    subst hU
    simp [Convolution.main, Convolution.main.mode, arg, h8, hlt, hm, CL.bind_eq, CL.pure_eq]
  · simp [Convolution.main, Convolution.main.mode, arg, h8, hlt, hm, CL.bind_eq, CL.pure_eq]

/-- C21, as amended. In a run of the convolution driver with valid arguments in which
every call succeeds, the host stencil returns `refOut`, the read-back delivers `out`
and `check_result(out, refOut, EPS)` returns `verdict`: after the build output, if
any, the driver prints the elapsed time computed from the event of the launch and then
PASSED when the verdict is true, and FAILED alone when it is false; no elapsed time is
printed in a FAILED run, exactly one verdict is printed, and `main` returns 0. -/
theorem verdict_printed (rt : Runtime) (USE_DOUBLE WRITE_TO_IMAGE : Bool)
    (argv : List String) (in_ : List real_t) (beyond : Nat → real_t)
    (platformName deviceTypeName deviceNum clSourcePath kernelName size block mode F : String)
    (platformID : cl_platform_id) (deviceType : cl_device_type) (deviceID : cl_device_id)
    (refOut devOut : List real_t) (verdict : Bool)
    (hs : ∀ h c, rt.status h c = CL_SUCCESS)
    (h9 : 9 ≤ argv.length)
    (h1 : argv[1]? = some platformName) (h2 : argv[2]? = some deviceTypeName)
    (h3 : argv[3]? = some deviceNum) (h4 : argv[4]? = some clSourcePath)
    (h5 : argv[5]? = some kernelName) (h6 : argv[6]? = some size)
    (h7 : argv[7]? = some block) (h8 : argv[8]? = some mode)
    (hmode : ¬ (USE_DOUBLE = true ∧ mode = "image"))
    (hS : 2 ≤ atoi size) (hS2 : atoi size ≤ INT_MAX) (hB : 1 ≤ atoi block)
    (hB2 : atoi block ≤ INT_MAX) (hdvd : atoi block ∣ atoi size - 2)
    (hsize : isInt (atoi size * atoi size) = true)
    (hfind : rt.platformIDs.find? (fun p => decide (platformName = rt.platformName p))
      = some platformID)
    (htype : create_cl_context.deviceType deviceTypeName = some deviceType)
    (hge : 0 ≤ atoi deviceNum) (hnum : isInt (atoi deviceNum) = true)
    (hdev : (rt.deviceIDs platformID deviceType)[(atoi deviceNum).toNat]? = some deviceID)
    (hfile : rt.fileText clSourcePath = some F)
    (hhost : Convolution.host_apply_stencil in_ (atoi size)
      (Convolution.create_filter USE_DOUBLE beyond) Convolution.FILTER_SIZE
      (List.replicate (atoi size * atoi size).toNat (real_t.num 0)) = some refOut)
    (hread : ∀ h, rt.readBack h = devOut)
    (hcheck : Convolution.check_result devOut refOut (EPS USE_DOUBLE) = some verdict) :
    ∃ (printed0 : List Message) (ev : cl_event),
      (∀ m ∈ printed0, ∃ log, m = Message.build_output log)
      ∧ Call.clWaitForEvents ev
        ∈ ((Convolution.main USE_DOUBLE WRITE_TO_IMAGE argv in_ beyond).run rt).1.calls
      ∧ ((Convolution.main USE_DOUBLE WRITE_TO_IMAGE argv in_ beyond).run rt).1.printed
        = printed0 ++
          (if verdict then
            [Message.elapsed_time (elapsed_ms
                (rt.profilingInfo ev cl_profiling_info.CL_PROFILING_COMMAND_QUEUED)
                (rt.profilingInfo ev cl_profiling_info.CL_PROFILING_COMMAND_END)),
              Message.passed]
          else [Message.failed])
      ∧ (verdict = false → ∀ t, Message.elapsed_time t
          ∉ ((Convolution.main USE_DOUBLE WRITE_TO_IMAGE argv in_ beyond).run rt).1.printed)
      ∧ ((Convolution.main USE_DOUBLE WRITE_TO_IMAGE argv in_ beyond).run rt).2
        = Outcome.ret 0 := by
  obtain ⟨pre, printed0, context, kernel, queue, _, _, _, _, _, hbuild, ev, hcalls, hprinted,
      hret⟩ :=
    Convolution.main_run_success rt USE_DOUBLE WRITE_TO_IMAGE (decide (mode = "image")) argv in_
      beyond platformName deviceTypeName deviceNum clSourcePath kernelName size block F
      platformID deviceType deviceID refOut devOut verdict hs h1 h2 h3 h4 h5 h6 h7 hS hS2 hB
      hB2 hdvd hsize hfind htype hge hnum hdev hfile hhost hread hcheck
  rw [Convolution.main_eq_run USE_DOUBLE WRITE_TO_IMAGE argv in_ beyond mode h9 h8 hmode]
  refine ⟨printed0, ev, hbuild, ?_, hprinted, ?_, hret⟩
  · rw [hcalls]
    by_cases hm : mode = "image" <;> simp [hm]
  · intro hv t ht
    rw [hprinted, hv] at ht
    simp only [Bool.false_eq_true, if_false, List.mem_append, List.mem_singleton] at ht
    rcases ht with ht | ht
    · obtain ⟨log, hlog⟩ := hbuild _ ht
      cases hlog
    · cases ht

theorem Convolution.check_result_refl (X : List real_t) (eps : double)
    (heps : real_t.le (real_t.num 0) eps = true) :
    Convolution.check_result X X eps = some true := by
  unfold Convolution.check_result
  rw [Convolution.check_result.loop_true X X eps rfl X.length 0 (by omega)]
  intro j _ _ _
  exact real_t.not_gt_self _ _ heps

/-- C21, witness: the run `conv B gpu 0 kernel.cl k 3 1 std` on the 3 x 3 grid of nines,
with a device that delivers the host result, prints the elapsed time and PASSED. -/
theorem verdict_printed_witness :
    ∃ (refOut : List real_t) (printed0 : List Message) (ev : cl_event),
      Convolution.host_apply_stencil (List.replicate 9 (real_t.num 9)) 3
          (Convolution.create_filter false (fun _ => real_t.nan)) 3
          (List.replicate 9 (real_t.num 0)) = some refOut
      ∧ ((Convolution.main false false
            ["conv", "B", "gpu", "0", "kernel.cl", "k", "3", "1", "std"]
            (List.replicate 9 (real_t.num 9)) (fun _ => real_t.nan)).run
            (Example.reading refOut)).1.printed
        = printed0 ++
            [Message.elapsed_time (elapsed_ms
                ((Example.reading refOut).profilingInfo ev
                  cl_profiling_info.CL_PROFILING_COMMAND_QUEUED)
                ((Example.reading refOut).profilingInfo ev
                  cl_profiling_info.CL_PROFILING_COMMAND_END)),
              Message.passed] := by
  obtain ⟨refOut, hhost, _, _⟩ := Convolution.host_apply_stencil_constant false
    (fun _ => real_t.nan) 3 9 (List.replicate 9 (real_t.num 0)) (by decide)
  obtain ⟨printed0, ev, _, _, hprinted, _, _⟩ := verdict_printed (Example.reading refOut) false
    false ["conv", "B", "gpu", "0", "kernel.cl", "k", "3", "1", "std"]
    (List.replicate 9 (real_t.num 9)) (fun _ => real_t.nan)
    "B" "gpu" "0" "kernel.cl" "k" "3" "1" "std" "F" 8 cl_device_type.CL_DEVICE_TYPE_GPU 20
    refOut refOut true (fun _ _ => rfl) (by decide) (by decide) (by decide) (by decide)
    (by decide) (by decide) (by decide) (by decide) (by decide) (by decide) (by decide)
    (by decide) (by decide) (by decide) (by decide) (by decide) rfl (by decide) (by decide)
    (by decide) rfl rfl hhost
    (fun h => Example.reading_readBack refOut h)
    (Convolution.check_result_refl refOut (EPS false) (EPS_nonneg false))
  exact ⟨refOut, printed0, ev, hhost, hprinted⟩

/-- C21, as stated, fails. In the run `conv B gpu 0 kernel.cl k 3 1 std` on the 3 x 3 grid
of nines, with every call succeeding and a device that delivers nine zeros, the host
result has 8 at the centre, `check_result` is false, and the driver prints FAILED and
returns 0 without printing any elapsed time. -/
theorem verdict_printed_counterexample :
    ∃ refOut : List real_t,
      Convolution.host_apply_stencil (List.replicate 9 (real_t.num 9)) 3
          (Convolution.create_filter false (fun _ => real_t.nan)) 3
          (List.replicate 9 (real_t.num 0)) = some refOut
      ∧ Convolution.check_result (List.replicate 9 (real_t.num 0)) refOut (EPS false)
        = some false
      ∧ Message.failed
        ∈ ((Convolution.main false false
            ["conv", "B", "gpu", "0", "kernel.cl", "k", "3", "1", "std"]
            (List.replicate 9 (real_t.num 9)) (fun _ => real_t.nan)).run
            (Example.reading (List.replicate 9 (real_t.num 0)))).1.printed
      ∧ (∀ t, Message.elapsed_time t
        ∉ ((Convolution.main false false
            ["conv", "B", "gpu", "0", "kernel.cl", "k", "3", "1", "std"]
            (List.replicate 9 (real_t.num 9)) (fun _ => real_t.nan)).run
            (Example.reading (List.replicate 9 (real_t.num 0)))).1.printed)
      ∧ ((Convolution.main false false
            ["conv", "B", "gpu", "0", "kernel.cl", "k", "3", "1", "std"]
            (List.replicate 9 (real_t.num 9)) (fun _ => real_t.nan)).run
            (Example.reading (List.replicate 9 (real_t.num 0)))).2 = Outcome.ret 0 := by
  obtain ⟨refOut, hhost, hlen, hcell⟩ := Convolution.host_apply_stencil_constant false
    (fun _ => real_t.nan) 3 9 (List.replicate 9 (real_t.num 0)) (by decide)
  have hlen9 : refOut.length = 9 := by rw [hlen]; rfl
  have h4 : refOut[4]? = some (real_t.num 8) := by
    have h := hcell 1 1 (by decide) (by decide) (by decide) (by decide)
    rw [vec_get_eq_getElem? _ _ (by decide)] at h
    have e : ((1 : Int) * 3 + 1).toNat = 4 := by decide
    rw [e] at h
    rw [h]
    norm_num
  have hcheck : Convolution.check_result (List.replicate 9 (real_t.num 0)) refOut (EPS false)
      = some false := by
    obtain ⟨b, hb⟩ := Convolution.check_result.loop_some (List.replicate 9 (real_t.num 0)) refOut
      (EPS false) (by rw [hlen9]; rfl) 9 0 (by decide)
    cases b with
    | false => exact hb
    | true =>
      exfalso
      have h := (Convolution.check_result.loop_true (List.replicate 9 (real_t.num 0)) refOut
        (EPS false) (by rw [hlen9]; rfl) 9 0 (by decide)).mp hb 4 (by decide)
        (by rw [hlen9]; decide) (by decide)
      have hb4 : 4 < refOut.length := by rw [hlen9]; decide
      have hr : refOut[4] = real_t.num 8 := by
        have := List.getElem?_eq_getElem hb4
        rw [h4] at this
        exact (Option.some.inj this).symm
      rw [hr] at h
      simp [real_t.sub, real_t.fabs, real_t.gt, EPS] at h
      norm_num at h
  obtain ⟨pre, printed0, context, kernel, queue, _, _, _, _, _, hbuild, ev, _, hprinted,
      hret⟩ :=
    Convolution.main_run_success (Example.reading (List.replicate 9 (real_t.num 0))) false false
      (decide ("std" = "image")) ["conv", "B", "gpu", "0", "kernel.cl", "k", "3", "1", "std"]
      (List.replicate 9 (real_t.num 9)) (fun _ => real_t.nan)
      "B" "gpu" "0" "kernel.cl" "k" "3" "1" "F" 8 cl_device_type.CL_DEVICE_TYPE_GPU 20
      refOut (List.replicate 9 (real_t.num 0)) false (fun _ _ => rfl) (by decide) (by decide)
      (by decide) (by decide) (by decide) (by decide) (by decide) (by decide) (by decide)
      (by decide) (by decide) (by decide) (by decide) (by decide) (by decide) (by decide)
      (by decide) (by decide) rfl hhost (fun h => Example.reading_readBack _ h) hcheck
  rw [Convolution.main_eq_run false false _ _ _ "std" (by decide) (by decide) (by decide)]
  refine ⟨refOut, hhost, hcheck, ?_, ?_, hret⟩
  · rw [hprinted]
    simp
  · intro t ht
    rw [hprinted] at ht
    simp only [Bool.false_eq_true, if_false, List.mem_append, List.mem_singleton] at ht
    rcases ht with ht | ht
    · obtain ⟨log, hlog⟩ := hbuild _ ht
      cases hlog
    · cases ht

namespace Convolution

end Convolution

end OpenCLTraining
